import Mathlib

/-!
# Drone fleet scheduler: path simplifier, assignment and cycle scheduler

A shallow embedding of `example/algorithm/src/algorithm.cpp`.

* Grid cells (`AStar::Vec2i`) carry `Int` coordinates. The differences and
  products of the two simplifier tests are 32-bit `int` computations: their
  values are reduced with `wrap32`. A cast `(int)(v / cell)` whose truncated
  quotient is outside the range of `int` gives `INT_MIN`.
* World coordinates (`Vec3`) are rationals; the library square root is a
  parameter `sqrt` of every definition that calls `std::sqrt`, and the
  conversion of a `double` to `float` is a parameter `to_float` of every
  definition that stores a value in a `float` variable.
* `std::vector` is `List`; a read outside a vector is a `Fault`.
-/

namespace Mtuav

/-! ## Path simplifier -/

/-- Grid cell `AStar::Vec2i`. -/
@[ext]
structure Vec2i where
  x : Int
  y : Int
deriving DecidableEq

/-- The value of a 32-bit `int` computation whose exact result is `n`: the
representative of `n` modulo `2^32` in the range from `-2^31` to `2^31 - 1`. -/
def wrap32 (n : Int) : Int := (n + 2147483648) % 4294967296 - 2147483648

/-- The cross-product test of `remove_middle_points` on
`coordinate1 = path[i-1]`, `coordinate2 = path[i]`, `coordinate3 = path[i+1]`.
The differences and the two products are `int` computations, so the products
are compared as 32-bit values. -/
def collinear_test (c1 c2 c3 : Vec2i) : Bool :=
  decide (wrap32 (wrap32 (c2.y - c1.y) * wrap32 (c3.x - c2.x))
    = wrap32 (wrap32 (c3.y - c2.y) * wrap32 (c2.x - c1.x)))

/-- The loop `for (i = 1; i < path.size() - 1; i++)` of `remove_middle_points`,
run on the window `path[i-1], path[i], path[i+1], ...`: the argument is the
path from index `i - 1` on, the value is what the loop pushes from index `i` on. -/
def remove_middle_points_loop : List Vec2i → List Vec2i
  | c1 :: c2 :: c3 :: rest =>
    if collinear_test c1 c2 c3 then remove_middle_points_loop (c2 :: c3 :: rest)
    else c2 :: remove_middle_points_loop (c2 :: c3 :: rest)
  | _ => []

/-- Function `remove_middle_points`: paths of at most two points are returned
as they are; otherwise `path[0]`, the interior points that fail the
collinearity test with their two neighbours in `path`, and `path.back()`. -/
def remove_middle_points (path : List Vec2i) : List Vec2i :=
  if path.length ≤ 2 then path
  else
    match path, path.getLast? with
    | p0 :: _, some pl => p0 :: (remove_middle_points_loop path ++ [pl])
    | _, _ => path

/-- The value `std::abs(n)` of a 32-bit `int`: the absolute value computed as
a 32-bit value (for `INT_MIN` it is `INT_MIN`). -/
def abs32 (n : Int) : Int := wrap32 (n.natAbs : Int)

/-- The adjacency test of `remove_single_step`:
`abs(next.x - cur.x) <= 1 && abs(next.y - cur.y) <= 1`, with the differences
and absolute values computed as 32-bit values. -/
def single_step_test (cur next : Vec2i) : Bool :=
  decide (abs32 (wrap32 (next.x - cur.x)) ≤ 1) && decide (abs32 (wrap32 (next.y - cur.y)) ≤ 1)

/-- The loop `for (i = 1; i < path.size() - 1; i++)` of `remove_single_step`:
the argument is the path from index `i` on, and the loop runs while at least
two points remain (`i < size - 1`). A merge pushes `path[i+1]` and advances `i`
by two, otherwise `path[i]` is pushed and `i` advances by one. -/
def remove_single_step_loop : List Vec2i → List Vec2i
  | [] => []
  | [_] => []
  | cur :: next :: rest =>
    if single_step_test cur next then next :: remove_single_step_loop rest
    else cur :: remove_single_step_loop (next :: rest)

/-- Function `remove_single_step`. -/
def remove_single_step (path : List Vec2i) : List Vec2i :=
  if path.length ≤ 2 then path
  else
    match path, path.getLast? with
    | p0 :: tl, some pl => p0 :: (remove_single_step_loop tl ++ [pl])
    | _, _ => path

/-! ## Data model of the scheduler -/

/-- World position `Vec3`; the floating-point members are rationals here. -/
structure Vec3 where
  x : ℚ
  y : ℚ
  z : ℚ
deriving DecidableEq

/-- A trajectory sample `Segment`: position, elapsed time since take-off and
phase tag (0 take-off, 1 cruise, 2 landing). The velocity and acceleration
members are not read by the scheduler and are left out. -/
structure Segment where
  position : Vec3
  time_ms : Int
  seg_type : Int
deriving DecidableEq

/-- Flight status of a drone; `OTHER` stands for the values of the SDK
enumeration that the scheduler never names. -/
inductive Status where
  | READY
  | FLYING
  | HOVERING
  | OTHER
deriving DecidableEq

/-- Order status; only `CARGO_WAITING` is tested by the scheduler. -/
inductive CargoStatus where
  | CARGO_WAITING
  | OTHER
deriving DecidableEq

/-- Telemetry record `DroneStatus`. -/
structure DroneStatus where
  drone_id : String
  position : Vec3
  battery : ℚ
  status : Status
  delivering_cargo_ids : List Int
deriving DecidableEq

/-- Order record `CargoInfo`. -/
structure CargoInfo where
  id : Int
  status : CargoStatus
  position : Vec3
  target_position : Vec3
deriving DecidableEq

/-- Purpose tag of a flight plan. -/
inductive FlightPurpose where
  | FLIGHT_TAKE_CARGOS
  | FLIGHT_DELIVER_CARGOS
  | FLIGHT_EXCHANGE_BATTERY
  | OTHER
deriving DecidableEq

/-- Kind of a flight plan. -/
inductive FlightPlanType where
  | PLAN_WAY_POINTS
  | PLAN_TRAJECTORIES
deriving DecidableEq

/-- Record `FlightPlan`. The member `flight_id` is the decimal string of the
flight-plan counter in the source and is kept as the counter value. -/
structure FlightPlan where
  flight_purpose : FlightPurpose
  flight_plan_type : FlightPlanType
  flight_id : Int
  takeoff_timestamp : Int
  segments : List Segment
  target_cargo_ids : List Int
deriving DecidableEq

/-- Kinematic limits handed to the trajectory generator. -/
structure DroneLimits where
  max_fly_speed_h : ℚ
  max_fly_speed_v : ℚ
  max_fly_acc_h : ℚ
  max_fly_acc_v : ℚ
deriving DecidableEq

/-- What C++ leaves undefined or answers with an exception. -/
inductive Fault where
  | index_out_of_bounds
  | at_out_of_range
  | empty_access
  | division_by_zero
deriving DecidableEq

/-- Read `v[i]` of a `std::vector`. -/
def vec_index {α : Type} (v : List α) (i : Nat) : Except Fault α :=
  match v[i]? with
  | some a => .ok a
  | none => .error Fault.index_out_of_bounds

/-- Read `v[i]` with a signed index: a negative index converts to a huge
unsigned one. -/
def vec_index_int {α : Type} (v : List α) (i : Int) : Except Fault α :=
  if i < 0 then .error Fault.index_out_of_bounds else vec_index v i.toNat

/-- Read `v.at(i)` with a signed index; out of range throws. -/
def vec_at {α : Type} (v : List α) (i : Int) : Except Fault α :=
  if i < 0 then .error Fault.at_out_of_range
  else
    match v[i.toNat]? with
    | some a => .ok a
    | none => .error Fault.at_out_of_range

/-- Read `v.back()`. -/
def vec_back {α : Type} (v : List α) : Except Fault α :=
  match v.getLast? with
  | some a => .ok a
  | none => .error Fault.empty_access

/-- Read `v.front()`. -/
def vec_front {α : Type} (v : List α) : Except Fault α :=
  match v with
  | a :: _ => .ok a
  | [] => .error Fault.empty_access

/-- Lookup `m.find(k)` in a `std::map`, kept as an association list. -/
def map_find {κ ν : Type} [DecidableEq κ] (m : List (κ × ν)) (k : κ) : Option ν :=
  match m with
  | [] => none
  | (k', v) :: rest => if k' = k then some v else map_find rest k

/-- The call `m.insert(std::make_pair(k, v))`: the pair is added only when the
map has no entry for `k`; an existing entry is left as it is. -/
def map_insert {κ ν : Type} [DecidableEq κ] (m : List (κ × ν)) (k : κ) (v : ν) : List (κ × ν) :=
  match map_find m k with
  | some _ => m
  | none => m ++ [(k, v)]

/-- The read `m[k]`: the entry for `k`, after adding a default-constructed one
when the map has none. -/
def map_subscript {κ ν : Type} [DecidableEq κ] (m : List (κ × ν)) (k : κ) (dflt : ν) :
    ν × List (κ × ν) :=
  match map_find m k with
  | some v => (v, m)
  | none => (dflt, m ++ [(k, dflt)])

/-- Modelled from the spec: the pathfinder object `AStar::Generator` of the
header `AStar.h`, as far as the scheduler drives it: a world size and the set
of currently blocked cells. -/
structure Generator where
  worldSize : Vec2i
  walls : List Vec2i
deriving DecidableEq

/-- Modelled from the spec: `addCollision` marks a cell as blocked. -/
def Generator.addCollision (g : Generator) (c : Vec2i) : Generator :=
  { g with walls := g.walls ++ [c] }

/-- Modelled from the spec: `removeCollision` clears every reservation of the
cell. -/
def Generator.removeCollision (g : Generator) (c : Vec2i) : Generator :=
  { g with walls := g.walls.filter (fun w => decide (w ≠ c)) }

/-- What the scheduler reads but does not own: the library routines that are
outside the sources (`std::sqrt`, the conversion of a `double` to `float`, the
pathfinder search, the trajectory generator, the assignment solver), the clock,
and the session data (grid, cell sizes, stations, drone limits, the value of a
default-constructed plan). -/
structure Env where
  sqrt : ℚ → ℚ
  to_float : ℚ → ℚ
  findPath : Generator → Vec2i → Vec2i → List Vec2i
  generate_traj_from_waypoints : List Vec3 → DroneLimits → Int → Option (List Segment)
  Solve : List (List ℚ) → List Int
  current_time : Int
  replan_time : String → Int
  _map_grid : List (List (List Int))
  _cell_size_x : ℚ
  _cell_size_y : ℚ
  _cell_size_z : ℚ
  battery_stations : List Vec3
  drone_limits : List DroneLimits
  default_plan : FlightPlan

/-- The mutable members of the algorithm object. -/
structure AlgState where
  _drone_info : List DroneStatus
  _cargo_info : List (Int × CargoInfo)
  _id2plan : List (String × FlightPlan)
  _id2segs : List (String × List Segment)
  _altitude_drone_count : List Int
  flightplan_num : Int

/-! ## Trajectory generation -/

/-- The conversion `(int)(v / cell)`: the quotient truncated toward zero. A
truncated quotient outside the range of a 32-bit `int` converts to `INT_MIN`,
the value the conversion delivers on x86-64 (the language leaves it open). -/
def to_cell (v cell : ℚ) : Except Fault Int :=
  if cell = 0 then .error Fault.division_by_zero
  else
    let truncated : Int := if 0 ≤ v / cell then ⌊v / cell⌋ else ⌈v / cell⌉
    .ok (if -2147483648 ≤ truncated ∧ truncated ≤ 2147483647 then truncated
      else -2147483648)

/-- Index of the first smallest element from `idx` on, given the best so far
(`std::min_element` keeps the first of equal elements). -/
def min_element_from (best : Int) (best_idx : Nat) : List Int → Nat → Nat
  | [], _ => best_idx
  | c :: cs, idx =>
    if c < best then min_element_from c idx cs (idx + 1)
    else min_element_from best best_idx cs (idx + 1)

/-- The index `std::distance(begin, std::min_element(begin, end))`. -/
def min_element_index (counts : List Int) : Nat :=
  match counts with
  | [] => 0
  | c :: cs => min_element_from c 0 cs 1

/-- The statement `v[i] += 1`. -/
def vec_increment (v : List Int) (i : Nat) : Except Fault (List Int) :=
  match v[i]? with
  | some c => .ok (v.set i (c + 1))
  | none => .error Fault.index_out_of_bounds

/-- A fresh generator of the size of `_map_grid` with a collision at every
cell `(x, y)` whose grid entry at layer `(int)(altitude / _cell_size_z)` is 1. -/
def load_grid (env : Env) (altitude : ℚ) : Except Fault Generator := do
  let grid_n_x := env._map_grid.length
  let plane0 ← vec_index env._map_grid 0
  let grid_n_y := plane0.length
  let _column0 ← vec_index plane0 0
  (List.range grid_n_x).foldlM (fun g x =>
    (List.range grid_n_y).foldlM (fun g y => do
      let plane ← vec_index env._map_grid x
      let column ← vec_index plane y
      let layer ← to_cell altitude env._cell_size_z
      let cell ← vec_index_int column layer
      pure (if cell = 1 then g.addCollision ⟨x, y⟩ else g)) g)
    ⟨⟨grid_n_x, grid_n_y⟩, []⟩

/-- The bound `path.size() - 1` of the way-point loops, computed in the
unsigned 64-bit type of `size()`: for the empty path it is `2^64 - 1`. -/
def size_minus_one (n : Nat) : Nat := (n + 2 ^ 64 - 1) % 2 ^ 64

/-- Centre of a grid cell at the cruise altitude. -/
def cell_centre (env : Env) (coordinate : Vec2i) (altitude : ℚ) : Vec3 :=
  ⟨coordinate.x * env._cell_size_x + (1 / 2) * env._cell_size_x,
   coordinate.y * env._cell_size_y + (1 / 2) * env._cell_size_y,
   altitude⟩

/-- The loop `for (int i = 1; i < path_remove_middle.size() - 1; i++)` that
reads `path_remove_middle[i]`: `i` is the index, the list is the path from
index `i` on, and a read past the end of the path is a fault. -/
def interior_waypoints (env : Env) (altitude : ℚ) (bound : Nat) :
    Nat → List Vec2i → Except Fault (List Vec3)
  | i, [] => if i < bound then .error Fault.index_out_of_bounds else .ok []
  | i, coordinate :: rest =>
    if i < bound then do
      let points ← interior_waypoints env altitude bound (i + 1) rest
      pure (cell_centre env coordinate altitude :: points)
    else .ok []

/-- The loop `segs[i].time_ms += offset` over a whole segment list. -/
def shift_times (segs : List Segment) (offset : Int) : List Segment :=
  segs.map (fun sg => { sg with time_ms := sg.time_ms + offset })

/-- The cruise way points: the point above the start, the centres of the
interior cells of the simplified path, the point above the goal. -/
def flying_points (env : Env) (altitude : ℚ) (start end_ : Vec3)
    (path_remove_middle : List Vec2i) : Except Fault (List Vec3) := do
  let interior ← interior_waypoints env altitude (size_minus_one path_remove_middle.length) 1
    (path_remove_middle.drop 1)
  pure ([(⟨start.x, start.y, altitude⟩ : Vec3)] ++ interior ++ [⟨end_.x, end_.y, altitude⟩])

/-- The part of `trajectory_generation` from the take-off request to the
return: the three generator calls, each with its early return of the empty
list and flight time `-1`, the counter increment, the stitching of the three
phases, and the `insert` into `_id2segs`. -/
def assemble_trajectory (env : Env) (s : AlgState) (start end_ : Vec3) (drone : DroneStatus)
    (min_index : Nat) (altitude : Int) (path_remove_middle : List Vec2i) (dl : DroneLimits) :
    Except Fault ((List Segment × Int) × AlgState) := do
  let p_start_air : Vec3 := ⟨start.x, start.y, altitude⟩
  let p_end_air : Vec3 := ⟨end_.x, end_.y, altitude⟩
  match env.generate_traj_from_waypoints [start, p_start_air] dl 0 with
  | none => pure (([], -1), s)
  | some takeoff_segs =>
    let takeoff_flight_time := (← vec_back takeoff_segs).time_ms
    let points ← flying_points env altitude start end_ path_remove_middle
    match env.generate_traj_from_waypoints points dl 1 with
    | none => pure (([], -1), s)
    | some flying_segs =>
      let flying_flight_time := (← vec_back flying_segs).time_ms
      match env.generate_traj_from_waypoints [p_end_air, end_] dl 2 with
      | none => pure (([], -1), s)
      | some landing_segs =>
        let landing_flight_time := (← vec_back landing_segs).time_ms
        let counts ← vec_increment s._altitude_drone_count min_index
        let takeoff_last_time := takeoff_flight_time
        let flying_shifted := shift_times (flying_segs.drop 1) takeoff_last_time
        let flying_last_time := (← vec_back flying_shifted).time_ms
        let landing_shifted := shift_times (landing_segs.drop 1) flying_last_time
        let traj_segs := takeoff_segs ++ flying_shifted ++ landing_shifted
        let flight_time := takeoff_flight_time + flying_flight_time + landing_flight_time
        pure ((traj_segs, flight_time),
          { s with
            _altitude_drone_count := counts
            _id2segs := map_insert s._id2segs drone.drone_id traj_segs })

/-- Member function `trajectory_generation`. The value is the pair (segment list,
flight time) together with the state after the call. The second simplified
path `remove_single_step(path_remove_middle)` is only logged by the source and
does not enter the result. -/
def trajectory_generation (env : Env) (s : AlgState) (start end_ : Vec3) (drone : DroneStatus) :
    Except Fault ((List Segment × Int) × AlgState) := do
  let min_index := min_element_index s._altitude_drone_count
  let altitude_bias : Int := ((min_index : Int) - 2) * 10
  let altitude : Int := 90 + altitude_bias
  let generator ← load_grid env altitude
  let start_grid_x ← to_cell start.x env._cell_size_x
  let start_grid_y ← to_cell start.y env._cell_size_y
  let end_grid_x ← to_cell end_.x env._cell_size_x
  let end_grid_y ← to_cell end_.y env._cell_size_y
  let path :=
    (env.findPath generator ⟨start_grid_x, start_grid_y⟩ ⟨end_grid_x, end_grid_y⟩).reverse
  let path_remove_middle := remove_middle_points path
  let dl ← vec_front env.drone_limits
  assemble_trajectory env s start end_ drone min_index altitude path_remove_middle dl

/-- Member function `waypoints_generation`: the band of least count is
selected and its counter incremented at once; the path is searched and
simplified as in `trajectory_generation`; the way points are the point above
the start (25 s), the centres of the interior cells of the simplified path
(10 s each), the point above the goal (10 s) and the goal (25 s), and the
flight time is the sum of these times. -/
def waypoints_generation (env : Env) (s : AlgState) (start end_ : Vec3) :
    Except Fault ((List Segment × Int) × AlgState) := do
  let min_index := min_element_index s._altitude_drone_count
  let counts ← vec_increment s._altitude_drone_count min_index
  let s1 : AlgState := { s with _altitude_drone_count := counts }
  let altitude_bias : Int := ((min_index : Int) - 2) * 10
  let altitude : Int := 90 + altitude_bias
  let generator ← load_grid env altitude
  let start_grid_x ← to_cell start.x env._cell_size_x
  let start_grid_y ← to_cell start.y env._cell_size_y
  let end_grid_x ← to_cell end_.x env._cell_size_x
  let end_grid_y ← to_cell end_.y env._cell_size_y
  let path :=
    (env.findPath generator ⟨start_grid_x, start_grid_y⟩ ⟨end_grid_x, end_grid_y⟩).reverse
  let path_remove_middle := remove_middle_points path
  let p_start_air : Segment := ⟨⟨start.x, start.y, altitude⟩, 25000, 0⟩
  let interior ← interior_waypoints env altitude (size_minus_one path_remove_middle.length) 1
    (path_remove_middle.drop 1)
  let air : List Segment := interior.map (fun point => ⟨point, 10000, 1⟩)
  let p_end_air : Segment := ⟨⟨end_.x, end_.y, altitude⟩, 10000, 1⟩
  let p_end_land : Segment := ⟨end_, 25000, 2⟩
  pure (([p_start_air] ++ air ++ [p_end_air, p_end_land],
    25000 + 10000 * (air.length : Int) + 35000), s1)

/-! ## Replanning -/

/-- The inner loop of the reservation pass of `trajectory_replan` over the
recorded segments of one other drone: a segment whose absolute time
`_id2plan[drone_id].takeoff_timestamp + time_ms` lies in `[now, now + 10000]`
blocks its grid cell. The read `_id2plan[drone_id]` adds a default plan when the
drone has none. -/
def reserve_segments (env : Env) (now : Int) (drone_id : String) :
    List Segment → List (String × FlightPlan) × Generator →
      Except Fault (List (String × FlightPlan) × Generator)
  | [], acc => .ok acc
  | segment :: rest, (id2plan, g) =>
    let entry := map_subscript id2plan drone_id env.default_plan
    let seg_time := entry.1.takeoff_timestamp + segment.time_ms
    if seg_time ≥ now ∧ seg_time ≤ now + 10000 then do
      let grid_x ← to_cell segment.position.x env._cell_size_x
      let grid_y ← to_cell segment.position.y env._cell_size_y
      reserve_segments env now drone_id rest (entry.2, g.addCollision ⟨grid_x, grid_y⟩)
    else reserve_segments env now drone_id rest (entry.2, g)

/-- The outer loop of the reservation pass over `_drone_info`: every drone
whose id differs from the requester's contributes its recorded segments. The
read `_id2segs[drone_id]` adds an empty record when the drone has none. -/
def reserve_others (env : Env) (now : Int) (this_id : String) :
    List DroneStatus → List (String × FlightPlan) × List (String × List Segment) × Generator →
      Except Fault (List (String × FlightPlan) × List (String × List Segment) × Generator)
  | [], acc => .ok acc
  | drone :: rest, (id2plan, id2segs, g) =>
    if drone.drone_id ≠ this_id then do
      let entry := map_subscript id2segs drone.drone_id []
      let r ← reserve_segments env now drone.drone_id entry.1 (id2plan, g)
      reserve_others env now this_id rest (r.1, entry.2, r.2)
    else reserve_others env now this_id rest (id2plan, id2segs, g)

/-- Member function `trajectory_replan`; `now` is the clock reading taken
inside the call. The local `float altitude` holds the altitude of the drone
converted to `float`. -/
def trajectory_replan (env : Env) (s : AlgState) (now : Int) (start end_ : Vec3)
    (this_drone : DroneStatus) : Except Fault ((List Segment × Int) × AlgState) := do
  let altitude : ℚ := env.to_float this_drone.position.z
  let generator ← load_grid env altitude
  let r ← reserve_others env now this_drone.drone_id s._drone_info
    (s._id2plan, s._id2segs, generator)
  let s1 : AlgState := { s with _id2plan := r.1, _id2segs := r.2.1 }
  let generator := r.2.2
  let clear_start_x ← to_cell start.x env._cell_size_x
  let clear_start_y ← to_cell start.y env._cell_size_y
  let generator := generator.removeCollision ⟨clear_start_x, clear_start_y⟩
  let clear_end_x ← to_cell end_.x env._cell_size_y
  let clear_end_y ← to_cell end_.y env._cell_size_y
  let generator := generator.removeCollision ⟨clear_end_x, clear_end_y⟩
  let start_grid_x ← to_cell start.x env._cell_size_x
  let start_grid_y ← to_cell start.y env._cell_size_y
  let end_grid_x ← to_cell end_.x env._cell_size_x
  let end_grid_y ← to_cell end_.y env._cell_size_y
  let path :=
    (env.findPath generator ⟨start_grid_x, start_grid_y⟩ ⟨end_grid_x, end_grid_y⟩).reverse
  let path_remove_middle := remove_middle_points path
  let dl ← vec_front env.drone_limits
  let p_end_air : Vec3 := ⟨end_.x, end_.y, altitude⟩
  let points ← flying_points env altitude start end_ path_remove_middle
  match env.generate_traj_from_waypoints points dl 1 with
  | none => pure (([], -1), s1)
  | some flying_segs =>
    let flying_flight_time := (← vec_back flying_segs).time_ms
    match env.generate_traj_from_waypoints [p_end_air, end_] dl 2 with
    | none => pure (([], -1), s1)
    | some landing_segs =>
      let landing_flight_time := (← vec_back landing_segs).time_ms
      let flying_last_time := flying_flight_time
      let landing_shifted := shift_times (landing_segs.drop 1) flying_last_time
      let traj_segs := flying_segs ++ landing_shifted
      let flight_time := flying_flight_time + landing_flight_time
      pure ((traj_segs, flight_time),
        { s1 with _id2segs := map_insert s1._id2segs this_drone.drone_id traj_segs })

/-- What `trajectory_replan` hands to the pathfinder: the generator after the
reservation pass and the two `removeCollision` calls, the source and target
cells of the `findPath` call, and the state left by the `operator[]` reads. -/
structure ReplanSearch where
  generator : Generator
  source : Vec2i
  target : Vec2i
  state : AlgState

/-- The part of `trajectory_replan` up to the `findPath` call: the grid is
loaded at the altitude of the drone, the reservation pass runs, the cell
`(start.x / _cell_size_x, start.y / _cell_size_y)` and the cell
`(end.x / _cell_size_y, end.y / _cell_size_y)` are cleared, and the source and
target cells are computed. -/
def replan_search (env : Env) (s : AlgState) (now : Int) (start end_ : Vec3)
    (this_drone : DroneStatus) : Except Fault ReplanSearch := do
  let altitude : ℚ := env.to_float this_drone.position.z
  let generator ← load_grid env altitude
  let r ← reserve_others env now this_drone.drone_id s._drone_info
    (s._id2plan, s._id2segs, generator)
  let s1 : AlgState := { s with _id2plan := r.1, _id2segs := r.2.1 }
  let generator := r.2.2
  let clear_start_x ← to_cell start.x env._cell_size_x
  let clear_start_y ← to_cell start.y env._cell_size_y
  let generator := generator.removeCollision ⟨clear_start_x, clear_start_y⟩
  let clear_end_x ← to_cell end_.x env._cell_size_y
  let clear_end_y ← to_cell end_.y env._cell_size_y
  let generator := generator.removeCollision ⟨clear_end_x, clear_end_y⟩
  let start_grid_x ← to_cell start.x env._cell_size_x
  let start_grid_y ← to_cell start.y env._cell_size_y
  let end_grid_x ← to_cell end_.x env._cell_size_x
  let end_grid_y ← to_cell end_.y env._cell_size_y
  pure ⟨generator, ⟨start_grid_x, start_grid_y⟩, ⟨end_grid_x, end_grid_y⟩, s1⟩

/-- The part of `trajectory_replan` after the `findPath` call, given the path
it returned: the cruise and landing phases are generated and stitched, and the
result is put into `_id2segs` with `insert`. -/
def replan_assemble (env : Env) (s1 : AlgState) (start end_ : Vec3) (this_drone : DroneStatus)
    (found : List Vec2i) : Except Fault ((List Segment × Int) × AlgState) := do
  let altitude : ℚ := env.to_float this_drone.position.z
  let path := found.reverse
  let path_remove_middle := remove_middle_points path
  let dl ← vec_front env.drone_limits
  let p_end_air : Vec3 := ⟨end_.x, end_.y, altitude⟩
  let points ← flying_points env altitude start end_ path_remove_middle
  match env.generate_traj_from_waypoints points dl 1 with
  | none => pure (([], -1), s1)
  | some flying_segs =>
    let flying_flight_time := (← vec_back flying_segs).time_ms
    match env.generate_traj_from_waypoints [p_end_air, end_] dl 2 with
    | none => pure (([], -1), s1)
    | some landing_segs =>
      let landing_flight_time := (← vec_back landing_segs).time_ms
      let flying_last_time := flying_flight_time
      let landing_shifted := shift_times (landing_segs.drop 1) flying_last_time
      let traj_segs := flying_segs ++ landing_shifted
      let flight_time := flying_flight_time + landing_flight_time
      pure ((traj_segs, flight_time),
        { s1 with _id2segs := map_insert s1._id2segs this_drone.drone_id traj_segs })

/-! ## The decision cycle `solve` -/

/-- The orders whose status is `CARGO_WAITING`, in the iteration order of
`_cargo_info`. -/
def cargoes_to_delivery (cargo_info : List (Int × CargoInfo)) : List CargoInfo :=
  (cargo_info.map Prod.snd).filter (fun cargo => decide (cargo.status = CargoStatus.CARGO_WAITING))

/-- The five vectors filled by the bucketing loop. -/
structure Buckets where
  drones_without_cargo : List DroneStatus
  drones_need_recharge : List DroneStatus
  drones_to_delivery : List DroneStatus
  drones_flying : List DroneStatus
  drones_hovering : List DroneStatus
deriving DecidableEq

/-- The cargo-bay scan: some slot holds an id other than `-1`. -/
def has_cargo (drone : DroneStatus) : Bool :=
  drone.delivering_cargo_ids.any (fun cid => decide (cid ≠ -1))

/-- One iteration of the bucketing loop. -/
def bucket_step (b : Buckets) (drone : DroneStatus) : Buckets :=
  if drone.battery < 50 then
    { b with drones_need_recharge := b.drones_need_recharge ++ [drone] }
  else if drone.status = Status.READY then
    if has_cargo drone = false then
      { b with drones_without_cargo := b.drones_without_cargo ++ [drone] }
    else
      { b with drones_to_delivery := b.drones_to_delivery ++ [drone] }
  else
    let b1 : Buckets :=
      if drone.status = Status.FLYING then
        { b with drones_flying := b.drones_flying ++ [drone] }
      else b
    if drone.status = Status.HOVERING then
      { b1 with drones_hovering := b1.drones_hovering ++ [drone] }
    else b1

/-- The bucketing loop over `_drone_info`. -/
def bucketing (drone_info : List DroneStatus) : Buckets :=
  drone_info.foldl bucket_step ⟨[], [], [], [], []⟩

/-- Size of the pickup sub-problem: the smaller of the number of waiting
orders and the number of idle drones without cargo. -/
def pickup_plan_num (cargoes : List CargoInfo) (drones : List DroneStatus) : Nat :=
  if cargoes.length < drones.length then cargoes.length else drones.length

/-- One entry of the distance matrix: distance from the drone to the pickup
point plus distance from the pickup point to the delivery point, both taken
over the `x` and `y` members as in the source. -/
def cost_entry (sqrt : ℚ → ℚ) (the_drone : DroneStatus) (the_cargo : CargoInfo) : ℚ :=
  let distance1 := sqrt ((the_drone.position.x - the_cargo.position.x) ^ 2 +
    (the_drone.position.y - the_cargo.position.y) ^ 2)
  let distance2 := sqrt ((the_cargo.position.x - the_cargo.target_position.x) ^ 2 +
    (the_cargo.position.y - the_cargo.target_position.y) ^ 2)
  distance1 + distance2

/-- The square distance matrix `cost`: row `i` is drone `drones.at(i)`, column
`j` is order `cargoes.at(j)`, for `i, j < pickup_plan_num`. -/
def cost_matrix (sqrt : ℚ → ℚ) (drones : List DroneStatus) (cargoes : List CargoInfo) :
    List (List ℚ) :=
  let n := pickup_plan_num cargoes drones
  (drones.take n).map (fun the_drone =>
    (cargoes.take n).map (fun the_cargo => cost_entry sqrt the_drone the_cargo))

/-- The vector `assignment` after the solver call, which is made only for a
non-empty sub-problem. -/
def pickup_assignment (env : Env) (drones : List DroneStatus) (cargoes : List CargoInfo) :
    List Int :=
  if 0 < pickup_plan_num cargoes drones then env.Solve (cost_matrix env.sqrt drones cargoes)
  else []

/-- The log loop after the solver call, which reads `assignment[x]` for every
`x` below the size of the sub-problem. -/
def log_assignment (assignment : List Int) (n : Nat) : Except Fault Unit :=
  if n ≤ assignment.length then .ok () else .error Fault.index_out_of_bounds

/-- The plans collected in `flight_plans_to_publish`. -/
abbrev PlanList := List (String × FlightPlan)

/-- Strategy 1, the pickup loop: its body ends in `break`, so it runs for
`i = 0` only. The flight time returned by `trajectory_generation` is not
inspected. -/
def pickup_phase (env : Env) (s : AlgState) (drones : List DroneStatus)
    (cargoes : List CargoInfo) (plans : PlanList) : Except Fault (AlgState × PlanList) :=
  if 0 < pickup_plan_num cargoes drones then do
    let assignment := pickup_assignment env drones cargoes
    log_assignment assignment (pickup_plan_num cargoes drones)
    let the_drone ← vec_at drones 0
    let chosen ← vec_index assignment 0
    let the_cargo ← vec_at cargoes chosen
    let r ← trajectory_generation env s the_drone.position the_cargo.position the_drone
    let s1 := r.2
    let flight_id := s1.flightplan_num + 1
    let pickup : FlightPlan :=
      { env.default_plan with
        target_cargo_ids := env.default_plan.target_cargo_ids ++ [the_cargo.id]
        flight_purpose := FlightPurpose.FLIGHT_TAKE_CARGOS
        flight_plan_type := FlightPlanType.PLAN_TRAJECTORIES
        flight_id := flight_id
        takeoff_timestamp := env.current_time
        segments := r.1.1 }
    pure ({ s1 with flightplan_num := flight_id }, plans ++ [(the_drone.drone_id, pickup)])
  else pure (s, plans)

/-- Straight-line distance between two positions over all three members. -/
def euclid3 (sqrt : ℚ → ℚ) (p q : Vec3) : ℚ :=
  sqrt ((p.x - q.x) ^ 2 + (p.y - q.y) ^ 2 + (p.z - q.z) ^ 2)

/-- The stations ordered by distance to the drone. The source calls
`std::sort`, which fixes no order among stations of equal distance; the
insertion sort used here is one of the orders it may produce. -/
def sort_stations (sqrt : ℚ → ℚ) (the_drone : DroneStatus) (stations : List Vec3) : List Vec3 :=
  stations.insertionSort
    (fun p1 p2 => euclid3 sqrt p1 the_drone.position < euclid3 sqrt p2 the_drone.position)

/-- Strategy 2, the recharge loop: every path through its body ends in
`break`, so only the first drone of `drones_need_recharge` is considered. The
log line after the push reads `recharge_traj.front()`. -/
def recharge_phase (env : Env) (s : AlgState) (drones_need_recharge : List DroneStatus)
    (plans : PlanList) : Except Fault (AlgState × PlanList) :=
  match drones_need_recharge with
  | [] => pure (s, plans)
  | the_drone :: _ =>
    if env.battery_stations.length = 0 then pure (s, plans)
    else do
      let battery_stations := sort_stations env.sqrt the_drone env.battery_stations
      let the_selected_station ← vec_at battery_stations 0
      let r ← trajectory_generation env s the_drone.position the_selected_station the_drone
      let s1 := r.2
      let flight_id := s1.flightplan_num + 1
      let recharge : FlightPlan :=
        { env.default_plan with
          flight_purpose := FlightPurpose.FLIGHT_EXCHANGE_BATTERY
          flight_plan_type := FlightPlanType.PLAN_TRAJECTORIES
          flight_id := flight_id
          takeoff_timestamp := env.current_time
          segments := r.1.1 }
      let _first ← vec_front r.1.1
      pure ({ s1 with flightplan_num := flight_id }, plans ++ [(the_drone.drone_id, recharge)])

/-- The first cargo id other than `-1` in the bay, `0` when there is none. -/
def first_cargo_id (drone : DroneStatus) : Int :=
  match drone.delivering_cargo_ids.find? (fun cid => decide (cid ≠ -1)) with
  | some cid => cid
  | none => 0

/-- Strategy 3, the delivery loop: a drone whose cargo id is unknown to
`_cargo_info` is skipped; for the first drone with a known cargo the loop ends,
with a plan when `trajectory_generation` did not return flight time `-1`. -/
def delivery_phase (env : Env) (s : AlgState) :
    List DroneStatus → PlanList → Except Fault (AlgState × PlanList)
  | [], plans => pure (s, plans)
  | the_drone :: rest, plans =>
    match map_find s._cargo_info (first_cargo_id the_drone) with
    | none => delivery_phase env s rest plans
    | some the_cargo => do
      let r ← trajectory_generation env s the_drone.position the_cargo.target_position the_drone
      let s1 := r.2
      if r.1.2 = -1 then pure (s1, plans)
      else
        let flight_id := s1.flightplan_num + 1
        let delivery : FlightPlan :=
          { env.default_plan with
            flight_purpose := FlightPurpose.FLIGHT_DELIVER_CARGOS
            flight_plan_type := FlightPlanType.PLAN_TRAJECTORIES
            flight_id := flight_id
            takeoff_timestamp := env.current_time
            segments := r.1.1
            target_cargo_ids := env.default_plan.target_cargo_ids ++ [the_cargo.id] }
        pure ({ s1 with flightplan_num := flight_id }, plans ++ [(the_drone.drone_id, delivery)])

/-- The replan loop over the hovering drones; it has no `break` and does not
inspect the flight time returned by `trajectory_replan`. -/
def replan_phase (env : Env) :
    AlgState → List DroneStatus → PlanList → Except Fault (AlgState × PlanList)
  | s, [], plans => pure (s, plans)
  | s, this_drone :: rest, plans => do
    let segs_entry := map_subscript s._id2segs this_drone.drone_id []
    let s0 : AlgState := { s with _id2segs := segs_entry.2 }
    let last_segment ← vec_back segs_entry.1
    let r ← trajectory_replan env s0 (env.replan_time this_drone.drone_id)
      this_drone.position last_segment.position this_drone
    let s1 := r.2
    let plan_entry := map_subscript s1._id2plan this_drone.drone_id env.default_plan
    let flight_id := s1.flightplan_num + 1
    let replan : FlightPlan :=
      { env.default_plan with
        flight_purpose := plan_entry.1.flight_purpose
        flight_plan_type := FlightPlanType.PLAN_TRAJECTORIES
        flight_id := flight_id
        takeoff_timestamp := env.current_time
        segments := r.1.1 }
    replan_phase env { s1 with _id2plan := plan_entry.2, flightplan_num := flight_id } rest
      (plans ++ [(this_drone.drone_id, replan)])

/-- The record `_id2plan` after the publish loop: one `insert` per plan, in
the order of the list. -/
def record_plans (id2plan : List (String × FlightPlan)) (plans : PlanList) :
    List (String × FlightPlan) :=
  plans.foldl (fun m entry => map_insert m entry.1 entry.2) id2plan

/-- The proximity test of the conflict loop for one flying drone: for some
drone of `_drone_info` with another id the variable `float distance`, which
holds the square root converted to `float`, is below 20. -/
def need_replan (sqrt to_float : ℚ → ℚ) (drone_info : List DroneStatus)
    (this_drone : DroneStatus) : Bool :=
  drone_info.any (fun drone =>
    decide (drone.drone_id ≠ this_drone.drone_id) &&
      decide (to_float (euclid3 sqrt this_drone.position drone.position) < 20))

/-- The vector `drones_to_hover`. -/
def drones_to_hover (sqrt to_float : ℚ → ℚ) (drone_info : List DroneStatus)
    (drones_flying : List DroneStatus) : List DroneStatus :=
  drones_flying.filter (fun this_drone => need_replan sqrt to_float drone_info this_drone)

/-- What one cycle hands to the planner and leaves behind: the flight plans
passed to `DronePlanFlight` in order, the drone ids passed to `DroneHover` in
order, the state after the cycle and the returned sleep time. -/
structure CycleResult where
  published : PlanList
  hover_commands : List String
  state : AlgState
  sleep_time_ms : Int

/-- Member function `solve`: one decision cycle. -/
def solve (env : Env) (s : AlgState) : Except Fault CycleResult := do
  let cargoes := cargoes_to_delivery s._cargo_info
  let b := bucketing s._drone_info
  let r1 ← pickup_phase env s b.drones_without_cargo cargoes []
  let r2 ← recharge_phase env r1.1 b.drones_need_recharge r1.2
  let r3 ← delivery_phase env r2.1 b.drones_to_delivery r2.2
  let r4 ← replan_phase env r3.1 b.drones_hovering r3.2
  let flight_plans_to_publish := r4.2
  let s5 : AlgState :=
    { r4.1 with _id2plan := record_plans r4.1._id2plan flight_plans_to_publish }
  let hover := drones_to_hover env.sqrt env.to_float s._drone_info b.drones_flying
  pure
    { published := flight_plans_to_publish
      hover_commands := hover.map (fun drone => drone.drone_id)
      state := s5
      sleep_time_ms := 20000 }

/-! ## Vocabulary of the assignment claims -/

/-- Entry `cost[i][j]` of a matrix, read with a signed column index. -/
def matrix_entry (cost : List (List ℚ)) (i : Nat) (j : Int) : ℚ :=
  (cost.getD i []).getD j.toNat 0

/-- Total cost of an assignment vector: the sum of `cost[i][assignment[i]]`
over the rows `i`. -/
def assignment_cost (cost : List (List ℚ)) (assignment : List Int) : ℚ :=
  (assignment.enum.map (fun e => matrix_entry cost e.1 e.2)).sum

/-- An assignment vector of a square problem of size `n`: one column per row,
every column index in range and used once. -/
def IsPerfectMatching (n : Nat) (assignment : List Int) : Prop :=
  assignment.length = n ∧ assignment.Nodup ∧ ∀ j ∈ assignment, 0 ≤ j ∧ j < n

/-- Modelled from the spec: the contract of `HungarianAlgorithm::Solve` (header
`hungarian.h`) on a square matrix: the assignment it returns is a perfect
matching whose total cost is least among all perfect matchings. -/
def IsMinPerfectMatching (cost : List (List ℚ)) (assignment : List Int) : Prop :=
  IsPerfectMatching cost.length assignment ∧
    ∀ other, IsPerfectMatching cost.length other →
      assignment_cost cost assignment ≤ assignment_cost cost other

/-- The pairing computed in `solve`: drone `i` with order `assignment[i]`, for
`i` below the size `k` of the sub-problem. -/
def pickup_pairing (k : Nat) (assignment : List Int) : List (Nat × Int) :=
  (assignment.take k).enum

/-- A one-to-one pairing of drones with index below `n` and orders with index
below `m`: no drone and no order occurs in two pairs. -/
def IsPairing (n m : Nat) (pairs : List (Nat × Int)) : Prop :=
  (pairs.map Prod.fst).Nodup ∧ (pairs.map Prod.snd).Nodup ∧
    ∀ e ∈ pairs, e.1 < n ∧ 0 ≤ e.2 ∧ e.2 < m

/-- Cost of pairing drone `e.1` with order `e.2`. -/
def pair_cost (sqrt : ℚ → ℚ) (drones : List DroneStatus) (cargoes : List CargoInfo)
    (e : Nat × Int) : ℚ :=
  match drones[e.1]?, cargoes[e.2.toNat]? with
  | some the_drone, some the_cargo => cost_entry sqrt the_drone the_cargo
  | _, _ => 0

/-- Total cost of a pairing. -/
def pairing_cost (sqrt : ℚ → ℚ) (drones : List DroneStatus) (cargoes : List CargoInfo)
    (pairs : List (Nat × Int)) : ℚ :=
  (pairs.map (pair_cost sqrt drones cargoes)).sum

/-- Integer square root of the integer part: the square root itself at every
square of a natural number. It stands for `std::sqrt` at the worked inputs,
whose radicands are all such squares. -/
def sqrt_floor (q : ℚ) : ℚ := (Nat.sqrt ⌊q⌋₊ : ℚ)

/-- A stand-in for the conversion of a `double` to `float` at the worked
inputs: a value within half a unit in the last place of 20 (that is, within
`2^-20`) becomes the single-precision number 20, as rounding to nearest
prescribes; every other value is left as it is, which is what the conversion
does to the single-precision numbers the worked inputs produce. -/
def sample_to_float (q : ℚ) : ℚ :=
  if 20 - 1 / 1048576 ≤ q ∧ q ≤ 20 + 1 / 1048576 then 20 else q

/-- Proof device: the order paired with drone `i` in a list of pairs. -/
def partner (pairs : List (Nat × Int)) (i : Nat) : Int :=
  match pairs with
  | [] => 0
  | e :: rest => if e.1 = i then e.2 else partner rest i

/-! ## Vocabulary of the timing and balance claims -/

/-- A segment list is well timed: its first segment has elapsed time 0 and
elapsed times are strictly increasing along the list (every segment is earlier
than every later one, which for consecutive segments is the same). -/
def WellTimed (segs : List Segment) : Prop :=
  (∃ first, segs.head? = some first ∧ first.time_ms = 0) ∧
    segs.Pairwise (fun a b => a.time_ms < b.time_ms)

/-- The band counters are balanced: the largest and the smallest count differ
by at most 1, that is, no count exceeds another by more than 1. -/
def CountsBalanced (counts : List Int) : Prop :=
  ∀ a ∈ counts, ∀ b ∈ counts, a ≤ b + 1

/-- No band count of `after` is lower than the count of the same band in
`before`, and the bands are the same. -/
def CountsNotLower (before after : List Int) : Prop :=
  after.length = before.length ∧
    ∀ (i : Nat) (c : Int), before[i]? = some c → ∃ c1, after[i]? = some c1 ∧ c ≤ c1

/-! ## Worked inputs -/

/-- A segment at a position and time. -/
def sample_segment (x y z : ℚ) (time_ms seg_type : Int) : Segment :=
  ⟨⟨x, y, z⟩, time_ms, seg_type⟩

/-- A default-constructed plan with empty vectors. -/
def sample_default_plan : FlightPlan :=
  ⟨FlightPurpose.OTHER, FlightPlanType.PLAN_WAY_POINTS, 0, 0, [], []⟩

/-- A session on a one-cell map without obstacles and without stations, with
cells of size 10. The assignment solver pairs row `i` with column `i`, the
pathfinder finds no path and the trajectory generator fails on every request. -/
def sample_env : Env where
  sqrt := sqrt_floor
  to_float := sample_to_float
  findPath := fun _ _ _ => []
  generate_traj_from_waypoints := fun _ _ _ => none
  Solve := fun cost => (List.range cost.length).map Int.ofNat
  current_time := 5000
  replan_time := fun _ => 5000
  _map_grid := [[[0, 0, 0, 0, 0, 0, 0, 0, 0, 0, 0, 0]]]
  _cell_size_x := 10
  _cell_size_y := 10
  _cell_size_z := 10
  battery_stations := []
  drone_limits := [⟨10, 5, 2, 2⟩]
  default_plan := sample_default_plan

/-- An idle drone with an empty bay and a full battery. -/
def sample_idle_drone (drone_id : String) (x y : ℚ) : DroneStatus :=
  ⟨drone_id, ⟨x, y, 0⟩, 100, Status.READY, [-1]⟩

/-- A waiting order. -/
def sample_order (id : Int) (x y tx ty : ℚ) : CargoInfo :=
  ⟨id, CargoStatus.CARGO_WAITING, ⟨x, y, 0⟩, ⟨tx, ty, 0⟩⟩

/-- A drone in cruise with an empty bay. -/
def sample_flying_drone (drone_id : String) (x y z battery : ℚ) : DroneStatus :=
  ⟨drone_id, ⟨x, y, z⟩, battery, Status.FLYING, [-1]⟩

/-- A scheduler at session start (empty records, five altitude bands, all
counters zero) holding the given snapshot. -/
def sample_state (drones : List DroneStatus) (cargo : List (Int × CargoInfo)) : AlgState :=
  ⟨drones, cargo, [], [], [0, 0, 0, 0, 0], 0⟩

/-- A trajectory generator stand-in that always succeeds: one sample per way
point, one second apart, starting at elapsed time 0. -/
def sample_generator (points : List Vec3) (_dl : DroneLimits) (seg_type : Int) :
    Option (List Segment) :=
  some (points.enum.map (fun e => ⟨e.2, 1000 * (e.1 : Int), seg_type⟩))

/-- The sample session with the succeeding generator and a pathfinder that
still finds no path. -/
def sample_env_no_path : Env :=
  { sample_env with generate_traj_from_waypoints := sample_generator }

/-- The sample session with the succeeding generator and a pathfinder that
returns the direct path, ordered from the target back to the source. -/
def sample_env_open : Env :=
  { sample_env with
    generate_traj_from_waypoints := sample_generator
    findPath := fun _ source target => if source = target then [source] else [target, source] }

/-- An idle drone that carries order `cargo_id`. -/
def sample_loaded_drone (drone_id : String) (x y : ℚ) (cargo_id : Int) : DroneStatus :=
  ⟨drone_id, ⟨x, y, 0⟩, 100, Status.READY, [cargo_id]⟩

/-- An order that has been picked up. -/
def sample_taken_order (id : Int) (x y tx ty : ℚ) : CargoInfo :=
  ⟨id, CargoStatus.OTHER, ⟨x, y, 0⟩, ⟨tx, ty, 0⟩⟩

/-- The segment list of a first flight of drone "d0", from (0,0,0) to (6,8,0)
at altitude 70. -/
def sample_first_traj : List Segment :=
  [⟨⟨0, 0, 0⟩, 0, 0⟩, ⟨⟨0, 0, 70⟩, 1000, 0⟩, ⟨⟨6, 8, 70⟩, 2000, 1⟩, ⟨⟨6, 8, 0⟩, 3000, 2⟩]

/-- The segment list of a second flight of drone "d0", from (6,8,0) to (3,4,0)
at altitude 80. -/
def sample_second_traj : List Segment :=
  [⟨⟨6, 8, 0⟩, 0, 0⟩, ⟨⟨6, 8, 80⟩, 1000, 0⟩, ⟨⟨3, 4, 80⟩, 2000, 1⟩, ⟨⟨3, 4, 0⟩, 3000, 2⟩]

/-- The pickup plan of the first flight, for order 1. -/
def sample_first_plan : FlightPlan :=
  ⟨FlightPurpose.FLIGHT_TAKE_CARGOS, FlightPlanType.PLAN_TRAJECTORIES, 1, 5000,
    sample_first_traj, [1]⟩

/-- The delivery plan of the second flight, for order 1. -/
def sample_second_plan : FlightPlan :=
  ⟨FlightPurpose.FLIGHT_DELIVER_CARGOS, FlightPlanType.PLAN_TRAJECTORIES, 2, 5000,
    sample_second_traj, [1]⟩

/-- The scheduler at the start of a later cycle: the first flight of "d0" is
recorded, and "d0" stands idle at the pickup point (6,8,0) with order 1 on
board, to be delivered at (3,4,0). -/
def sample_second_cycle : AlgState :=
  ⟨[sample_loaded_drone "d0" 6 8 1], [(1, sample_taken_order 1 6 8 3 4)],
    [("d0", sample_first_plan)], [("d0", sample_first_traj)], [1, 0, 0, 0, 0], 1⟩

/-- Distance in the horizontal plane: the Euclidean distance over the `x` and
`y` members of two positions. -/
def euclid2 (sqrt : ℚ → ℚ) (p q : Vec3) : ℚ :=
  sqrt ((p.x - q.x) ^ 2 + (p.y - q.y) ^ 2)

/-- A waiting order picked up at (3,0,4), four units above the ground, and
delivered at (6,4,4). -/
def sample_raised_order : CargoInfo :=
  ⟨1, CargoStatus.CARGO_WAITING, ⟨3, 0, 4⟩, ⟨6, 4, 4⟩⟩

/-- A trajectory generator stand-in that fails for the phase with tag `phase`
and succeeds like `sample_generator` for the other phases. -/
def sample_generator_failing (phase : Int) (points : List Vec3) (dl : DroneLimits)
    (seg_type : Int) : Option (List Segment) :=
  if seg_type = phase then none else sample_generator points dl seg_type

/-- The open sample session with a generator that fails for one phase. -/
def sample_env_failing (phase : Int) : Env :=
  { sample_env_open with generate_traj_from_waypoints := sample_generator_failing phase }

/-- The open sample session with the given charging stations registered. -/
def sample_env_stations (stations : List Vec3) : Env :=
  { sample_env_open with battery_stations := stations }

/-- An idle drone with an empty bay and the given battery level, standing at
the origin. -/
def sample_drone_with_battery (drone_id : String) (battery : ℚ) : DroneStatus :=
  ⟨drone_id, ⟨0, 0, 0⟩, battery, Status.READY, [-1]⟩

/-- The flight from (0,0,0) to (6,8,0) at altitude 70, as the sample generator
returns it. -/
def sample_pickup_traj : List Segment :=
  [⟨⟨0, 0, 0⟩, 0, 0⟩, ⟨⟨0, 0, 70⟩, 1000, 0⟩, ⟨⟨6, 8, 70⟩, 2000, 1⟩, ⟨⟨6, 8, 0⟩, 3000, 2⟩]

/-- The flight from (0,0,0) to (3,4,0) at altitude 80. -/
def sample_recharge_traj : List Segment :=
  [⟨⟨0, 0, 0⟩, 0, 0⟩, ⟨⟨0, 0, 80⟩, 1000, 0⟩, ⟨⟨3, 4, 80⟩, 2000, 1⟩, ⟨⟨3, 4, 0⟩, 3000, 2⟩]

/-- The flight from (6,8,0) to (3,4,0) at altitude 90. -/
def sample_delivery_traj : List Segment :=
  [⟨⟨6, 8, 0⟩, 0, 0⟩, ⟨⟨6, 8, 90⟩, 1000, 0⟩, ⟨⟨3, 4, 90⟩, 2000, 1⟩, ⟨⟨3, 4, 0⟩, 3000, 2⟩]

/-- Three stations, the first of which is the farthest from the origin. -/
def sample_stations : List Vec3 :=
  [⟨6, 8, 0⟩, ⟨3, 4, 0⟩, ⟨0, 8, 0⟩]

/-- A snapshot with one drone for each of the first three branches: "d0" idle
and empty, "d1" with battery 10, "d2" idle with order 2 on board; order 1 is
waiting at (6,8,0). -/
def sample_busy_state : AlgState :=
  sample_state
    [sample_idle_drone "d0" 0 0, sample_drone_with_battery "d1" 10, sample_loaded_drone "d2" 6 8 2]
    [(1, sample_order 1 6 8 3 4), (2, sample_taken_order 2 0 0 3 4)]

/-- The pickup plan of the busy cycle. -/
def sample_pickup_plan : FlightPlan :=
  ⟨FlightPurpose.FLIGHT_TAKE_CARGOS, FlightPlanType.PLAN_TRAJECTORIES, 1, 5000,
    sample_pickup_traj, [1]⟩

/-- The recharge plan of the busy cycle. -/
def sample_recharge_plan : FlightPlan :=
  ⟨FlightPurpose.FLIGHT_EXCHANGE_BATTERY, FlightPlanType.PLAN_TRAJECTORIES, 2, 5000,
    sample_recharge_traj, []⟩

/-- The delivery plan of the busy cycle. -/
def sample_delivery_plan : FlightPlan :=
  ⟨FlightPurpose.FLIGHT_DELIVER_CARGOS, FlightPlanType.PLAN_TRAJECTORIES, 3, 5000,
    sample_delivery_traj, [2]⟩

/-- The scheduler after the busy cycle. -/
def sample_busy_state_after : AlgState :=
  ⟨[sample_idle_drone "d0" 0 0, sample_drone_with_battery "d1" 10, sample_loaded_drone "d2" 6 8 2],
    [(1, sample_order 1 6 8 3 4), (2, sample_taken_order 2 0 0 3 4)],
    [("d0", sample_pickup_plan), ("d1", sample_recharge_plan), ("d2", sample_delivery_plan)],
    [("d0", sample_pickup_traj), ("d1", sample_recharge_traj), ("d2", sample_delivery_traj)],
    [1, 1, 1, 0, 0], 3⟩

/-- A session on a map of two cells along `x`, without obstacles, whose cells
are 10 wide along `x` and 20 wide along `y`. The pathfinder stand-in finds no
path when the source or the target cell is blocked, and the direct path
otherwise. -/
def sample_env_replan : Env where
  sqrt := sqrt_floor
  to_float := sample_to_float
  findPath := fun g source target =>
    if target ∈ g.walls ∨ source ∈ g.walls then []
    else if source = target then [source] else [target, source]
  generate_traj_from_waypoints := sample_generator
  Solve := fun cost => (List.range cost.length).map Int.ofNat
  current_time := 5000
  replan_time := fun _ => 5000
  _map_grid := [[[0, 0, 0, 0, 0, 0, 0, 0, 0, 0, 0, 0]], [[0, 0, 0, 0, 0, 0, 0, 0, 0, 0, 0, 0]]]
  _cell_size_x := 10
  _cell_size_y := 20
  _cell_size_z := 10
  battery_stations := []
  drone_limits := [⟨10, 5, 2, 2⟩]
  default_plan := sample_default_plan

/-- The requester of the sample replan: drone "d0" hovering at (5,5,70). -/
def sample_hovering_drone : DroneStatus :=
  ⟨"d0", ⟨5, 5, 70⟩, 100, Status.HOVERING, [-1]⟩

/-- Another drone, "d1", in cruise at (15,5,70). -/
def sample_other_drone : DroneStatus :=
  ⟨"d1", ⟨15, 5, 70⟩, 100, Status.FLYING, [-1]⟩

/-- The recorded segments of "d0": its flight ends at
(`goal_x`,0,0). -/
def sample_hovering_segs (goal_x : ℚ) : List Segment :=
  [⟨⟨5, 5, 0⟩, 0, 0⟩, ⟨⟨5, 5, 70⟩, 1000, 0⟩, ⟨⟨goal_x, 0, 70⟩, 2000, 1⟩,
    ⟨⟨goal_x, 0, 0⟩, 3000, 2⟩]

/-- The recorded segments of "d1": one at (15,5,70) after 1 s, one at (15,5,0)
after 20 s. -/
def sample_other_segs : List Segment :=
  [⟨⟨15, 5, 70⟩, 1000, 1⟩, ⟨⟨15, 5, 0⟩, 20000, 2⟩]

/-- The scheduler before the sample replan: both drones have a plan that took
off at time 5000 and a segment record. -/
def sample_replan_state (goal_x : ℚ) : AlgState :=
  ⟨[sample_hovering_drone, sample_other_drone], [],
    [("d0", ⟨FlightPurpose.FLIGHT_TAKE_CARGOS, FlightPlanType.PLAN_TRAJECTORIES, 1, 5000,
        sample_hovering_segs goal_x, [1]⟩),
      ("d1", ⟨FlightPurpose.FLIGHT_TAKE_CARGOS, FlightPlanType.PLAN_TRAJECTORIES, 2, 5000,
        sample_other_segs, [2]⟩)],
    [("d0", sample_hovering_segs goal_x), ("d1", sample_other_segs)], [1, 1, 0, 0, 0], 2⟩

/-- Proof device: the loop of `remove_middle_points` together with the final
`push_back(path.back())`, on a path of at least two points. -/
def rmp_go : List Vec2i → List Vec2i
  | c1 :: c2 :: c3 :: rest =>
    if collinear_test c1 c2 c3 then rmp_go (c2 :: c3 :: rest)
    else c2 :: rmp_go (c2 :: c3 :: rest)
  | [_, c2] => [c2]
  | _ => []

/-- Cross product of the steps `b - a` and `c - b`, the quantity the
collinearity test compares with zero. -/
def cross (a b c : Vec2i) : Int :=
  (b.y - a.y) * (c.x - b.x) - (c.y - b.y) * (b.x - a.x)

/-- All points of the list lie on one common line `A * x + B * y = C` of the
plane (`A`, `B` not both zero). Integer coefficients lose nothing: a line
through two distinct grid points has an integer equation, and a single grid
point lies on the integer line `x = p.x`. -/
def OnCommonLine (path : List Vec2i) : Prop :=
  ∃ A B C : Int, (A ≠ 0 ∨ B ≠ 0) ∧ ∀ p ∈ path, A * p.x + B * p.y = C

/-- A grid point with both coordinates between 0 and 46340. For three such
points no product of the collinearity test leaves the range of a 32-bit `int`
(`46340 * 46340 < 2^31`). -/
def InBox (p : Vec2i) : Prop :=
  0 ≤ p.x ∧ p.x ≤ 46340 ∧ 0 ≤ p.y ∧ p.y ≤ 46340

instance (p : Vec2i) : Decidable (InBox p) := by
  unfold InBox
  infer_instance

/-! # Theorems -/

theorem wrap32_modEq (n : Int) : wrap32 n ≡ n [ZMOD 4294967296] := by
  unfold wrap32
  have h : (n + 2147483648) % 4294967296 ≡ n + 2147483648 [ZMOD 4294967296] :=
    Int.mod_modEq _ _
  have := h.sub_right 2147483648
  simpa using this

theorem wrap32_eq_iff (a b : Int) : wrap32 a = wrap32 b ↔ a ≡ b [ZMOD 4294967296] := by
  constructor
  · intro h
    exact ((wrap32_modEq a).symm.trans (h ▸ Int.ModEq.refl _)).trans (wrap32_modEq b)
  · intro h
    unfold wrap32
    have h2 : (a + 2147483648) % 4294967296 = (b + 2147483648) % 4294967296 :=
      h.add_right 2147483648
    rw [h2]

/-- The test of the source holds exactly when the two exact products agree
modulo `2^32`. -/
theorem collinear_test_iff_modEq (a b c : Vec2i) :
    collinear_test a b c = true ↔
      (b.y - a.y) * (c.x - b.x) ≡ (c.y - b.y) * (b.x - a.x) [ZMOD 4294967296] := by
  unfold collinear_test
  rw [decide_eq_true_iff, wrap32_eq_iff]
  constructor
  · intro h
    exact (((wrap32_modEq _).mul (wrap32_modEq _)).symm.trans h).trans
      ((wrap32_modEq _).mul (wrap32_modEq _))
  · intro h
    exact (((wrap32_modEq _).mul (wrap32_modEq _)).trans h).trans
      ((wrap32_modEq _).mul (wrap32_modEq _)).symm

/-- Points with a vanishing cross product pass the test, whatever their size:
equal products stay equal as 32-bit values. -/
theorem collinear_test_of_cross_zero (a b c : Vec2i) (h : cross a b c = 0) :
    collinear_test a b c = true := by
  rw [collinear_test_iff_modEq]
  unfold cross at h
  have : (b.y - a.y) * (c.x - b.x) = (c.y - b.y) * (b.x - a.x) := by linarith
  rw [this]

theorem mul_bound (u v : Int) (hu1 : -46340 ≤ u) (hu2 : u ≤ 46340) (hv1 : -46340 ≤ v)
    (hv2 : v ≤ 46340) : -2147395600 ≤ u * v ∧ u * v ≤ 2147395600 := by
  constructor <;> nlinarith

/-- For points of the box the test of the source is the exact test. -/
theorem collinear_test_iff (a b c : Vec2i) (ha : InBox a) (hb : InBox b) (hc : InBox c) :
    collinear_test a b c = true ↔ cross a b c = 0 := by
  rw [collinear_test_iff_modEq]
  obtain ⟨a1, a2, a3, a4⟩ := ha
  obtain ⟨b1, b2, b3, b4⟩ := hb
  obtain ⟨c1, c2, c3, c4⟩ := hc
  have m1 := mul_bound (b.y - a.y) (c.x - b.x) (by omega) (by omega) (by omega) (by omega)
  have m2 := mul_bound (c.y - b.y) (b.x - a.x) (by omega) (by omega) (by omega) (by omega)
  unfold cross
  constructor
  · intro h
    obtain ⟨k, hk⟩ := Int.modEq_iff_dvd.mp h
    have : k = 0 := by omega
    subst this
    omega
  · intro h
    have : (b.y - a.y) * (c.x - b.x) = (c.y - b.y) * (b.x - a.x) := by linarith
    rw [this]

theorem rmp_loop_append_last (a b : Vec2i) (rest : List Vec2i) :
    remove_middle_points_loop (a :: b :: rest) ++ [(a :: b :: rest).getLast (by simp)]
      = rmp_go (a :: b :: rest) := by
  induction rest generalizing a b with
  | nil => simp [remove_middle_points_loop, rmp_go]
  | cons c rest ih =>
    have h := ih b c
    simp only [remove_middle_points_loop, rmp_go]
    split
    · simpa using h
    · simpa using h

theorem remove_middle_points_cons_cons (a b : Vec2i) (rest : List Vec2i) :
    remove_middle_points (a :: b :: rest) = a :: rmp_go (a :: b :: rest) := by
  cases rest with
  | nil => simp [remove_middle_points, rmp_go]
  | cons c rest =>
    have h := rmp_loop_append_last a b (c :: rest)
    simp only [remove_middle_points, List.length_cons]
    rw [if_neg (by omega)]
    rw [List.getLast?_eq_getLast _ (by simp)]
    simp only
    rw [h]

/-! ### Collinear inputs collapse to their end points -/

theorem cross_eq_zero_of_line (A B C : Int) (hAB : A ≠ 0 ∨ B ≠ 0) (a b c : Vec2i)
    (ha : A * a.x + B * a.y = C) (hb : A * b.x + B * b.y = C) (hc : A * c.x + B * c.y = C) :
    cross a b c = 0 := by
  unfold cross
  rcases hAB with hA | hB
  · have h : A * ((b.y - a.y) * (c.x - b.x) - (c.y - b.y) * (b.x - a.x)) = 0 := by
      linear_combination (b.y - a.y) * (hc - hb) - (c.y - b.y) * (hb - ha)
    rcases mul_eq_zero.mp h with h0 | h0
    · exact absurd h0 hA
    · exact h0
  · have h : B * ((b.y - a.y) * (c.x - b.x) - (c.y - b.y) * (b.x - a.x)) = 0 := by
      linear_combination (c.x - b.x) * (hb - ha) - (b.x - a.x) * (hc - hb)
    rcases mul_eq_zero.mp h with h0 | h0
    · exact absurd h0 hB
    · exact h0

theorem rmp_go_of_line (A B C : Int) (hAB : A ≠ 0 ∨ B ≠ 0) (a b : Vec2i) (rest : List Vec2i)
    (h : ∀ p ∈ a :: b :: rest, A * p.x + B * p.y = C) :
    rmp_go (a :: b :: rest) = [(a :: b :: rest).getLast (by simp)] := by
  induction rest generalizing a b with
  | nil => simp [rmp_go]
  | cons c rest ih =>
    have hc : collinear_test a b c = true :=
      collinear_test_of_cross_zero a b c
        (cross_eq_zero_of_line A B C hAB a b c (h a (by simp)) (h b (by simp)) (h c (by simp)))
    have h2 := ih b c (fun p hp => h p (List.mem_cons_of_mem _ hp))
    simp only [rmp_go, hc, if_true]
    rw [h2]
    simp

/-- C10: a path of at least two grid points that all lie on one common line is
reduced by `remove_middle_points` to exactly its first and its last point. -/
theorem remove_middle_points_collinear (path : List Vec2i) (hn : 2 ≤ path.length)
    (hline : OnCommonLine path) :
    remove_middle_points path =
      [path.head (List.ne_nil_of_length_pos (by omega)),
       path.getLast (List.ne_nil_of_length_pos (by omega))] := by
  obtain ⟨A, B, C, hAB, h⟩ := hline
  match path, hn, h with
  | a :: b :: rest, _, h =>
    rw [remove_middle_points_cons_cons, rmp_go_of_line A B C hAB a b rest h]
    simp

theorem remove_middle_points_collinear_witness :
    2 ≤ ([⟨0, 0⟩, ⟨1, 2⟩, ⟨3, 6⟩, ⟨2, 4⟩] : List Vec2i).length ∧
    OnCommonLine [⟨0, 0⟩, ⟨1, 2⟩, ⟨3, 6⟩, ⟨2, 4⟩] ∧
    remove_middle_points [⟨0, 0⟩, ⟨1, 2⟩, ⟨3, 6⟩, ⟨2, 4⟩] = [⟨0, 0⟩, ⟨2, 4⟩] :=
  have hl : OnCommonLine [⟨0, 0⟩, ⟨1, 2⟩, ⟨3, 6⟩, ⟨2, 4⟩] :=
    ⟨2, -1, 0, by decide, by decide⟩
  ⟨by decide, hl, remove_middle_points_collinear _ (by decide) hl⟩

/-! ### Idempotence of the collinearity pass on simple paths -/

theorem vec2i_ne_iff (a b : Vec2i) : a ≠ b ↔ (a.x ≠ b.x ∨ a.y ≠ b.y) := by
  constructor
  · intro h
    by_contra hc
    push_neg at hc
    exact h (Vec2i.ext hc.1 hc.2)
  · rintro h rfl
    rcases h with h | h <;> exact h rfl

/-- Two vectors parallel to one non-zero vector are parallel to each other. -/
theorem parallel_trans (ux uy ax ay bx bY : Int) (hu : ux ≠ 0 ∨ uy ≠ 0)
    (h1 : ux * ay - uy * ax = 0) (h2 : ux * bY - uy * bx = 0) : ax * bY - ay * bx = 0 := by
  rcases hu with hu | hu
  · have h : ux * (ax * bY - ay * bx) = 0 := by linear_combination ax * h2 - bx * h1
    rcases mul_eq_zero.mp h with h0 | h0
    · exact absurd h0 hu
    · exact h0
  · have h : uy * (ax * bY - ay * bx) = 0 := by linear_combination ay * h2 - bY * h1
    rcases mul_eq_zero.mp h with h0 | h0
    · exact absurd h0 hu
    · exact h0

/-- Points `a` and `b` on the line through the distinct points `o` and `u`
are collinear with `o`. -/
theorem cross_of_common_base (o u a b : Vec2i) (hu : u ≠ o)
    (h1 : cross u o a = 0) (h2 : cross u o b = 0) : cross a o b = 0 := by
  have hu2 : u.x - o.x ≠ 0 ∨ u.y - o.y ≠ 0 := by
    rcases (vec2i_ne_iff u o).mp hu with h | h
    · exact Or.inl (sub_ne_zero.mpr h)
    · exact Or.inr (sub_ne_zero.mpr h)
  unfold cross at *
  have := parallel_trans (u.x - o.x) (u.y - o.y) (a.x - o.x) (a.y - o.y) (b.x - o.x) (b.y - o.y)
    hu2 (by linear_combination h1) (by linear_combination h2)
  linear_combination this

theorem cross_rotate (a b c : Vec2i) : cross b c a = cross a b c := by
  unfold cross; ring

theorem cross_swap (a b c : Vec2i) : cross c b a = - cross a b c := by
  unfold cross; ring

theorem cross_zero_rot {a b c : Vec2i} (h : cross a b c = 0) : cross b c a = 0 := by
  rw [cross_rotate]; exact h

theorem cross_zero_swap {a b c : Vec2i} (h : cross a b c = 0) : cross c b a = 0 := by
  rw [cross_swap, h]; rfl

theorem cross_self_left (b c : Vec2i) : cross b b c = 0 := by
  unfold cross; ring

theorem cross_self_right (b c : Vec2i) : cross b c c = 0 := by
  unfold cross; ring

/-- The first point that the loop keeps after `b` (or the last point) lies on
the line through `b` and its successor `c`, and comes from the rest of the path. -/
theorem rmp_go_head (b c : Vec2i) (rest : List Vec2i) (hnd : (c :: rest).Nodup)
    (hbox : ∀ p ∈ b :: c :: rest, InBox p) :
    ∃ c' t, rmp_go (b :: c :: rest) = c' :: t ∧ c' ∈ c :: rest ∧ cross b c c' = 0 := by
  induction rest generalizing b c with
  | nil => exact ⟨c, [], by simp [rmp_go], by simp, cross_self_right b c⟩
  | cons d r ih =>
    have hcd : d ≠ c := by
      intro h
      rw [List.nodup_cons] at hnd
      exact hnd.1 (by simp [h])
    by_cases hc : collinear_test b c d = true
    · obtain ⟨c', t, h1, h2, h3⟩ := ih c d (List.nodup_cons.mp hnd).2
        (fun p hp => hbox p (List.mem_cons_of_mem _ hp))
      refine ⟨c', t, ?_, List.mem_cons_of_mem _ h2, ?_⟩
      · simp only [rmp_go, hc, if_true]; exact h1
      · rw [collinear_test_iff b c d (hbox b (by simp)) (hbox c (by simp))
          (hbox d (by simp))] at hc
        exact cross_of_common_base c d b c' hcd (cross_zero_swap hc)
          (cross_zero_swap (cross_zero_rot (cross_zero_rot h3)))
    · refine ⟨c, rmp_go (c :: d :: r), ?_, by simp, cross_self_right b c⟩
      simp only [rmp_go, hc]
      simp

/-- A second run of the loop, started from any earlier point `a'` of the line
through `a` and `b`, reproduces the output of the first run. -/
theorem rmp_go_fixed (a' a b : Vec2i) (rest : List Vec2i) (hnd : (b :: rest).Nodup)
    (ha' : a' ∉ b :: rest) (hab : a ≠ b) (hcol : cross a' a b = 0)
    (hbox : ∀ p ∈ a' :: a :: b :: rest, InBox p) :
    rmp_go (a' :: rmp_go (a :: b :: rest)) = rmp_go (a :: b :: rest) := by
  induction rest generalizing a' a b with
  | nil => simp [rmp_go]
  | cons c r ih =>
    have hba' : InBox a' := hbox a' (by simp)
    have hba : InBox a := hbox a (by simp)
    have hbb : InBox b := hbox b (by simp)
    have hbc2 : InBox c := hbox c (by simp)
    have hbr2 : ∀ p ∈ c :: r, InBox p := fun p hp =>
      hbox p (List.mem_cons_of_mem _ (List.mem_cons_of_mem _ (List.mem_cons_of_mem _ hp)))
    have hnd2 : (c :: r).Nodup := (List.nodup_cons.mp hnd).2
    have hbc : b ≠ c := by
      intro h
      exact (List.nodup_cons.mp hnd).1 (by simp [h])
    have hbr : b ∉ c :: r := (List.nodup_cons.mp hnd).1
    have ha'b : a' ≠ b := by
      intro h
      exact ha' (by simp [h])
    have ha'r : a' ∉ c :: r := fun h => ha' (List.mem_cons_of_mem _ h)
    by_cases hc : collinear_test a b c = true
    · have hc0 := (collinear_test_iff a b c hba hbb hbc2).mp hc
      have h := ih a' b c hnd2 ha'r hbc
        (cross_of_common_base b a a' c hab (cross_zero_rot hcol) hc0)
        (by
          intro p hp
          rcases List.mem_cons.mp hp with rfl | hp
          · exact hba'
          · rcases List.mem_cons.mp hp with rfl | hp
            · exact hbb
            · exact hbr2 p hp)
      simp only [rmp_go, hc, if_true]
      exact h
    · obtain ⟨c', t, h1, h2, h3⟩ := rmp_go_head b c r hnd2
        (by
          intro p hp
          rcases List.mem_cons.mp hp with rfl | hp
          · exact hbb
          · exact hbr2 p hp)
      have hc'b : c' ≠ b := by
        intro h
        exact hbr (h ▸ h2)
      have hbc' : InBox c' := hbr2 c' h2
      have hfix := ih b b c hnd2 hbr hbc (cross_self_left b c)
        (by
          intro p hp
          rcases List.mem_cons.mp hp with rfl | hp
          · exact hbb
          · rcases List.mem_cons.mp hp with rfl | hp
            · exact hbb
            · exact hbr2 p hp)
      have hnc : ¬ collinear_test a' b c' = true := by
        intro hc2
        rw [collinear_test_iff a' b c' hba' hbb hbc'] at hc2
        rw [collinear_test_iff a b c hba hbb hbc2] at hc
        apply hc
        have s1 : cross a b c' = 0 :=
          cross_of_common_base b a' a c' ha'b (cross_zero_swap (cross_zero_rot hcol)) hc2
        exact cross_of_common_base b c' a c hc'b (cross_zero_swap s1)
          (cross_zero_rot (cross_zero_rot h3))
      have e1 : rmp_go (a :: b :: c :: r) = b :: c' :: t := by
        simp only [rmp_go, hc]
        simp [h1]
      rw [e1]
      simp only [rmp_go, hnc]
      rw [h1] at hfix
      simp [hfix]

/-- On a path of pairwise distinct points of the box a second run of the
collinearity pass changes nothing. -/
theorem remove_middle_points_idem_of_nodup (p : List Vec2i) (hnd : p.Nodup)
    (hbox : ∀ q ∈ p, InBox q) :
    remove_middle_points (remove_middle_points p) = remove_middle_points p := by
  match p, hnd, hbox with
  | [], _, _ => simp [remove_middle_points]
  | [a], _, _ => simp [remove_middle_points]
  | a :: b :: rest, hnd, hbox =>
    have hnd2 := (List.nodup_cons.mp hnd).2
    have har := (List.nodup_cons.mp hnd).1
    have hab : a ≠ b := by
      intro h
      exact har (by simp [h])
    obtain ⟨c', t, h1, _, _⟩ := rmp_go_head a b rest hnd2 hbox
    have hfix := rmp_go_fixed a a b rest hnd2 har hab (cross_self_left a b)
      (by
        intro q hq
        rcases List.mem_cons.mp hq with rfl | hq
        · exact hbox _ (by simp)
        · exact hbox q hq)
    rw [remove_middle_points_cons_cons, h1, remove_middle_points_cons_cons, ← h1, hfix]

/-- C7 (counterexamples): `remove_middle_points` is not idempotent on all
lists. On the path (0,0), (1,0), (0,0), (0,1), which visits the cell (0,0)
twice, the first run keeps both copies of (0,0) and the second run drops one
of them. On the path (65536,65536), (65536,131072), (65538,65536),
(131072,131072) of pairwise distinct points, the 32-bit products of the test
wrap: the first run drops the third point, whose exact cross product with its
neighbours is not zero, and the second run drops a further point. -/
theorem remove_middle_points_not_idempotent :
    (remove_middle_points [⟨0, 0⟩, ⟨1, 0⟩, ⟨0, 0⟩, ⟨0, 1⟩] = [⟨0, 0⟩, ⟨0, 0⟩, ⟨0, 1⟩] ∧
      remove_middle_points (remove_middle_points [⟨0, 0⟩, ⟨1, 0⟩, ⟨0, 0⟩, ⟨0, 1⟩])
        = [⟨0, 0⟩, ⟨0, 1⟩] ∧
      remove_middle_points (remove_middle_points [⟨0, 0⟩, ⟨1, 0⟩, ⟨0, 0⟩, ⟨0, 1⟩])
        ≠ remove_middle_points [⟨0, 0⟩, ⟨1, 0⟩, ⟨0, 0⟩, ⟨0, 1⟩]) ∧
    (([⟨65536, 65536⟩, ⟨65536, 131072⟩, ⟨65538, 65536⟩, ⟨131072, 131072⟩] :
        List Vec2i).Nodup ∧
      cross ⟨65536, 131072⟩ ⟨65538, 65536⟩ ⟨131072, 131072⟩ ≠ 0 ∧
      remove_middle_points
          [⟨65536, 65536⟩, ⟨65536, 131072⟩, ⟨65538, 65536⟩, ⟨131072, 131072⟩]
        = [⟨65536, 65536⟩, ⟨65536, 131072⟩, ⟨131072, 131072⟩] ∧
      remove_middle_points (remove_middle_points
          [⟨65536, 65536⟩, ⟨65536, 131072⟩, ⟨65538, 65536⟩, ⟨131072, 131072⟩])
        = [⟨65536, 65536⟩, ⟨131072, 131072⟩] ∧
      remove_middle_points (remove_middle_points
          [⟨65536, 65536⟩, ⟨65536, 131072⟩, ⟨65538, 65536⟩, ⟨131072, 131072⟩])
        ≠ remove_middle_points
          [⟨65536, 65536⟩, ⟨65536, 131072⟩, ⟨65538, 65536⟩, ⟨131072, 131072⟩]) := by
  decide

/-- C7 (amended): for every list `p` of pairwise distinct grid points (a path
that visits no cell twice) whose coordinates lie between 0 and 46340 (so that
no 32-bit product of the collinearity test wraps),
`remove_middle_points (remove_middle_points p)` equals
`remove_middle_points p`. -/
theorem remove_middle_points_idempotent (p : List Vec2i) (hnd : p.Nodup)
    (hbox : ∀ q ∈ p, InBox q) :
    remove_middle_points (remove_middle_points p) = remove_middle_points p :=
  remove_middle_points_idem_of_nodup p hnd hbox

theorem remove_middle_points_idempotent_witness :
    ([⟨0, 0⟩, ⟨1, 0⟩, ⟨2, 0⟩, ⟨3, 1⟩, ⟨4, 2⟩, ⟨4, 3⟩] : List Vec2i).Nodup ∧
    (∀ q ∈ ([⟨0, 0⟩, ⟨1, 0⟩, ⟨2, 0⟩, ⟨3, 1⟩, ⟨4, 2⟩, ⟨4, 3⟩] : List Vec2i), InBox q) ∧
    remove_middle_points [⟨0, 0⟩, ⟨1, 0⟩, ⟨2, 0⟩, ⟨3, 1⟩, ⟨4, 2⟩, ⟨4, 3⟩]
      = [⟨0, 0⟩, ⟨2, 0⟩, ⟨4, 2⟩, ⟨4, 3⟩] ∧
    remove_middle_points (remove_middle_points [⟨0, 0⟩, ⟨1, 0⟩, ⟨2, 0⟩, ⟨3, 1⟩, ⟨4, 2⟩, ⟨4, 3⟩])
      = remove_middle_points [⟨0, 0⟩, ⟨1, 0⟩, ⟨2, 0⟩, ⟨3, 1⟩, ⟨4, 2⟩, ⟨4, 3⟩] :=
  ⟨by decide, by simp [InBox], by decide,
    remove_middle_points_idempotent _ (by decide) (by simp [InBox])⟩

/-! ### The single-step pass -/

/-- A point is within one cell of itself. -/
theorem single_step_test_self (a : Vec2i) : single_step_test a a = true := by
  simp [single_step_test, abs32, wrap32]

/-- The first point pushed by the loop followed by the final `push_back` of
`z`: the first point of the path, or its second point after a merge, or `z`. -/
theorem rss_loop_head (z c : Vec2i) (r : List Vec2i) :
    ∃ h t, remove_single_step_loop (c :: r) ++ [z] = h :: t ∧
      ((r = [] ∧ h = z) ∨ (∃ d r2, r = d :: r2 ∧ (h = c ∨ h = d))) := by
  cases r with
  | nil => exact ⟨z, [], by simp [remove_single_step_loop], Or.inl ⟨rfl, rfl⟩⟩
  | cons d r2 =>
    by_cases hcd : single_step_test c d = true
    · exact ⟨d, remove_single_step_loop r2 ++ [z], by simp [remove_single_step_loop, hcd],
        Or.inr ⟨d, r2, rfl, Or.inr rfl⟩⟩
    · exact ⟨c, remove_single_step_loop (d :: r2) ++ [z],
        by simp [remove_single_step_loop, hcd], Or.inr ⟨d, r2, rfl, Or.inl rfl⟩⟩

/-- A second sweep of the loop reproduces the output of the first on a path
that ends in `z`, in which no point is within one cell of the point two
positions later and no two consecutive steps are both single steps. -/
theorem rss_loop_fixed (n : Nat) :
    ∀ (tl : List Vec2i) (z : Vec2i), tl.length ≤ n → tl.getLast? = some z →
      (∀ i a b c, tl[i]? = some a → tl[i + 1]? = some b → tl[i + 2]? = some c →
        single_step_test a c = false ∧
          (single_step_test a b = false ∨ single_step_test b c = false)) →
      remove_single_step_loop (remove_single_step_loop tl ++ [z]) ++ [z]
        = remove_single_step_loop tl ++ [z] := by
  induction n with
  | zero =>
    intro tl z hlen hlast _
    have : tl = [] := List.length_eq_zero.mp (Nat.le_zero.mp hlen)
    subst this
    simp at hlast
  | succ n ih =>
    intro tl z hlen hlast hC
    match tl, hlen, hlast, hC with
    | [], _, hlast, _ => simp at hlast
    | [a], _, _, _ => simp [remove_single_step_loop]
    | cur :: next :: rest, hlen, hlast, hC =>
      have hlast2 : (next :: rest).getLast? = some z := by
        rw [← hlast, List.getLast?_cons_cons]
      by_cases hcn : single_step_test cur next = true
      · cases rest with
        | nil =>
          have hz : next = z := by simpa using hlast2
          subst hz
          have e : remove_single_step_loop [cur, next] = [next] := by
            simp only [remove_single_step_loop, hcn, if_true]
          rw [e]
          simp only [List.cons_append, List.nil_append, remove_single_step_loop,
            single_step_test_self, if_true]
        | cons c r =>
          have hlast3 : (c :: r).getLast? = some z := by
            rw [← hlast2, List.getLast?_cons_cons]
          have hih := ih (c :: r) z (by simp only [List.length_cons] at hlen ⊢; omega) hlast3
            (fun i x y w h1 h2 h3 => hC (i + 2) x y w (by simpa using h1) (by simpa using h2)
              (by simpa using h3))
          obtain ⟨h, t, hht, hcase⟩ := rss_loop_head z c r
          have hnh : single_step_test next h = false := by
            have h0 := hC 0 cur next c (by simp) (by simp) (by simp)
            have hnc : single_step_test next c = false := by
              rcases h0.2 with h1 | h1
              · rw [hcn] at h1
                cases h1
              · exact h1
            rcases hcase with ⟨hr, hz⟩ | ⟨d, r2, hr, hc | hd⟩
            · subst hr
              have : c = z := by simpa using hlast3
              rw [hz, ← this]
              exact hnc
            · rw [hc]
              exact hnc
            · subst hr
              rw [hd]
              exact (hC 1 next c d (by simp) (by simp) (by simp)).1
          have e1 : remove_single_step_loop (cur :: next :: c :: r) ++ [z]
              = next :: (remove_single_step_loop (c :: r) ++ [z]) := by
            simp [remove_single_step_loop, hcn]
          rw [e1, hht]
          rw [hht] at hih
          simp only [remove_single_step_loop, hnh, Bool.false_eq_true, if_false,
            List.cons_append, List.cons.injEq, true_and]
          exact hih
      · have hcn2 : single_step_test cur next = false := by simpa using hcn
        have hih := ih (next :: rest) z (by simp only [List.length_cons] at hlen ⊢; omega)
          hlast2
          (fun i x y w h1 h2 h3 => hC (i + 1) x y w (by simpa using h1) (by simpa using h2)
            (by simpa using h3))
        obtain ⟨h, t, hht, hcase⟩ := rss_loop_head z next rest
        have hch : single_step_test cur h = false := by
          rcases hcase with ⟨hr, hz⟩ | ⟨d, r2, hr, hc | hd⟩
          · subst hr
            have : next = z := by simpa using hlast2
            rw [hz, ← this]
            exact hcn2
          · rw [hc]
            exact hcn2
          · subst hr
            rw [hd]
            exact (hC 0 cur next d (by simp) (by simp) (by simp)).1
        have e1 : remove_single_step_loop (cur :: next :: rest) ++ [z]
            = cur :: (remove_single_step_loop (next :: rest) ++ [z]) := by
          simp [remove_single_step_loop, hcn2]
        rw [e1, hht]
        rw [hht] at hih
        simp only [remove_single_step_loop, hch, Bool.false_eq_true, if_false,
          List.cons_append, List.cons.injEq, true_and]
        exact hih

/-- C8 (counterexamples): `remove_single_step` is not idempotent on all lists.
On (0,0), (5,5), (5,6), (5,7), with two consecutive single steps, the first
run merges (5,5) into (5,6) and gives (0,0), (5,6), (5,7); the second run
merges again and gives (0,0), (5,7), (5,7). On (9,9), (0,0), (2,1), (1,1),
(7,7), where (1,1) is within one cell of (0,0) two positions earlier, the first
run gives (9,9), (0,0), (1,1), (7,7) and the second run (9,9), (1,1), (7,7). -/
theorem remove_single_step_not_idempotent :
    (remove_single_step [⟨0, 0⟩, ⟨5, 5⟩, ⟨5, 6⟩, ⟨5, 7⟩] = [⟨0, 0⟩, ⟨5, 6⟩, ⟨5, 7⟩] ∧
      remove_single_step (remove_single_step [⟨0, 0⟩, ⟨5, 5⟩, ⟨5, 6⟩, ⟨5, 7⟩])
        = [⟨0, 0⟩, ⟨5, 7⟩, ⟨5, 7⟩] ∧
      remove_single_step (remove_single_step [⟨0, 0⟩, ⟨5, 5⟩, ⟨5, 6⟩, ⟨5, 7⟩])
        ≠ remove_single_step [⟨0, 0⟩, ⟨5, 5⟩, ⟨5, 6⟩, ⟨5, 7⟩]) ∧
    (single_step_test ⟨0, 0⟩ ⟨2, 1⟩ = false ∧ single_step_test ⟨1, 1⟩ ⟨7, 7⟩ = false ∧
      single_step_test ⟨0, 0⟩ ⟨1, 1⟩ = true ∧
      remove_single_step [⟨9, 9⟩, ⟨0, 0⟩, ⟨2, 1⟩, ⟨1, 1⟩, ⟨7, 7⟩]
        = [⟨9, 9⟩, ⟨0, 0⟩, ⟨1, 1⟩, ⟨7, 7⟩] ∧
      remove_single_step (remove_single_step [⟨9, 9⟩, ⟨0, 0⟩, ⟨2, 1⟩, ⟨1, 1⟩, ⟨7, 7⟩])
        = [⟨9, 9⟩, ⟨1, 1⟩, ⟨7, 7⟩] ∧
      remove_single_step (remove_single_step [⟨9, 9⟩, ⟨0, 0⟩, ⟨2, 1⟩, ⟨1, 1⟩, ⟨7, 7⟩])
        ≠ remove_single_step [⟨9, 9⟩, ⟨0, 0⟩, ⟨2, 1⟩, ⟨1, 1⟩, ⟨7, 7⟩]) := by
  decide

/-- C8 (amended): for every list `p` of grid points in which, from index 1
on, no point is within one cell (in both axes) of the point two positions
later and no two consecutive steps are both single steps, a second run changes
nothing: `remove_single_step (remove_single_step p) = remove_single_step p`.
The condition is on the input; the first run may merge points. -/
theorem remove_single_step_idempotent (p : List Vec2i)
    (h : ∀ i a b c, 1 ≤ i → p[i]? = some a → p[i + 1]? = some b → p[i + 2]? = some c →
      single_step_test a c = false ∧
        (single_step_test a b = false ∨ single_step_test b c = false)) :
    remove_single_step (remove_single_step p) = remove_single_step p := by
  match p, h with
  | [], _ => simp [remove_single_step]
  | [a], _ => simp [remove_single_step]
  | [a, b], _ => simp [remove_single_step]
  | p0 :: b :: c :: rest, h =>
    have hlast : (b :: c :: rest).getLast? = some ((b :: c :: rest).getLast (by simp)) :=
      List.getLast?_eq_getLast _ _
    have hfix := rss_loop_fixed (b :: c :: rest).length (b :: c :: rest) _ (le_refl _) hlast
      (fun i x y w h1 h2 h3 => h (i + 1) x y w (by omega) (by simpa using h1)
        (by simpa using h2) (by simpa using h3))
    obtain ⟨hd, t, hht, _⟩ := rss_loop_head ((b :: c :: rest).getLast (by simp)) b (c :: rest)
    have e1 : remove_single_step (p0 :: b :: c :: rest)
        = p0 :: (remove_single_step_loop (b :: c :: rest)
            ++ [(b :: c :: rest).getLast (by simp)]) := by
      simp only [remove_single_step, List.length_cons]
      rw [if_neg (by omega), List.getLast?_cons_cons, hlast]
    rw [e1]
    rw [hht] at hfix ⊢
    cases t with
    | nil => simp [remove_single_step]
    | cons t0 t1 =>
      have hl2 : (hd :: t0 :: t1).getLast? = some ((b :: c :: rest).getLast (by simp)) := by
        rw [← hht]
        simp
      simp only [remove_single_step, List.length_cons]
      rw [if_neg (by omega), List.getLast?_cons_cons, hl2]
      simp only
      rw [hfix]

theorem remove_single_step_idempotent_witness :
    (∀ i a b c, 1 ≤ i →
      ([⟨0, 0⟩, ⟨5, 5⟩, ⟨5, 6⟩, ⟨9, 9⟩, ⟨9, 10⟩, ⟨20, 20⟩] : List Vec2i)[i]? = some a →
      ([⟨0, 0⟩, ⟨5, 5⟩, ⟨5, 6⟩, ⟨9, 9⟩, ⟨9, 10⟩, ⟨20, 20⟩] : List Vec2i)[i + 1]? = some b →
      ([⟨0, 0⟩, ⟨5, 5⟩, ⟨5, 6⟩, ⟨9, 9⟩, ⟨9, 10⟩, ⟨20, 20⟩] : List Vec2i)[i + 2]? = some c →
      single_step_test a c = false ∧
        (single_step_test a b = false ∨ single_step_test b c = false)) ∧
    remove_single_step [⟨0, 0⟩, ⟨5, 5⟩, ⟨5, 6⟩, ⟨9, 9⟩, ⟨9, 10⟩, ⟨20, 20⟩]
      = [⟨0, 0⟩, ⟨5, 6⟩, ⟨9, 10⟩, ⟨20, 20⟩] ∧
    remove_single_step
        (remove_single_step [⟨0, 0⟩, ⟨5, 5⟩, ⟨5, 6⟩, ⟨9, 9⟩, ⟨9, 10⟩, ⟨20, 20⟩])
      = remove_single_step [⟨0, 0⟩, ⟨5, 5⟩, ⟨5, 6⟩, ⟨9, 9⟩, ⟨9, 10⟩, ⟨20, 20⟩] :=
  have hyp : ∀ i a b c, 1 ≤ i →
      ([⟨0, 0⟩, ⟨5, 5⟩, ⟨5, 6⟩, ⟨9, 9⟩, ⟨9, 10⟩, ⟨20, 20⟩] : List Vec2i)[i]? = some a →
      ([⟨0, 0⟩, ⟨5, 5⟩, ⟨5, 6⟩, ⟨9, 9⟩, ⟨9, 10⟩, ⟨20, 20⟩] : List Vec2i)[i + 1]? = some b →
      ([⟨0, 0⟩, ⟨5, 5⟩, ⟨5, 6⟩, ⟨9, 9⟩, ⟨9, 10⟩, ⟨20, 20⟩] : List Vec2i)[i + 2]? = some c →
      single_step_test a c = false ∧
        (single_step_test a b = false ∨ single_step_test b c = false) := by
    intro i a b c hi ha hb hc
    match i, hi with
    | 1, _ =>
      simp at ha hb hc
      subst ha hb hc
      decide
    | 2, _ =>
      simp at ha hb hc
      subst ha hb hc
      decide
    | 3, _ =>
      simp at ha hb hc
      subst ha hb hc
      decide
    | (k + 4), _ => simp at hc
  ⟨hyp, by decide, remove_single_step_idempotent _ hyp⟩

/-- C9 (the code at the failing input): on (0,0), (5,5), (5,6) the merge at the
last interior index pushes `path[i+1]`, which is the last point, and the final
`push_back(path.back())` pushes it again: the output has the last point twice
and is not a subsequence of the input. -/
theorem remove_single_step_duplicates_last :
    remove_single_step [⟨0, 0⟩, ⟨5, 5⟩, ⟨5, 6⟩] = [⟨0, 0⟩, ⟨5, 6⟩, ⟨5, 6⟩] ∧
    ¬ (remove_single_step [⟨0, 0⟩, ⟨5, 5⟩, ⟨5, 6⟩]).Sublist [⟨0, 0⟩, ⟨5, 5⟩, ⟨5, 6⟩] := by
  decide

/-! ### The pickup assignment -/

theorem sqrt_floor_sq (n : Nat) : sqrt_floor ((n : ℚ) * n) = n := by
  unfold sqrt_floor
  have h : ⌊((n : ℚ) * n)⌋₊ = n * n := by
    rw [← Nat.cast_mul]
    exact Nat.floor_natCast (n * n)
  rw [h, Nat.sqrt_eq]

theorem pickup_plan_num_le_drones (cargoes : List CargoInfo) (drones : List DroneStatus) :
    pickup_plan_num cargoes drones ≤ drones.length := by
  unfold pickup_plan_num; split <;> omega

theorem pickup_plan_num_le_cargoes (cargoes : List CargoInfo) (drones : List DroneStatus) :
    pickup_plan_num cargoes drones ≤ cargoes.length := by
  unfold pickup_plan_num; split <;> omega

theorem cost_matrix_length (sqrt : ℚ → ℚ) (drones : List DroneStatus) (cargoes : List CargoInfo) :
    (cost_matrix sqrt drones cargoes).length = pickup_plan_num cargoes drones := by
  simp [cost_matrix, pickup_plan_num_le_drones]

/-- Inside the sub-problem the matrix entry is the cost of the pair. -/
theorem matrix_entry_cost_matrix (sqrt : ℚ → ℚ) (drones : List DroneStatus)
    (cargoes : List CargoInfo) (i : Nat) (j : Int)
    (hi : i < pickup_plan_num cargoes drones) (hj0 : 0 ≤ j)
    (hj : j < pickup_plan_num cargoes drones) :
    matrix_entry (cost_matrix sqrt drones cargoes) i j = pair_cost sqrt drones cargoes (i, j) := by
  have hd := pickup_plan_num_le_drones cargoes drones
  have hc := pickup_plan_num_le_cargoes cargoes drones
  have hjn : j.toNat < pickup_plan_num cargoes drones := by omega
  have hi2 : i < drones.length := by omega
  have hj2 : j.toNat < cargoes.length := by omega
  simp only [matrix_entry, cost_matrix, pair_cost, List.getD_eq_getElem?_getD,
    List.getElem?_map, List.getElem?_take_of_lt hi, List.getElem?_eq_getElem hi2,
    List.getElem?_eq_getElem hj2, Option.map_some', Option.getD_some,
    List.getElem?_take_of_lt hjn]

theorem partner_of_mem (pairs : List (Nat × Int)) (hnd : (pairs.map Prod.fst).Nodup)
    (i : Nat) (j : Int) (h : (i, j) ∈ pairs) : partner pairs i = j := by
  induction pairs with
  | nil => simp at h
  | cons e rest ih =>
    simp only [List.map_cons, List.nodup_cons] at hnd
    rcases List.mem_cons.mp h with h1 | h1
    · subst h1; simp [partner]
    · have hne : e.1 ≠ i := by
        intro he
        apply hnd.1
        rw [he]
        exact List.mem_map.mpr ⟨(i, j), h1, rfl⟩
      simp only [partner, hne, if_false]
      exact ih hnd.2 h1

theorem partner_mem (pairs : List (Nat × Int)) (i : Nat) (h : i ∈ pairs.map Prod.fst) :
    (i, partner pairs i) ∈ pairs := by
  induction pairs with
  | nil => simp at h
  | cons e rest ih =>
    by_cases he : e.1 = i
    · simp only [partner, he, if_true]
      have : e = (i, e.2) := by rw [← he]
      rw [← this]; exact List.mem_cons_self _ _
    · simp only [partner, he, if_false]
      have h2 : i ∈ rest.map Prod.fst := by
        simp only [List.map_cons, List.mem_cons] at h
        rcases h with h | h
        · exact absurd h.symm he
        · exact h
      exact List.mem_cons_of_mem _ (ih h2)

/-- A one-to-one pairing of all `k` rows is, as a list, a rearrangement of the
enumeration of an assignment vector. -/
theorem pairing_perm_enum (k : Nat) (pairs : List (Nat × Int)) (hp : IsPairing k k pairs)
    (hlen : pairs.length = k) :
    pairs.Perm ((List.range k).map (partner pairs)).enum := by
  obtain ⟨hfst, _, hrange⟩ := hp
  have hsub : pairs.map Prod.fst ⊆ List.range k := by
    intro i hi
    obtain ⟨e, he, rfl⟩ := List.mem_map.mp hi
    exact List.mem_range.mpr (hrange e he).1
  have hperm : (pairs.map Prod.fst).Perm (List.range k) :=
    (List.subperm_of_subset hfst hsub).perm_of_length_le (by simp [hlen])
  rw [List.perm_ext_iff_of_nodup (List.Nodup.of_map Prod.fst hfst)
    (List.Nodup.of_map Prod.fst (by simp [List.nodup_range]))]
  rintro ⟨i, j⟩
  rw [List.mk_mem_enum_iff_getElem?]
  constructor
  · intro h
    have hi : i < k := (hrange _ h).1
    simp [List.getElem?_range hi, partner_of_mem pairs hfst i j h]
  · intro h
    by_cases hi : i < k
    · simp only [List.getElem?_map, List.getElem?_range hi, Option.map_some',
        Option.some.injEq] at h
      rw [← h]
      exact partner_mem pairs i (hperm.mem_iff.mpr (List.mem_range.mpr hi))
    · have : ((List.range k).map (partner pairs))[i]? = none := by
        simp; omega
      rw [this] at h
      exact absurd h (by simp)

/-- On a valid pairing of the sub-problem the matrix cost is the pairing cost. -/
theorem sum_matrix_entry_eq_pairing_cost (sqrt : ℚ → ℚ) (drones : List DroneStatus)
    (cargoes : List CargoInfo) (pairs : List (Nat × Int))
    (h : ∀ e ∈ pairs, e.1 < pickup_plan_num cargoes drones ∧ 0 ≤ e.2 ∧
      e.2 < pickup_plan_num cargoes drones) :
    (pairs.map (fun e => matrix_entry (cost_matrix sqrt drones cargoes) e.1 e.2)).sum
      = pairing_cost sqrt drones cargoes pairs := by
  unfold pairing_cost
  congr 1
  apply List.map_congr_left
  intro e he
  obtain ⟨h1, h2, h3⟩ := h e he
  exact matrix_entry_cost_matrix sqrt drones cargoes e.1 e.2 h1 h2 h3

theorem enum_in_range (k : Nat) (a : List Int) (ha : IsPerfectMatching k a) :
    ∀ e ∈ a.enum, e.1 < k ∧ 0 ≤ e.2 ∧ e.2 < k := by
  intro e he
  obtain ⟨hlen, _, hr⟩ := ha
  have h1 := List.mem_enum_iff_getElem?.mp he
  have hlt : e.1 < a.length := by
    by_contra hc
    rw [List.getElem?_eq_none (by omega)] at h1
    exact absurd h1 (by simp)
  have hmem : e.2 ∈ a := List.getElem?_mem h1
  exact ⟨hlen ▸ hlt, hr e.2 hmem⟩

/-- C1 (amended): assuming the solver returns a minimum-cost perfect matching
of the square cost matrix, the pairing computed in `solve` (drone `i` with
order `assignment[i]` for `i < k`, `k` the smaller of the two list lengths) is
one-to-one, has `k` pairs, and has the least total cost among all one-to-one
pairings of `k` pairs between the first `k` drones and the first `k` orders. -/
theorem pickup_pairing_min_cost (env : Env) (drones : List DroneStatus)
    (cargoes : List CargoInfo)
    (hH : IsMinPerfectMatching (cost_matrix env.sqrt drones cargoes)
      (pickup_assignment env drones cargoes)) :
    IsPairing (pickup_plan_num cargoes drones) (pickup_plan_num cargoes drones)
        (pickup_pairing (pickup_plan_num cargoes drones) (pickup_assignment env drones cargoes)) ∧
      (pickup_pairing (pickup_plan_num cargoes drones)
        (pickup_assignment env drones cargoes)).length = pickup_plan_num cargoes drones ∧
      ∀ other : List (Nat × Int),
        IsPairing (pickup_plan_num cargoes drones) (pickup_plan_num cargoes drones) other →
        other.length = pickup_plan_num cargoes drones →
        pairing_cost env.sqrt drones cargoes
            (pickup_pairing (pickup_plan_num cargoes drones)
              (pickup_assignment env drones cargoes))
          ≤ pairing_cost env.sqrt drones cargoes other := by
  obtain ⟨hpm, hmin⟩ := hH
  rw [cost_matrix_length] at hpm hmin
  generalize pickup_assignment env drones cargoes = a at hpm hmin ⊢
  generalize hk : pickup_plan_num cargoes drones = k at hpm hmin ⊢
  have hlen : a.length = k := hpm.1
  have hP : pickup_pairing k a = a.enum := by
    unfold pickup_pairing
    rw [List.take_of_length_le (by omega)]
  rw [hP]
  have hrange := enum_in_range k a hpm
  refine ⟨⟨?_, ?_, hrange⟩, by simp [hlen], ?_⟩
  · simp [List.nodup_range]
  · rw [List.enum_map_snd]; exact hpm.2.1
  · intro Q hQ hQlen
    have hperm := pairing_perm_enum k Q hQ hQlen
    have hsnd : (Q.map Prod.snd).Perm ((List.range k).map (partner Q)) := by
      have := hperm.map Prod.snd
      rwa [List.enum_map_snd] at this
    have hother : IsPerfectMatching k ((List.range k).map (partner Q)) := by
      refine ⟨by simp, (hsnd.nodup_iff).mp hQ.2.1, ?_⟩
      intro j hj
      obtain ⟨e, he, rfl⟩ := List.mem_map.mp (hsnd.mem_iff.mpr hj)
      exact (hQ.2.2 e he).2
    have h1 := hmin _ hother
    have e1 : assignment_cost (cost_matrix env.sqrt drones cargoes) a
        = pairing_cost env.sqrt drones cargoes a.enum :=
      sum_matrix_entry_eq_pairing_cost env.sqrt drones cargoes a.enum (by rw [hk]; exact hrange)
    have e2 : assignment_cost (cost_matrix env.sqrt drones cargoes)
          ((List.range k).map (partner Q))
        = pairing_cost env.sqrt drones cargoes ((List.range k).map (partner Q)).enum :=
      sum_matrix_entry_eq_pairing_cost env.sqrt drones cargoes _
        (by rw [hk]; exact enum_in_range k _ hother)
    have e3 : pairing_cost env.sqrt drones cargoes Q
        = pairing_cost env.sqrt drones cargoes ((List.range k).map (partner Q)).enum := by
      unfold pairing_cost
      exact (hperm.map _).sum_eq
    rw [e1, e2] at h1
    rw [e3]
    exact h1

theorem sqrt_floor_values :
    sqrt_floor 0 = 0 ∧ sqrt_floor 9 = 3 ∧ sqrt_floor 16 = 4 ∧ sqrt_floor 64 = 8 ∧
      sqrt_floor 100 = 10 := by
  have h0 := sqrt_floor_sq 0
  have h3 := sqrt_floor_sq 3
  have h4 := sqrt_floor_sq 4
  have h8 := sqrt_floor_sq 8
  have h10 := sqrt_floor_sq 10
  norm_num at h0 h3 h4 h8 h10
  exact ⟨h0, h3, h4, h8, h10⟩

theorem sample_cost_matrix_two :
    cost_matrix sqrt_floor [sample_idle_drone "d0" 0 0, sample_idle_drone "d1" 6 0]
        [sample_order 1 0 8 0 11, sample_order 2 6 8 6 12]
      = [[11, 14], [13, 12]] := by
  obtain ⟨h0, h3, h4, h8, h10⟩ := sqrt_floor_values
  simp only [cost_matrix, pickup_plan_num, cost_entry, sample_idle_drone, sample_order,
    List.length_cons, List.length_nil, List.take, List.map]
  norm_num [h0, h3, h4, h8, h10]

theorem sample_cost_matrix_one :
    cost_matrix sqrt_floor [sample_idle_drone "d0" 0 0]
        [sample_order 2 6 8 6 12, sample_order 1 0 8 0 11]
      = [[14]] := by
  obtain ⟨h0, h3, h4, h8, h10⟩ := sqrt_floor_values
  simp only [cost_matrix, pickup_plan_num, cost_entry, sample_idle_drone, sample_order,
    List.length_cons, List.length_nil, List.take, List.map]
  norm_num [h0, h3, h4, h8, h10]

theorem perfect_matching_one (other : List Int) (h : IsPerfectMatching 1 other) : other = [0] := by
  obtain ⟨hlen, _, hr⟩ := h
  match other, hlen, hr with
  | [j], _, hr =>
    have := hr j (by simp)
    have hj : j = 0 := by omega
    rw [hj]

theorem perfect_matching_two (other : List Int) (h : IsPerfectMatching 2 other) :
    other = [0, 1] ∨ other = [1, 0] := by
  obtain ⟨hlen, hnd, hr⟩ := h
  match other, hlen, hnd, hr with
  | [a, b], _, hnd, hr =>
    have ha := hr a (by simp)
    have hb := hr b (by simp)
    have hab : a ≠ b := by
      intro hc
      simp [hc] at hnd
    have h1 : a = 0 ∨ a = 1 := by omega
    have h2 : b = 0 ∨ b = 1 := by omega
    rcases h1 with h1 | h1 <;> rcases h2 with h2 | h2 <;> subst h1 <;> subst h2 <;> simp at hab ⊢

/-- C1 (counterexample): one idle drone at (0,0) and two waiting orders, the
first with pickup (6,8) and delivery (6,12), the second with pickup (0,8) and
delivery (0,11). The sub-problem has size 1 and holds only the first order, so
the computed pairing is drone 0 with order 0 at cost 14, while pairing drone 0
with order 1 costs 11. -/
theorem pickup_pairing_not_min_over_whole_lists :
    IsMinPerfectMatching
        (cost_matrix sample_env.sqrt [sample_idle_drone "d0" 0 0]
          [sample_order 2 6 8 6 12, sample_order 1 0 8 0 11])
        (pickup_assignment sample_env [sample_idle_drone "d0" 0 0]
          [sample_order 2 6 8 6 12, sample_order 1 0 8 0 11]) ∧
      IsPairing [sample_idle_drone "d0" 0 0].length
        [sample_order 2 6 8 6 12, sample_order 1 0 8 0 11].length [(0, 1)] ∧
      [((0 : Nat), (1 : Int))].length
        = pickup_plan_num [sample_order 2 6 8 6 12, sample_order 1 0 8 0 11]
            [sample_idle_drone "d0" 0 0] ∧
      pairing_cost sample_env.sqrt [sample_idle_drone "d0" 0 0]
          [sample_order 2 6 8 6 12, sample_order 1 0 8 0 11] [(0, 1)]
        < pairing_cost sample_env.sqrt [sample_idle_drone "d0" 0 0]
            [sample_order 2 6 8 6 12, sample_order 1 0 8 0 11]
            (pickup_pairing
              (pickup_plan_num [sample_order 2 6 8 6 12, sample_order 1 0 8 0 11]
                [sample_idle_drone "d0" 0 0])
              (pickup_assignment sample_env [sample_idle_drone "d0" 0 0]
                [sample_order 2 6 8 6 12, sample_order 1 0 8 0 11])) := by
  obtain ⟨h0, h3, h4, h8, h10⟩ := sqrt_floor_values
  have hk : pickup_plan_num [sample_order 2 6 8 6 12, sample_order 1 0 8 0 11]
      [sample_idle_drone "d0" 0 0] = 1 := by
    simp [pickup_plan_num]
  have hsqrt : sample_env.sqrt = sqrt_floor := rfl
  have ha : pickup_assignment sample_env [sample_idle_drone "d0" 0 0]
      [sample_order 2 6 8 6 12, sample_order 1 0 8 0 11] = [0] := by
    simp only [pickup_assignment, hk, hsqrt, sample_cost_matrix_one]
    rfl
  rw [ha, hk, hsqrt, sample_cost_matrix_one]
  refine ⟨⟨⟨rfl, by simp, by simp⟩, ?_⟩, ⟨by simp, by simp, by simp⟩, rfl, ?_⟩
  · intro other ho
    rw [perfect_matching_one other ho]
  · have e1 : pair_cost sqrt_floor [sample_idle_drone "d0" 0 0]
        [sample_order 2 6 8 6 12, sample_order 1 0 8 0 11] (0, 1) = 11 := by
      simp only [pair_cost, cost_entry, sample_idle_drone, sample_order]
      norm_num [h0, h3, h4, h8, h10]
    have e2 : pair_cost sqrt_floor [sample_idle_drone "d0" 0 0]
        [sample_order 2 6 8 6 12, sample_order 1 0 8 0 11] (0, 0) = 14 := by
      simp only [pair_cost, cost_entry, sample_idle_drone, sample_order]
      norm_num [h0, h3, h4, h8, h10]
    have e3 : pickup_pairing 1 [0] = [(0, 0)] := rfl
    rw [e3]
    simp only [pairing_cost, List.map, List.sum_cons, List.sum_nil, e1, e2]
    norm_num

theorem pickup_pairing_min_cost_witness :
    IsMinPerfectMatching
        (cost_matrix sample_env.sqrt [sample_idle_drone "d0" 0 0, sample_idle_drone "d1" 6 0]
          [sample_order 1 0 8 0 11, sample_order 2 6 8 6 12])
        (pickup_assignment sample_env [sample_idle_drone "d0" 0 0, sample_idle_drone "d1" 6 0]
          [sample_order 1 0 8 0 11, sample_order 2 6 8 6 12]) ∧
      pickup_pairing 2 (pickup_assignment sample_env
          [sample_idle_drone "d0" 0 0, sample_idle_drone "d1" 6 0]
          [sample_order 1 0 8 0 11, sample_order 2 6 8 6 12]) = [(0, 0), (1, 1)] ∧
      ∀ other : List (Nat × Int), IsPairing 2 2 other → other.length = 2 →
        pairing_cost sample_env.sqrt [sample_idle_drone "d0" 0 0, sample_idle_drone "d1" 6 0]
            [sample_order 1 0 8 0 11, sample_order 2 6 8 6 12] [(0, 0), (1, 1)]
          ≤ pairing_cost sample_env.sqrt [sample_idle_drone "d0" 0 0, sample_idle_drone "d1" 6 0]
            [sample_order 1 0 8 0 11, sample_order 2 6 8 6 12] other := by
  have hsqrt : sample_env.sqrt = sqrt_floor := rfl
  have hk : pickup_plan_num [sample_order 1 0 8 0 11, sample_order 2 6 8 6 12]
      [sample_idle_drone "d0" 0 0, sample_idle_drone "d1" 6 0] = 2 := by
    simp [pickup_plan_num]
  have ha : pickup_assignment sample_env [sample_idle_drone "d0" 0 0, sample_idle_drone "d1" 6 0]
      [sample_order 1 0 8 0 11, sample_order 2 6 8 6 12] = [0, 1] := by
    simp only [pickup_assignment, hk, hsqrt, sample_cost_matrix_two]
    rfl
  have hH : IsMinPerfectMatching
      (cost_matrix sample_env.sqrt [sample_idle_drone "d0" 0 0, sample_idle_drone "d1" 6 0]
        [sample_order 1 0 8 0 11, sample_order 2 6 8 6 12])
      (pickup_assignment sample_env [sample_idle_drone "d0" 0 0, sample_idle_drone "d1" 6 0]
        [sample_order 1 0 8 0 11, sample_order 2 6 8 6 12]) := by
    rw [ha, hsqrt, sample_cost_matrix_two]
    refine ⟨⟨rfl, by simp, by simp⟩, ?_⟩
    intro other ho
    have m00 : matrix_entry [[11, 14], [13, 12]] 0 0 = 11 := rfl
    have m01 : matrix_entry [[11, 14], [13, 12]] 0 1 = 14 := rfl
    have m10 : matrix_entry [[11, 14], [13, 12]] 1 0 = 13 := rfl
    have m11 : matrix_entry [[11, 14], [13, 12]] 1 1 = 12 := rfl
    rcases perfect_matching_two other ho with h | h
    · rw [h]
    · rw [h]
      simp only [assignment_cost, List.enum, List.enumFrom, List.map, List.sum_cons,
        List.sum_nil, m00, m01, m10, m11]
      norm_num
  have h := pickup_pairing_min_cost sample_env
    [sample_idle_drone "d0" 0 0, sample_idle_drone "d1" 6 0]
    [sample_order 1 0 8 0 11, sample_order 2 6 8 6 12] hH
  rw [hk, ha] at h
  exact ⟨hH, by rw [ha]; rfl, h.2.2⟩

/-! ### Conflict detection -/

theorem sample_to_float_ten : sample_to_float 10 = 10 := by
  unfold sample_to_float
  norm_num

theorem to_cell_eq (v c : ℚ) (n : Nat) (hc : 0 < c) (h1 : n * c ≤ v) (h2 : v < (n + 1) * c)
    (hn : n ≤ 2147483647) :
    to_cell v c = .ok (n : Int) := by
  have hne : c ≠ 0 := ne_of_gt hc
  have hq : (n : ℚ) ≤ v / c := (le_div_iff₀ hc).mpr h1
  have hq2 : v / c < n + 1 := (div_lt_iff₀ hc).mpr h2
  have h0 : 0 ≤ v / c := le_trans (Nat.cast_nonneg n) hq
  have hfloor : ⌊v / c⌋ = (n : Int) := by
    rw [Int.floor_eq_iff]
    exact ⟨by exact_mod_cast hq, by exact_mod_cast hq2⟩
  have hrange : -2147483648 ≤ (n : Int) ∧ (n : Int) ≤ 2147483647 := by omega
  simp only [to_cell, hne, if_false, if_pos h0, hfloor, if_pos hrange]

/-- On the one-cell map without obstacles the generator starts with no
collision, whatever layer below 12 the altitude selects. -/
theorem load_grid_one_cell (env : Env) (altitude : ℚ) (layer : Nat)
    (hg : env._map_grid = [[[0, 0, 0, 0, 0, 0, 0, 0, 0, 0, 0, 0]]])
    (h : to_cell altitude env._cell_size_z = .ok (layer : Int)) (hl : layer < 12) :
    load_grid env altitude = .ok ⟨⟨1, 1⟩, []⟩ := by
  have hcell : vec_index_int [0, 0, 0, 0, 0, 0, 0, 0, 0, 0, 0, (0 : Int)] layer = .ok 0 := by
    simp only [vec_index_int, vec_index]
    interval_cases layer <;> rfl
  simp [load_grid, hg, vec_index, h, hcell, bind, Except.bind, pure, Except.pure,
    List.range_succ, List.foldlM]

/-- With an empty simplified path the way-point loop reads past the end of the
path: the bound `size() - 1` is `2^64 - 1`, the index 1 is below it, and
`path_remove_middle[1]` does not exist. -/
theorem flying_points_empty_path (env : Env) (altitude : ℚ) (start end_ : Vec3) :
    flying_points env altitude start end_ [] = .error Fault.index_out_of_bounds := by
  simp [flying_points, interior_waypoints, size_minus_one, bind, Except.bind]

/-- Once the take-off phase is generated, an empty simplified path makes the
assembly fault instead of returning the infeasible result. -/
theorem assemble_trajectory_empty_path (env : Env) (s : AlgState) (start end_ : Vec3)
    (drone : DroneStatus) (min_index : Nat) (altitude : Int) (dl : DroneLimits)
    (takeoff : List Segment) (last : Segment)
    (ht : env.generate_traj_from_waypoints [start, ⟨start.x, start.y, altitude⟩] dl 0
      = some takeoff)
    (hl : takeoff.getLast? = some last) :
    assemble_trajectory env s start end_ drone min_index altitude [] dl
      = .error Fault.index_out_of_bounds := by
  simp [assemble_trajectory, ht, vec_back, hl, flying_points_empty_path, bind, Except.bind]

/-- When the set-up of `trajectory_generation` succeeds, the call is the
assembly on the simplified path found for the start and goal cells. -/
theorem trajectory_generation_eq (env : Env) (s : AlgState) (start end_ : Vec3)
    (drone : DroneStatus) (g : Generator) (sx sy ex ey : Int) (dl : DroneLimits)
    (hg : load_grid env
      ((90 + ((min_element_index s._altitude_drone_count : Int) - 2) * 10 : Int) : ℚ) = .ok g)
    (hsx : to_cell start.x env._cell_size_x = .ok sx)
    (hsy : to_cell start.y env._cell_size_y = .ok sy)
    (hex : to_cell end_.x env._cell_size_x = .ok ex)
    (hey : to_cell end_.y env._cell_size_y = .ok ey)
    (hdl : vec_front env.drone_limits = .ok dl) :
    trajectory_generation env s start end_ drone
      = assemble_trajectory env s start end_ drone (min_element_index s._altitude_drone_count)
          (90 + ((min_element_index s._altitude_drone_count : Int) - 2) * 10)
          (remove_middle_points (env.findPath g ⟨sx, sy⟩ ⟨ex, ey⟩).reverse) dl := by
  unfold trajectory_generation
  simp only [hg, hsx, hsy, hex, hey, hdl, bind, Except.bind]

/-- C3 (the code at the failing input): an idle drone at (0,0,0), a goal at
(6,8,0), a session in which the pathfinder returns the empty path and the
take-off phase can be generated. `trajectory_generation` does not return the
infeasible result: the way-point loop indexes the empty simplified path at 1. -/
theorem trajectory_generation_empty_path_faults :
    sample_env_no_path.findPath ⟨⟨1, 1⟩, []⟩ ⟨0, 0⟩ ⟨0, 0⟩ = [] ∧
    trajectory_generation sample_env_no_path
        (sample_state [sample_idle_drone "d0" 0 0] [(1, sample_order 1 6 8 6 12)])
        ⟨0, 0, 0⟩ ⟨6, 8, 0⟩ (sample_idle_drone "d0" 0 0)
      = .error Fault.index_out_of_bounds := by
  refine ⟨rfl, ?_⟩
  have hz : sample_env_no_path._cell_size_z = 10 := rfl
  have hmin : min_element_index
      (sample_state [sample_idle_drone "d0" 0 0]
        [(1, sample_order 1 6 8 6 12)])._altitude_drone_count = 0 := rfl
  have halt : (90 + (((0 : Nat) : Int) - 2) * 10 : Int) = 70 := rfl
  have hgrid : load_grid sample_env_no_path ((70 : Int) : ℚ) = .ok ⟨⟨1, 1⟩, []⟩ :=
    load_grid_one_cell sample_env_no_path _ 7 rfl
      (by rw [hz]; exact to_cell_eq _ 10 7 (by norm_num) (by norm_num) (by norm_num) (by norm_num))
      (by norm_num)
  have c0 : to_cell 0 10 = .ok 0 := to_cell_eq 0 10 0 (by norm_num) (by norm_num) (by norm_num) (by norm_num)
  have c6 : to_cell 6 10 = .ok 0 := to_cell_eq 6 10 0 (by norm_num) (by norm_num) (by norm_num) (by norm_num)
  have c8 : to_cell 8 10 = .ok 0 := to_cell_eq 8 10 0 (by norm_num) (by norm_num) (by norm_num) (by norm_num)
  rw [trajectory_generation_eq sample_env_no_path
    (sample_state [sample_idle_drone "d0" 0 0] [(1, sample_order 1 6 8 6 12)])
    ⟨0, 0, 0⟩ ⟨6, 8, 0⟩ (sample_idle_drone "d0" 0 0) ⟨⟨1, 1⟩, []⟩ 0 0 0 0 ⟨10, 5, 2, 2⟩
    (by rw [hmin, halt]; exact hgrid) c0 c0 c6 c8 rfl]
  have hpath : remove_middle_points
      (sample_env_no_path.findPath ⟨⟨1, 1⟩, []⟩ ⟨0, 0⟩ ⟨0, 0⟩).reverse = [] := rfl
  rw [hpath, hmin, halt]
  exact assemble_trajectory_empty_path sample_env_no_path _ ⟨0, 0, 0⟩ _ _ _ _ ⟨10, 5, 2, 2⟩
    [⟨⟨0, 0, 0⟩, 0, 0⟩, ⟨⟨0, 0, ((70 : Int) : ℚ)⟩, 1000, 0⟩] ⟨⟨0, 0, ((70 : Int) : ℚ)⟩, 1000, 0⟩
    rfl rfl

/-! ### Plans are queued whatever the trajectory generation returns -/

/-- A failed take-off generation makes the assembly return the infeasible
result and leave the state as it is. -/
theorem assemble_trajectory_takeoff_none (env : Env) (s : AlgState) (start end_ : Vec3)
    (drone : DroneStatus) (min_index : Nat) (altitude : Int) (path : List Vec2i)
    (dl : DroneLimits)
    (ht : env.generate_traj_from_waypoints [start, ⟨start.x, start.y, altitude⟩] dl 0 = none) :
    assemble_trajectory env s start end_ drone min_index altitude path dl
      = .ok (([], -1), s) := by
  simp [assemble_trajectory, ht, pure, Except.pure]

/-- The pickup branch appends a plan for the first idle drone carrying whatever
segment list `trajectory_generation` returned; the returned flight time is not
looked at. -/
theorem pickup_phase_eq (env : Env) (s : AlgState) (drones : List DroneStatus)
    (cargoes : List CargoInfo) (plans : PlanList) (the_drone : DroneStatus)
    (the_cargo : CargoInfo) (chosen : Int) (r : (List Segment × Int) × AlgState)
    (hk : 0 < pickup_plan_num cargoes drones)
    (hlog : log_assignment (pickup_assignment env drones cargoes)
      (pickup_plan_num cargoes drones) = .ok ())
    (hd : vec_at drones 0 = .ok the_drone)
    (ha : vec_index (pickup_assignment env drones cargoes) 0 = .ok chosen)
    (hc : vec_at cargoes chosen = .ok the_cargo)
    (ht : trajectory_generation env s the_drone.position the_cargo.position the_drone = .ok r) :
    pickup_phase env s drones cargoes plans
      = .ok ({ r.2 with flightplan_num := r.2.flightplan_num + 1 },
          plans ++ [(the_drone.drone_id,
            { env.default_plan with
              target_cargo_ids := env.default_plan.target_cargo_ids ++ [the_cargo.id]
              flight_purpose := FlightPurpose.FLIGHT_TAKE_CARGOS
              flight_plan_type := FlightPlanType.PLAN_TRAJECTORIES
              flight_id := r.2.flightplan_num + 1
              takeoff_timestamp := env.current_time
              segments := r.1.1 })]) := by
  unfold pickup_phase
  simp only [hk, if_true, hlog, hd, ha, hc, ht, bind, Except.bind, pure, Except.pure]

/-- A cycle whose only work is the pickup branch publishes what that branch
queued and records it with `insert`. -/
theorem solve_pickup_only (env : Env) (s s1 : AlgState) (plans : PlanList)
    (hp : pickup_phase env s (bucketing s._drone_info).drones_without_cargo
      (cargoes_to_delivery s._cargo_info) [] = .ok (s1, plans))
    (h2 : (bucketing s._drone_info).drones_need_recharge = [])
    (h3 : (bucketing s._drone_info).drones_to_delivery = [])
    (h4 : (bucketing s._drone_info).drones_hovering = []) :
    solve env s = .ok
      { published := plans
        hover_commands :=
          (drones_to_hover env.sqrt env.to_float s._drone_info (bucketing s._drone_info).drones_flying).map
            (fun drone => drone.drone_id)
        state := { s1 with _id2plan := record_plans s1._id2plan plans }
        sleep_time_ms := 20000 } := by
  have e2 : recharge_phase env s1 [] plans = .ok (s1, plans) := rfl
  have e3 : delivery_phase env s1 [] plans = .ok (s1, plans) := rfl
  have e4 : replan_phase env s1 [] plans = .ok (s1, plans) := rfl
  unfold solve
  simp only [hp, h2, h3, h4, e2, e3, e4, bind, Except.bind, pure, Except.pure]

theorem sample_trajectory_generation_fails :
    trajectory_generation sample_env
        (sample_state [sample_idle_drone "d0" 0 0] [(1, sample_order 1 6 8 6 12)])
        (sample_idle_drone "d0" 0 0).position (sample_order 1 6 8 6 12).position
        (sample_idle_drone "d0" 0 0)
      = .ok (([], -1),
          sample_state [sample_idle_drone "d0" 0 0] [(1, sample_order 1 6 8 6 12)]) := by
  have hz : sample_env._cell_size_z = 10 := rfl
  have hmin : min_element_index
      (sample_state [sample_idle_drone "d0" 0 0]
        [(1, sample_order 1 6 8 6 12)])._altitude_drone_count = 0 := rfl
  have halt : (90 + (((0 : Nat) : Int) - 2) * 10 : Int) = 70 := rfl
  have hgrid : load_grid sample_env ((70 : Int) : ℚ) = .ok ⟨⟨1, 1⟩, []⟩ :=
    load_grid_one_cell sample_env _ 7 rfl
      (by rw [hz]; exact to_cell_eq _ 10 7 (by norm_num) (by norm_num) (by norm_num) (by norm_num))
      (by norm_num)
  have c0 : to_cell 0 10 = .ok 0 := to_cell_eq 0 10 0 (by norm_num) (by norm_num) (by norm_num) (by norm_num)
  have c6 : to_cell 6 10 = .ok 0 := to_cell_eq 6 10 0 (by norm_num) (by norm_num) (by norm_num) (by norm_num)
  have c8 : to_cell 8 10 = .ok 0 := to_cell_eq 8 10 0 (by norm_num) (by norm_num) (by norm_num) (by norm_num)
  rw [trajectory_generation_eq sample_env
    (sample_state [sample_idle_drone "d0" 0 0] [(1, sample_order 1 6 8 6 12)])
    (sample_idle_drone "d0" 0 0).position (sample_order 1 6 8 6 12).position
    (sample_idle_drone "d0" 0 0) ⟨⟨1, 1⟩, []⟩ 0 0 0 0 ⟨10, 5, 2, 2⟩
    (by rw [hmin, halt]; exact hgrid) c0 c0 c6 c8 rfl]
  exact assemble_trajectory_takeoff_none sample_env _ _ _ _ _ _ _ _ rfl

/-- C2 (the code at the failing input): one idle drone "d0", one waiting order
1, and a session in which the take-off phase cannot be generated, so that
`trajectory_generation` reports infeasible (empty list, flight time -1). The
cycle still publishes a pickup plan for "d0", with an empty segment list. -/
theorem solve_publishes_infeasible_pickup :
    trajectory_generation sample_env
        (sample_state [sample_idle_drone "d0" 0 0] [(1, sample_order 1 6 8 6 12)])
        (sample_idle_drone "d0" 0 0).position (sample_order 1 6 8 6 12).position
        (sample_idle_drone "d0" 0 0)
      = .ok (([], -1),
          sample_state [sample_idle_drone "d0" 0 0] [(1, sample_order 1 6 8 6 12)]) ∧
    solve sample_env (sample_state [sample_idle_drone "d0" 0 0] [(1, sample_order 1 6 8 6 12)])
      = .ok
        { published :=
            [("d0", ⟨FlightPurpose.FLIGHT_TAKE_CARGOS, FlightPlanType.PLAN_TRAJECTORIES, 1, 5000,
              [], [1]⟩)]
          hover_commands := []
          state :=
            { sample_state [sample_idle_drone "d0" 0 0] [(1, sample_order 1 6 8 6 12)] with
              flightplan_num := 1
              _id2plan :=
                [("d0", ⟨FlightPurpose.FLIGHT_TAKE_CARGOS, FlightPlanType.PLAN_TRAJECTORIES, 1,
                  5000, [], [1]⟩)] }
          sleep_time_ms := 20000 } := by
  refine ⟨sample_trajectory_generation_fails, ?_⟩
  have hb : bucketing [sample_idle_drone "d0" 0 0]
      = ⟨[sample_idle_drone "d0" 0 0], [], [], [], []⟩ := by
    have h100 : ¬ (100 : ℚ) < 50 := by norm_num
    simp [bucketing, bucket_step, sample_idle_drone, has_cargo, h100]
  have hcg : cargoes_to_delivery [(1, sample_order 1 6 8 6 12)] = [sample_order 1 6 8 6 12] := by
    simp [cargoes_to_delivery, sample_order]
  have hk : pickup_plan_num [sample_order 1 6 8 6 12] [sample_idle_drone "d0" 0 0] = 1 := by
    simp [pickup_plan_num]
  have ha : pickup_assignment sample_env [sample_idle_drone "d0" 0 0] [sample_order 1 6 8 6 12]
      = [0] := by
    have hl := cost_matrix_length sample_env.sqrt [sample_idle_drone "d0" 0 0]
      [sample_order 1 6 8 6 12]
    rw [hk] at hl
    simp only [pickup_assignment, hk]
    show (List.range (cost_matrix sample_env.sqrt [sample_idle_drone "d0" 0 0]
      [sample_order 1 6 8 6 12]).length).map Int.ofNat = [0]
    rw [hl]
    rfl
  have hp := pickup_phase_eq sample_env
    (sample_state [sample_idle_drone "d0" 0 0] [(1, sample_order 1 6 8 6 12)])
    [sample_idle_drone "d0" 0 0] [sample_order 1 6 8 6 12] [] (sample_idle_drone "d0" 0 0)
    (sample_order 1 6 8 6 12) 0 _ (by rw [hk]; norm_num) (by rw [ha, hk]; rfl) rfl
    (by rw [ha]; rfl) rfl
    sample_trajectory_generation_fails
  rw [solve_pickup_only sample_env
    (sample_state [sample_idle_drone "d0" 0 0] [(1, sample_order 1 6 8 6 12)]) _ _
    (by simp only [sample_state, hb, hcg]; exact hp)
    (by simp only [sample_state, hb]) (by simp only [sample_state, hb])
    (by simp only [sample_state, hb])]
  simp only [sample_state, hb, drones_to_hover, List.filter, List.map]
  rfl

/-! ### The segment record -/

/-- The result of the assembly when all three phases are generated: the
stitched list, the sum of the three phase times, the incremented band counter
and the `insert` into the segment record. -/
theorem assemble_trajectory_ok (env : Env) (s : AlgState) (start end_ : Vec3)
    (drone : DroneStatus) (min_index : Nat) (altitude : Int) (path : List Vec2i)
    (dl : DroneLimits) (takeoff flying landing : List Segment) (points : List Vec3)
    (counts : List Int) (tl fl ll fsl : Segment)
    (ht : env.generate_traj_from_waypoints [start, ⟨start.x, start.y, altitude⟩] dl 0
      = some takeoff)
    (htl : takeoff.getLast? = some tl)
    (hp : flying_points env altitude start end_ path = .ok points)
    (hf : env.generate_traj_from_waypoints points dl 1 = some flying)
    (hfl : flying.getLast? = some fl)
    (hl : env.generate_traj_from_waypoints [⟨end_.x, end_.y, altitude⟩, end_] dl 2
      = some landing)
    (hll : landing.getLast? = some ll)
    (hc : vec_increment s._altitude_drone_count min_index = .ok counts)
    (hfs : (shift_times (flying.drop 1) tl.time_ms).getLast? = some fsl) :
    assemble_trajectory env s start end_ drone min_index altitude path dl
      = .ok ((takeoff ++ shift_times (flying.drop 1) tl.time_ms
                ++ shift_times (landing.drop 1) fsl.time_ms,
              tl.time_ms + fl.time_ms + ll.time_ms),
          { s with
            _altitude_drone_count := counts
            _id2segs := map_insert s._id2segs drone.drone_id
              (takeoff ++ shift_times (flying.drop 1) tl.time_ms
                ++ shift_times (landing.drop 1) fsl.time_ms) }) := by
  have hfs2 := hfs
  simp only [List.drop_one] at hfs2
  simp [assemble_trajectory, ht, vec_back, htl, hp, hf, hfl, hl, hll, hc, hfs2, bind,
    Except.bind, pure, Except.pure]

theorem map_find_append_of_some {κ ν : Type} [DecidableEq κ] (m m2 : List (κ × ν)) (k : κ)
    (v : ν) (h : map_find m k = some v) : map_find (m ++ m2) k = some v := by
  induction m with
  | nil => simp [map_find] at h
  | cons e rest ih =>
    obtain ⟨k', v'⟩ := e
    by_cases hk : k' = k
    · simp [map_find, hk] at h ⊢
      exact h
    · simp [map_find, hk] at h ⊢
      exact ih h

/-- The call `insert` leaves an existing entry as it is. -/
theorem map_find_insert_of_some {κ ν : Type} [DecidableEq κ] (m : List (κ × ν)) (k : κ)
    (v new : ν) (h : map_find m k = some v) : map_insert m k new = m := by
  simp [map_insert, h]

/-- No call of `trajectory_generation` changes an existing segment record of
the drone it plans for. -/
theorem trajectory_generation_keeps_record (env : Env) (s s1 : AlgState) (start end_ : Vec3)
    (drone : DroneStatus) (r : List Segment × Int) (old : List Segment)
    (hold : map_find s._id2segs drone.drone_id = some old)
    (h : trajectory_generation env s start end_ drone = .ok (r, s1)) :
    map_find s1._id2segs drone.drone_id = some old := by
  unfold trajectory_generation at h
  simp only [bind, Except.bind] at h
  repeat' split at h
  all_goals try cases h
  rename_i h
  unfold assemble_trajectory at h
  simp only [bind, Except.bind, pure, Except.pure] at h
  repeat' split at h
  all_goals try cases h
  all_goals first | exact hold | (simp only [map_find_insert_of_some _ _ _ _ hold]; exact hold)

/-- A successful call on the one-cell map of the open sample session, for a
start and a goal inside the cell, with the cruise altitude selected by the
band counters `counts` at band `m`. -/
theorem sample_open_call (drones : List DroneStatus) (cargo : List (Int × CargoInfo))
    (id2plan : List (String × FlightPlan)) (id2segs : List (String × List Segment))
    (counts counts1 : List Int) (num : Int) (m : Nat) (sx sy ex ey : ℚ) (drone : DroneStatus)
    (hm : min_element_index counts = m) (hm2 : m < 5)
    (hc : vec_increment counts m = .ok counts1)
    (hsx : to_cell sx 10 = .ok 0) (hsy : to_cell sy 10 = .ok 0)
    (hex : to_cell ex 10 = .ok 0) (hey : to_cell ey 10 = .ok 0) :
    trajectory_generation sample_env_open ⟨drones, cargo, id2plan, id2segs, counts, num⟩
        ⟨sx, sy, 0⟩ ⟨ex, ey, 0⟩ drone
      = .ok (([⟨⟨sx, sy, 0⟩, 0, 0⟩, ⟨⟨sx, sy, ((90 + ((m : Int) - 2) * 10 : Int) : ℚ)⟩, 1000, 0⟩,
              ⟨⟨ex, ey, ((90 + ((m : Int) - 2) * 10 : Int) : ℚ)⟩, 2000, 1⟩,
              ⟨⟨ex, ey, 0⟩, 3000, 2⟩], 3000),
          ⟨drones, cargo, id2plan,
            map_insert id2segs drone.drone_id
              [⟨⟨sx, sy, 0⟩, 0, 0⟩, ⟨⟨sx, sy, ((90 + ((m : Int) - 2) * 10 : Int) : ℚ)⟩, 1000, 0⟩,
                ⟨⟨ex, ey, ((90 + ((m : Int) - 2) * 10 : Int) : ℚ)⟩, 2000, 1⟩,
                ⟨⟨ex, ey, 0⟩, 3000, 2⟩],
            counts1, num⟩) := by
  have hz : sample_env_open._cell_size_z = 10 := rfl
  have hgrid : load_grid sample_env_open ((90 + ((m : Int) - 2) * 10 : Int) : ℚ)
      = .ok ⟨⟨1, 1⟩, []⟩ := by
    refine load_grid_one_cell sample_env_open _ (m + 7) rfl ?_ (by omega)
    rw [hz]
    refine to_cell_eq _ 10 (m + 7) (by norm_num) ?_ ?_ (by omega) <;> push_cast <;> linarith
  rw [trajectory_generation_eq sample_env_open ⟨drones, cargo, id2plan, id2segs, counts, num⟩
    ⟨sx, sy, 0⟩ ⟨ex, ey, 0⟩ drone ⟨⟨1, 1⟩, []⟩ 0 0 0 0 ⟨10, 5, 2, 2⟩
    (by simp only [hm]; exact hgrid) hsx hsy hex hey rfl]
  simp only [hm]
  exact assemble_trajectory_ok sample_env_open ⟨drones, cargo, id2plan, id2segs, counts, num⟩
    ⟨sx, sy, 0⟩ ⟨ex, ey, 0⟩ drone m (90 + ((m : Int) - 2) * 10) [⟨0, 0⟩] ⟨10, 5, 2, 2⟩
    [⟨⟨sx, sy, 0⟩, 0, 0⟩, ⟨⟨sx, sy, ((90 + ((m : Int) - 2) * 10 : Int) : ℚ)⟩, 1000, 0⟩]
    [⟨⟨sx, sy, ((90 + ((m : Int) - 2) * 10 : Int) : ℚ)⟩, 0, 1⟩,
      ⟨⟨ex, ey, ((90 + ((m : Int) - 2) * 10 : Int) : ℚ)⟩, 1000, 1⟩]
    [⟨⟨ex, ey, ((90 + ((m : Int) - 2) * 10 : Int) : ℚ)⟩, 0, 2⟩, ⟨⟨ex, ey, 0⟩, 1000, 2⟩]
    [⟨sx, sy, ((90 + ((m : Int) - 2) * 10 : Int) : ℚ)⟩,
      ⟨ex, ey, ((90 + ((m : Int) - 2) * 10 : Int) : ℚ)⟩]
    counts1
    ⟨⟨sx, sy, ((90 + ((m : Int) - 2) * 10 : Int) : ℚ)⟩, 1000, 0⟩
    ⟨⟨ex, ey, ((90 + ((m : Int) - 2) * 10 : Int) : ℚ)⟩, 1000, 1⟩
    ⟨⟨ex, ey, 0⟩, 1000, 2⟩
    ⟨⟨ex, ey, ((90 + ((m : Int) - 2) * 10 : Int) : ℚ)⟩, 2000, 1⟩
    rfl rfl rfl rfl rfl rfl rfl hc rfl

/-- C5 (the code at the failing input): two successful calls of
`trajectory_generation` for drone "d0", the first from (0,0,0) to (6,8,0), the
second from (6,8,0) to (3,4,0). After the second call the segment record of
"d0" is still the list returned by the first call, because `insert` does not
replace an entry: its final position, which `solve` would hand to
`trajectory_replan` as the goal, is (6,8,0) and not the final position (3,4,0)
of the list returned last. -/
theorem segment_record_keeps_first_call :
    trajectory_generation sample_env_open (sample_state [sample_idle_drone "d0" 0 0] [])
        ⟨0, 0, 0⟩ ⟨6, 8, 0⟩ (sample_idle_drone "d0" 0 0)
      = .ok ((sample_first_traj, 3000),
          ⟨[sample_idle_drone "d0" 0 0], [], [], [("d0", sample_first_traj)],
            [1, 0, 0, 0, 0], 0⟩) ∧
    trajectory_generation sample_env_open
        ⟨[sample_idle_drone "d0" 0 0], [], [], [("d0", sample_first_traj)],
          [1, 0, 0, 0, 0], 0⟩
        ⟨6, 8, 0⟩ ⟨3, 4, 0⟩ (sample_idle_drone "d0" 6 8)
      = .ok ((sample_second_traj, 3000),
          ⟨[sample_idle_drone "d0" 0 0], [], [], [("d0", sample_first_traj)],
            [1, 1, 0, 0, 0], 0⟩) ∧
    sample_first_traj ≠ sample_second_traj ∧
    vec_back (map_subscript [("d0", sample_first_traj)] "d0" []).1
      = .ok ⟨⟨6, 8, 0⟩, 3000, 2⟩ := by
  have c0 : to_cell 0 10 = .ok 0 := to_cell_eq 0 10 0 (by norm_num) (by norm_num) (by norm_num) (by norm_num)
  have c3 : to_cell 3 10 = .ok 0 := to_cell_eq 3 10 0 (by norm_num) (by norm_num) (by norm_num) (by norm_num)
  have c4 : to_cell 4 10 = .ok 0 := to_cell_eq 4 10 0 (by norm_num) (by norm_num) (by norm_num) (by norm_num)
  have c6 : to_cell 6 10 = .ok 0 := to_cell_eq 6 10 0 (by norm_num) (by norm_num) (by norm_num) (by norm_num)
  have c8 : to_cell 8 10 = .ok 0 := to_cell_eq 8 10 0 (by norm_num) (by norm_num) (by norm_num) (by norm_num)
  have e70 : ((90 + (((0 : Nat) : Int) - 2) * 10 : Int) : ℚ) = 70 := by norm_num
  have e80 : ((90 + (((1 : Nat) : Int) - 2) * 10 : Int) : ℚ) = 80 := by norm_num
  have h1 := sample_open_call [sample_idle_drone "d0" 0 0] [] [] [] [0, 0, 0, 0, 0]
    [1, 0, 0, 0, 0] 0 0 0 0 6 8 (sample_idle_drone "d0" 0 0) rfl (by norm_num) rfl c0 c0 c6 c8
  have h2 := sample_open_call [sample_idle_drone "d0" 0 0] [] [] [("d0", sample_first_traj)]
    [1, 0, 0, 0, 0] [1, 1, 0, 0, 0] 0 1 6 8 3 4 (sample_idle_drone "d0" 6 8) rfl (by norm_num)
    rfl c6 c8 c3 c4
  rw [e70] at h1
  rw [e80] at h2
  refine ⟨h1, h2, ?_, rfl⟩
  intro h
  simp only [sample_first_traj, sample_second_traj, List.cons.injEq, Segment.mk.injEq,
    Vec3.mk.injEq] at h
  norm_num at h

/-! ### The plan record -/

/-- The delivery branch for the first drone whose cargo is known, when the
trajectory generation did not return flight time `-1`. -/
theorem delivery_phase_eq (env : Env) (s : AlgState) (the_drone : DroneStatus)
    (rest : List DroneStatus) (plans : PlanList) (the_cargo : CargoInfo)
    (r : (List Segment × Int) × AlgState)
    (hfind : map_find s._cargo_info (first_cargo_id the_drone) = some the_cargo)
    (ht : trajectory_generation env s the_drone.position the_cargo.target_position the_drone
      = .ok r)
    (hne : r.1.2 ≠ -1) :
    delivery_phase env s (the_drone :: rest) plans
      = .ok ({ r.2 with flightplan_num := r.2.flightplan_num + 1 },
          plans ++ [(the_drone.drone_id,
            { env.default_plan with
              flight_purpose := FlightPurpose.FLIGHT_DELIVER_CARGOS
              flight_plan_type := FlightPlanType.PLAN_TRAJECTORIES
              flight_id := r.2.flightplan_num + 1
              takeoff_timestamp := env.current_time
              segments := r.1.1
              target_cargo_ids := env.default_plan.target_cargo_ids ++ [the_cargo.id] })]) := by
  simp only [delivery_phase, hfind, ht, hne, if_false, bind, Except.bind, pure, Except.pure]

/-- A cycle whose only work is the delivery branch. -/
theorem solve_delivery_only (env : Env) (s s1 : AlgState) (plans : PlanList)
    (h1 : (bucketing s._drone_info).drones_without_cargo = [])
    (h2 : (bucketing s._drone_info).drones_need_recharge = [])
    (hp : delivery_phase env s (bucketing s._drone_info).drones_to_delivery [] = .ok (s1, plans))
    (h4 : (bucketing s._drone_info).drones_hovering = []) :
    solve env s = .ok
      { published := plans
        hover_commands :=
          (drones_to_hover env.sqrt env.to_float s._drone_info (bucketing s._drone_info).drones_flying).map
            (fun drone => drone.drone_id)
        state := { s1 with _id2plan := record_plans s1._id2plan plans }
        sleep_time_ms := 20000 } := by
  have e1 : pickup_phase env s [] (cargoes_to_delivery s._cargo_info) [] = .ok (s, []) := by
    simp [pickup_phase, pickup_plan_num, pure, Except.pure]
  have e2 : recharge_phase env s [] [] = .ok (s, []) := rfl
  have e4 : replan_phase env s1 [] plans = .ok (s1, plans) := rfl
  unfold solve
  simp only [h1, h2, h4, e1, e2, hp, e4, bind, Except.bind, pure, Except.pure]

/-- C4 (the code at the failing input): the plan record already maps "d0" to
the pickup plan 1 of an earlier cycle. In this cycle "d0" is idle at (6,8,0)
with order 1 on board, and `solve` publishes the delivery plan 2 for it. After
the publish loop the record still maps "d0" to plan 1: `insert` does not
replace the entry. -/
theorem plan_record_keeps_old_plan :
    solve sample_env_open sample_second_cycle
      = .ok
        { published := [("d0", sample_second_plan)]
          hover_commands := []
          state :=
            ⟨[sample_loaded_drone "d0" 6 8 1], [(1, sample_taken_order 1 6 8 3 4)],
              [("d0", sample_first_plan)], [("d0", sample_first_traj)], [1, 1, 0, 0, 0], 2⟩
          sleep_time_ms := 20000 } ∧
    sample_first_plan ≠ sample_second_plan := by
  have c3 : to_cell 3 10 = .ok 0 := to_cell_eq 3 10 0 (by norm_num) (by norm_num) (by norm_num) (by norm_num)
  have c4 : to_cell 4 10 = .ok 0 := to_cell_eq 4 10 0 (by norm_num) (by norm_num) (by norm_num) (by norm_num)
  have c6 : to_cell 6 10 = .ok 0 := to_cell_eq 6 10 0 (by norm_num) (by norm_num) (by norm_num) (by norm_num)
  have c8 : to_cell 8 10 = .ok 0 := to_cell_eq 8 10 0 (by norm_num) (by norm_num) (by norm_num) (by norm_num)
  have e80 : ((90 + (((1 : Nat) : Int) - 2) * 10 : Int) : ℚ) = 80 := by norm_num
  have hb : bucketing [sample_loaded_drone "d0" 6 8 1]
      = ⟨[], [], [sample_loaded_drone "d0" 6 8 1], [], []⟩ := by
    have h100 : ¬ (100 : ℚ) < 50 := by norm_num
    simp [bucketing, bucket_step, sample_loaded_drone, has_cargo, h100]
  have ht := sample_open_call [sample_loaded_drone "d0" 6 8 1]
    [(1, sample_taken_order 1 6 8 3 4)] [("d0", sample_first_plan)]
    [("d0", sample_first_traj)] [1, 0, 0, 0, 0] [1, 1, 0, 0, 0] 1 1 6 8 3 4
    (sample_loaded_drone "d0" 6 8 1) rfl (by norm_num) rfl c6 c8 c3 c4
  rw [e80] at ht
  have hp := delivery_phase_eq sample_env_open sample_second_cycle
    (sample_loaded_drone "d0" 6 8 1) [] [] (sample_taken_order 1 6 8 3 4) _ rfl ht (by decide)
  constructor
  · rw [solve_delivery_only sample_env_open sample_second_cycle _ _
      (by simp only [sample_second_cycle, hb]) (by simp only [sample_second_cycle, hb])
      (by simp only [sample_second_cycle, hb]; exact hp)
      (by simp only [sample_second_cycle, hb])]
    simp only [sample_second_cycle, hb, drones_to_hover, List.filter, List.map]
    rfl
  · intro h
    have h2 := congrArg (fun pl => pl.flight_id) h
    exact absurd h2 (by decide)

/-! ### The collinearity pass keeps order and end points -/

theorem getLast?_cons_of_ne_nil {α : Type} (a : α) (l : List α) (h : l ≠ []) :
    (a :: l).getLast? = l.getLast? := by
  cases l with
  | nil => exact absurd rfl h
  | cons b t => simp [List.getLast?_cons_cons]

/-- What the loop and the final push produce is a subsequence of the path
after its first point and ends in the last point of the path. -/
theorem rmp_go_sublist (a b : Vec2i) (rest : List Vec2i) :
    (rmp_go (a :: b :: rest)).Sublist (b :: rest) ∧
      (rmp_go (a :: b :: rest)).getLast? = (b :: rest).getLast? := by
  induction rest generalizing a b with
  | nil => simp [rmp_go]
  | cons c r ih =>
    obtain ⟨h1, h2⟩ := ih b c
    have hne : rmp_go (b :: c :: r) ≠ [] := by
      intro h
      rw [h, List.getLast?_eq_getLast _ (List.cons_ne_nil c r)] at h2
      cases h2
    have hl : (b :: c :: r).getLast? = (c :: r).getLast? :=
      getLast?_cons_of_ne_nil b (c :: r) (by simp)
    by_cases hc : collinear_test a b c = true
    · simp only [rmp_go, hc, if_true]
      exact ⟨h1.trans (List.sublist_cons_self b (c :: r)), by rw [h2, hl]⟩
    · simp only [rmp_go, hc]
      refine ⟨h1.cons₂ b, ?_⟩
      simp only [Bool.false_eq_true, if_false]
      rw [getLast?_cons_of_ne_nil b _ hne, h2, hl]

/-- C11: the output of `remove_middle_points` is a subsequence of its input
(obtained by deleting points, order kept), and its first and last points are
the first and last points of the input. -/
theorem remove_middle_points_sublist (p : List Vec2i) :
    (remove_middle_points p).Sublist p ∧
      (remove_middle_points p).head? = p.head? ∧
      (remove_middle_points p).getLast? = p.getLast? := by
  match p with
  | [] => simp [remove_middle_points]
  | [a] => simp [remove_middle_points]
  | a :: b :: rest =>
    obtain ⟨h1, h2⟩ := rmp_go_sublist a b rest
    have hne : rmp_go (a :: b :: rest) ≠ [] := by
      intro h
      rw [h, List.getLast?_eq_getLast _ (List.cons_ne_nil b rest)] at h2
      cases h2
    rw [remove_middle_points_cons_cons]
    refine ⟨h1.cons₂ a, rfl, ?_⟩
    rw [getLast?_cons_of_ne_nil a _ hne, h2, getLast?_cons_of_ne_nil a (b :: rest) (by simp)]

/-! ### The bucketing loop -/

/-- The five buckets are five filters of the snapshot: battery below 50; then,
among the others, `READY` without cargo, `READY` with cargo, `FLYING`,
`HOVERING`. -/
theorem foldl_bucket_step_eq (l : List DroneStatus) (b : Buckets) :
    l.foldl bucket_step b =
      ⟨b.drones_without_cargo ++ l.filter (fun d => decide (¬ d.battery < 50) &&
          decide (d.status = Status.READY) && !has_cargo d),
        b.drones_need_recharge ++ l.filter (fun d => decide (d.battery < 50)),
        b.drones_to_delivery ++ l.filter (fun d => decide (¬ d.battery < 50) &&
          decide (d.status = Status.READY) && has_cargo d),
        b.drones_flying ++ l.filter (fun d => decide (¬ d.battery < 50) &&
          decide (d.status = Status.FLYING)),
        b.drones_hovering ++ l.filter (fun d => decide (¬ d.battery < 50) &&
          decide (d.status = Status.HOVERING))⟩ := by
  induction l generalizing b with
  | nil => simp
  | cons d l ih =>
    rw [List.foldl_cons, ih]
    by_cases hb : d.battery < 50
    · have hb2 : ¬ 50 ≤ d.battery := not_le.mpr hb
      simp [bucket_step, hb, hb2]
    · have hb2 : 50 ≤ d.battery := not_lt.mp hb
      by_cases hr : d.status = Status.READY
      · by_cases hc : has_cargo d = false
        · simp [bucket_step, hb, hr, hc, hb2]
        · have hc2 : has_cargo d = true := by simpa using hc
          simp [bucket_step, hb, hr, hc2, hb2]
      · by_cases hf : d.status = Status.FLYING
        · simp [bucket_step, hb, hf, hb2]
        · by_cases hh : d.status = Status.HOVERING <;> simp [bucket_step, hb, hr, hf, hh, hb2]

theorem bucketing_eq (l : List DroneStatus) :
    bucketing l =
      ⟨l.filter (fun d => decide (¬ d.battery < 50) && decide (d.status = Status.READY) &&
          !has_cargo d),
        l.filter (fun d => decide (d.battery < 50)),
        l.filter (fun d => decide (¬ d.battery < 50) && decide (d.status = Status.READY) &&
          has_cargo d),
        l.filter (fun d => decide (¬ d.battery < 50) && decide (d.status = Status.FLYING)),
        l.filter (fun d => decide (¬ d.battery < 50) && decide (d.status = Status.HOVERING))⟩ := by
  simp [bucketing, foldl_bucket_step_eq]

/-- C14: the bucketing loop places every drone of the snapshot in at most one
of the five buckets, and a drone whose battery is below 50 is placed in
`drones_need_recharge` and in no other bucket, whatever its status and cargo. -/
theorem bucketing_exclusive (drone_info : List DroneStatus) (d : DroneStatus)
    (hd : d ∈ drone_info) :
    List.countP (fun bucket => decide (d ∈ bucket))
        [(bucketing drone_info).drones_need_recharge,
          (bucketing drone_info).drones_without_cargo,
          (bucketing drone_info).drones_to_delivery,
          (bucketing drone_info).drones_flying,
          (bucketing drone_info).drones_hovering] ≤ 1 ∧
      (d.battery < 50 →
        d ∈ (bucketing drone_info).drones_need_recharge ∧
          d ∉ (bucketing drone_info).drones_without_cargo ∧
          d ∉ (bucketing drone_info).drones_to_delivery ∧
          d ∉ (bucketing drone_info).drones_flying ∧
          d ∉ (bucketing drone_info).drones_hovering) := by
  rw [bucketing_eq]
  constructor
  · by_cases hb : d.battery < 50
    · have hb2 : ¬ 50 ≤ d.battery := not_le.mpr hb
      simp [List.countP_cons, List.mem_filter, hd, hb, hb2]
    · have hb2 : 50 ≤ d.battery := not_lt.mp hb
      by_cases hc : has_cargo d = true
      · cases hs : d.status <;> simp [List.countP_cons, List.mem_filter, hd, hb, hb2, hc, hs]
      · have hc2 : has_cargo d = false := by simpa using hc
        cases hs : d.status <;> simp [List.countP_cons, List.mem_filter, hd, hb, hb2, hc2, hs]
  · intro hb
    have hb2 : ¬ 50 ≤ d.battery := not_le.mpr hb
    simp [List.mem_filter, hd, hb, hb2]

theorem bucketing_exclusive_witness :
    sample_flying_drone "a" 0 0 100 40 ∈
        [sample_flying_drone "a" 0 0 100 40, sample_flying_drone "b" 0 6 108 80] ∧
      (sample_flying_drone "a" 0 0 100 40).battery < 50 ∧
      sample_flying_drone "a" 0 0 100 40 ∈
        (bucketing [sample_flying_drone "a" 0 0 100 40,
          sample_flying_drone "b" 0 6 108 80]).drones_need_recharge ∧
      sample_flying_drone "a" 0 0 100 40 ∉
        (bucketing [sample_flying_drone "a" 0 0 100 40,
          sample_flying_drone "b" 0 6 108 80]).drones_flying :=
  have hm : sample_flying_drone "a" 0 0 100 40 ∈
      [sample_flying_drone "a" 0 0 100 40, sample_flying_drone "b" 0 6 108 80] :=
    List.mem_cons_self _ _
  have hb : (sample_flying_drone "a" 0 0 100 40).battery < 50 := by
    simp only [sample_flying_drone]
    norm_num
  have h := (bucketing_exclusive _ _ hm).2 hb
  ⟨hm, hb, h.1, h.2.2.2.1⟩

/-! ### The cost matrix -/

/-- C12 (amended): for every drone `i` and order `j` of the sub-problem, the
entry `cost[i][j]` exists and equals the distance in the horizontal plane (over
`x` and `y` only) from the drone to the pickup position plus the distance in
the horizontal plane from the pickup position to the delivery position. -/
theorem cost_matrix_entry (sqrt : ℚ → ℚ) (drones : List DroneStatus)
    (cargoes : List CargoInfo) (i j : Nat) (the_drone : DroneStatus) (the_cargo : CargoInfo)
    (hi : i < pickup_plan_num cargoes drones) (hj : j < pickup_plan_num cargoes drones)
    (hd : drones[i]? = some the_drone) (hc : cargoes[j]? = some the_cargo) :
    (cost_matrix sqrt drones cargoes)[i]?.bind (fun row => row[j]?)
      = some (euclid2 sqrt the_drone.position the_cargo.position +
          euclid2 sqrt the_cargo.position the_cargo.target_position) := by
  simp only [cost_matrix, List.getElem?_map, List.getElem?_take_of_lt hi,
    List.getElem?_take_of_lt hj, hd, hc, Option.map_some', Option.some_bind, cost_entry,
    euclid2]

theorem sqrt_floor_25 : sqrt_floor 25 = 5 := by
  have h5 := sqrt_floor_sq 5
  norm_num at h5
  exact h5

theorem cost_matrix_entry_witness :
    0 < pickup_plan_num [sample_raised_order] [sample_idle_drone "d0" 0 0] ∧
    (cost_matrix sqrt_floor [sample_idle_drone "d0" 0 0] [sample_raised_order])[0]?.bind
        (fun row => row[0]?)
      = some (euclid2 sqrt_floor (sample_idle_drone "d0" 0 0).position
            sample_raised_order.position +
          euclid2 sqrt_floor sample_raised_order.position
            sample_raised_order.target_position) :=
  have hk : 0 < pickup_plan_num [sample_raised_order] [sample_idle_drone "d0" 0 0] := by
    simp [pickup_plan_num]
  ⟨hk, cost_matrix_entry sqrt_floor [sample_idle_drone "d0" 0 0] [sample_raised_order] 0 0
    (sample_idle_drone "d0" 0 0) sample_raised_order hk hk rfl rfl⟩

/-- C12 (counterexample): a drone at (0,0,0) and an order with pickup (3,0,4)
and delivery (6,4,4). The matrix entry is 3 + 5 = 8, taken over `x` and `y`;
the distances over all three members add up to 5 + 5 = 10. -/
theorem cost_matrix_entry_not_3d :
    (cost_matrix sqrt_floor [sample_idle_drone "d0" 0 0] [sample_raised_order])[0]?.bind
        (fun row => row[0]?) = some 8 ∧
      euclid3 sqrt_floor (sample_idle_drone "d0" 0 0).position sample_raised_order.position +
        euclid3 sqrt_floor sample_raised_order.position sample_raised_order.target_position
        = 10 := by
  obtain ⟨h0, h3, h4, h8, h10⟩ := sqrt_floor_values
  have h25 := sqrt_floor_25
  constructor
  · simp only [cost_matrix, pickup_plan_num, cost_entry, sample_idle_drone, sample_raised_order,
      List.length_cons, List.length_nil, List.take, List.map]
    norm_num [h3, h25]
  · simp only [euclid3, sample_idle_drone, sample_raised_order]
    norm_num [h25]

/-! ### Selection of the altitude band -/

/-- The scan of `std::min_element` from position `idx` on: either the best so
far stays (and nothing in the rest is smaller), or the result is the first
position of the rest that holds its strict minimum below the best so far. -/
theorem min_element_from_spec (l : List Int) (best : Int) (best_idx idx : Nat) :
    (min_element_from best best_idx l idx = best_idx ∧ ∀ c ∈ l, best ≤ c) ∨
      ∃ k cm, min_element_from best best_idx l idx = idx + k ∧ l[k]? = some cm ∧ cm < best ∧
        (∀ c ∈ l, cm ≤ c) ∧ ∀ k' c', k' < k → l[k']? = some c' → cm < c' := by
  induction l generalizing best best_idx idx with
  | nil => exact Or.inl ⟨rfl, by simp⟩
  | cons c cs ih =>
    by_cases hc : c < best
    · simp only [min_element_from, hc, if_true]
      rcases ih c idx (idx + 1) with ⟨h1, h2⟩ | ⟨k, cm, h1, h2, h3, h4, h5⟩
      · refine Or.inr ⟨0, c, by simpa using h1, by simp, hc, ?_, ?_⟩
        · intro c' hc'
          rcases List.mem_cons.mp hc' with h | h
          · rw [h]
          · exact h2 c' h
        · intro k' c' hk'
          omega
      · refine Or.inr ⟨k + 1, cm, by rw [h1]; omega, by simpa using h2, by omega, ?_, ?_⟩
        · intro c' hc'
          rcases List.mem_cons.mp hc' with h | h
          · rw [h]; omega
          · exact h4 c' h
        · intro k' c' hk' hget
          cases k' with
          | zero =>
            simp at hget
            omega
          | succ j => exact h5 j c' (by omega) (by simpa using hget)
    · simp only [min_element_from, hc, if_false]
      rcases ih best best_idx (idx + 1) with ⟨h1, h2⟩ | ⟨k, cm, h1, h2, h3, h4, h5⟩
      · refine Or.inl ⟨h1, ?_⟩
        intro c' hc'
        rcases List.mem_cons.mp hc' with h | h
        · rw [h]; omega
        · exact h2 c' h
      · refine Or.inr ⟨k + 1, cm, by rw [h1]; omega, by simpa using h2, h3, ?_, ?_⟩
        · intro c' hc'
          rcases List.mem_cons.mp hc' with h | h
          · rw [h]; omega
          · exact h4 c' h
        · intro k' c' hk' hget
          cases k' with
          | zero =>
            simp at hget
            omega
          | succ j => exact h5 j c' (by omega) (by simpa using hget)

/-- The selected band: its count is the least of all counts and every band
with a lower index has a strictly larger count. -/
theorem min_element_index_spec (counts : List Int) (hne : counts ≠ []) :
    ∃ cm, counts[min_element_index counts]? = some cm ∧ (∀ c ∈ counts, cm ≤ c) ∧
      ∀ i c, i < min_element_index counts → counts[i]? = some c → cm < c := by
  match counts, hne with
  | c0 :: cs, _ =>
    simp only [min_element_index]
    rcases min_element_from_spec cs c0 0 1 with ⟨h1, h2⟩ | ⟨k, cm, h1, h2, h3, h4, h5⟩
    · rw [h1]
      refine ⟨c0, by simp, ?_, ?_⟩
      · intro c hc
        rcases List.mem_cons.mp hc with h | h
        · rw [h]
        · exact h2 c h
      · intro i c hi
        omega
    · rw [h1]
      refine ⟨cm, ?_, ?_, ?_⟩
      · rw [show 1 + k = k + 1 by omega]
        simpa using h2
      · intro c hc
        rcases List.mem_cons.mp hc with h | h
        · rw [h]; omega
        · exact h4 c h
      · intro i c hi hget
        cases i with
        | zero =>
          simp at hget
          omega
        | succ j => exact h5 j c (by omega) (by simpa using hget)

/-! ### Outcomes of the trajectory generation -/

theorem vec_back_ok {α : Type} (v : List α) (a : α) (h : vec_back v = .ok a) :
    v.getLast? = some a := by
  unfold vec_back at h
  cases hv : v.getLast? with
  | none => rw [hv] at h; cases h
  | some b => rw [hv] at h; cases h; rfl

/-- A call of `trajectory_generation` that returns has completed its set-up:
the grid was loaded, the four cell conversions succeeded and the drone limits
were read. -/
theorem trajectory_generation_setup (env : Env) (s : AlgState) (start end_ : Vec3)
    (drone : DroneStatus) (x : (List Segment × Int) × AlgState)
    (h : trajectory_generation env s start end_ drone = .ok x) :
    ∃ g sx sy ex ey dl,
      load_grid env
        ((90 + ((min_element_index s._altitude_drone_count : Int) - 2) * 10 : Int) : ℚ) = .ok g ∧
      to_cell start.x env._cell_size_x = .ok sx ∧
      to_cell start.y env._cell_size_y = .ok sy ∧
      to_cell end_.x env._cell_size_x = .ok ex ∧
      to_cell end_.y env._cell_size_y = .ok ey ∧
      vec_front env.drone_limits = .ok dl := by
  unfold trajectory_generation at h
  simp only [bind, Except.bind] at h
  cases hg : load_grid env
      ((90 + ((min_element_index s._altitude_drone_count : Int) - 2) * 10 : Int) : ℚ) with
  | error e => rw [hg] at h; cases h
  | ok g =>
    cases hsx : to_cell start.x env._cell_size_x with
    | error e => rw [hg, hsx] at h; cases h
    | ok sx =>
      cases hsy : to_cell start.y env._cell_size_y with
      | error e => rw [hg, hsx, hsy] at h; cases h
      | ok sy =>
        cases hex : to_cell end_.x env._cell_size_x with
        | error e => rw [hg, hsx, hsy, hex] at h; cases h
        | ok ex =>
          cases hey : to_cell end_.y env._cell_size_y with
          | error e => rw [hg, hsx, hsy, hex, hey] at h; cases h
          | ok ey =>
            cases hdl : vec_front env.drone_limits with
            | error e => rw [hg, hsx, hsy, hex, hey, hdl] at h; cases h
            | ok dl => exact ⟨g, sx, sy, ex, ey, dl, rfl, rfl, rfl, rfl, rfl, rfl⟩

/-- The two ways in which the assembly returns: a phase was not generated, and
then the result is the empty list with flight time `-1` and the state is
untouched; or all three phases were generated, and then the result is the
stitched list with the band counter incremented and the record `insert`. -/
theorem assemble_trajectory_cases (env : Env) (s s1 : AlgState) (start end_ : Vec3)
    (drone : DroneStatus) (min_index : Nat) (altitude : Int) (path : List Vec2i)
    (dl : DroneLimits) (r : List Segment × Int)
    (h : assemble_trajectory env s start end_ drone min_index altitude path dl = .ok (r, s1)) :
    (r = ([], -1) ∧ s1 = s ∧
      (env.generate_traj_from_waypoints [start, ⟨start.x, start.y, altitude⟩] dl 0 = none ∨
        (∃ points, flying_points env altitude start end_ path = .ok points ∧
          env.generate_traj_from_waypoints points dl 1 = none) ∨
        env.generate_traj_from_waypoints [⟨end_.x, end_.y, altitude⟩, end_] dl 2 = none)) ∨
    ∃ takeoff flying landing points counts tl fl ll fsl,
      env.generate_traj_from_waypoints [start, ⟨start.x, start.y, altitude⟩] dl 0
        = some takeoff ∧
      takeoff.getLast? = some tl ∧
      flying_points env altitude start end_ path = .ok points ∧
      env.generate_traj_from_waypoints points dl 1 = some flying ∧
      flying.getLast? = some fl ∧
      env.generate_traj_from_waypoints [⟨end_.x, end_.y, altitude⟩, end_] dl 2
        = some landing ∧
      landing.getLast? = some ll ∧
      vec_increment s._altitude_drone_count min_index = .ok counts ∧
      (shift_times (flying.drop 1) tl.time_ms).getLast? = some fsl ∧
      r = (takeoff ++ shift_times (flying.drop 1) tl.time_ms
              ++ shift_times (landing.drop 1) fsl.time_ms,
            tl.time_ms + fl.time_ms + ll.time_ms) ∧
      s1 = { s with
        _altitude_drone_count := counts
        _id2segs := map_insert s._id2segs drone.drone_id
          (takeoff ++ shift_times (flying.drop 1) tl.time_ms
            ++ shift_times (landing.drop 1) fsl.time_ms) } := by
  unfold assemble_trajectory at h
  simp only [bind, Except.bind, pure, Except.pure] at h
  cases ht : env.generate_traj_from_waypoints [start, ⟨start.x, start.y, altitude⟩] dl 0 with
  | none =>
    rw [ht] at h
    simp only [Except.ok.injEq, Prod.mk.injEq] at h
    exact Or.inl ⟨h.1.symm, h.2.symm, Or.inl rfl⟩
  | some takeoff =>
    rw [ht] at h
    simp only at h
    cases htb : vec_back takeoff with
    | error e => rw [htb] at h; cases h
    | ok tl =>
      rw [htb] at h
      simp only at h
      cases hp : flying_points env altitude start end_ path with
      | error e => rw [hp] at h; cases h
      | ok points =>
        rw [hp] at h
        simp only at h
        cases hf : env.generate_traj_from_waypoints points dl 1 with
        | none =>
          rw [hf] at h
          simp only [Except.ok.injEq, Prod.mk.injEq] at h
          exact Or.inl ⟨h.1.symm, h.2.symm, Or.inr (Or.inl ⟨points, rfl, hf⟩)⟩
        | some flying =>
          rw [hf] at h
          simp only at h
          cases hfb : vec_back flying with
          | error e => rw [hfb] at h; cases h
          | ok fl =>
            rw [hfb] at h
            simp only at h
            cases hl : env.generate_traj_from_waypoints [⟨end_.x, end_.y, altitude⟩, end_] dl 2 with
            | none =>
              rw [hl] at h
              simp only [Except.ok.injEq, Prod.mk.injEq] at h
              exact Or.inl ⟨h.1.symm, h.2.symm, Or.inr (Or.inr rfl)⟩
            | some landing =>
              rw [hl] at h
              simp only at h
              cases hlb : vec_back landing with
              | error e => rw [hlb] at h; cases h
              | ok ll =>
                rw [hlb] at h
                simp only at h
                cases hc : vec_increment s._altitude_drone_count min_index with
                | error e => rw [hc] at h; cases h
                | ok counts =>
                  rw [hc] at h
                  simp only at h
                  cases hs : vec_back (shift_times (flying.drop 1) tl.time_ms) with
                  | error e => rw [hs] at h; cases h
                  | ok fsl =>
                    rw [hs] at h
                    simp only [Except.ok.injEq, Prod.mk.injEq] at h
                    exact Or.inr ⟨takeoff, flying, landing, points, counts, tl, fl, ll, fsl, rfl,
                      vec_back_ok _ _ htb, rfl, hf, vec_back_ok _ _ hfb, rfl,
                      vec_back_ok _ _ hlb, rfl, vec_back_ok _ _ hs, h.1.symm, h.2.symm⟩

/-- A failed cruise generation makes the assembly return the infeasible result
and leave the state as it is. -/
theorem assemble_trajectory_cruise_none (env : Env) (s : AlgState) (start end_ : Vec3)
    (drone : DroneStatus) (min_index : Nat) (altitude : Int) (path : List Vec2i)
    (dl : DroneLimits) (takeoff : List Segment) (tl : Segment) (points : List Vec3)
    (ht : env.generate_traj_from_waypoints [start, ⟨start.x, start.y, altitude⟩] dl 0
      = some takeoff)
    (htl : takeoff.getLast? = some tl)
    (hp : flying_points env altitude start end_ path = .ok points)
    (hf : env.generate_traj_from_waypoints points dl 1 = none) :
    assemble_trajectory env s start end_ drone min_index altitude path dl
      = .ok (([], -1), s) := by
  simp [assemble_trajectory, ht, vec_back, htl, hp, hf, bind, Except.bind, pure, Except.pure]

/-- A failed landing generation makes the assembly return the infeasible
result and leave the state as it is. -/
theorem assemble_trajectory_landing_none (env : Env) (s : AlgState) (start end_ : Vec3)
    (drone : DroneStatus) (min_index : Nat) (altitude : Int) (path : List Vec2i)
    (dl : DroneLimits) (takeoff flying : List Segment) (tl fl : Segment) (points : List Vec3)
    (ht : env.generate_traj_from_waypoints [start, ⟨start.x, start.y, altitude⟩] dl 0
      = some takeoff)
    (htl : takeoff.getLast? = some tl)
    (hp : flying_points env altitude start end_ path = .ok points)
    (hf : env.generate_traj_from_waypoints points dl 1 = some flying)
    (hfl : flying.getLast? = some fl)
    (hl : env.generate_traj_from_waypoints [⟨end_.x, end_.y, altitude⟩, end_] dl 2 = none) :
    assemble_trajectory env s start end_ drone min_index altitude path dl
      = .ok (([], -1), s) := by
  simp [assemble_trajectory, ht, vec_back, htl, hp, hf, hfl, hl, bind, Except.bind, pure,
    Except.pure]

/-- C17: whenever the take-off, the cruise or the landing generation inside
`trajectory_generation` fails, the call returns the empty segment list with
flight time `-1` and the state it was given, so that neither the altitude-band
counters nor the segment record have changed. The set-up before the first
generation (grid, cell conversions, drone limits) is assumed to have succeeded. -/
theorem phase_failure_is_infeasible (env : Env) (s : AlgState) (start end_ : Vec3)
    (drone : DroneStatus) (g : Generator) (sx sy ex ey : Int) (dl : DroneLimits)
    (hg : load_grid env
      ((90 + ((min_element_index s._altitude_drone_count : Int) - 2) * 10 : Int) : ℚ) = .ok g)
    (hsx : to_cell start.x env._cell_size_x = .ok sx)
    (hsy : to_cell start.y env._cell_size_y = .ok sy)
    (hex : to_cell end_.x env._cell_size_x = .ok ex)
    (hey : to_cell end_.y env._cell_size_y = .ok ey)
    (hdl : vec_front env.drone_limits = .ok dl) :
    (env.generate_traj_from_waypoints
        [start, ⟨start.x, start.y,
          ((90 + ((min_element_index s._altitude_drone_count : Int) - 2) * 10 : Int) : ℚ)⟩]
        dl 0 = none →
      trajectory_generation env s start end_ drone = .ok (([], -1), s)) ∧
    (∀ takeoff tl points,
      env.generate_traj_from_waypoints
        [start, ⟨start.x, start.y,
          ((90 + ((min_element_index s._altitude_drone_count : Int) - 2) * 10 : Int) : ℚ)⟩]
        dl 0 = some takeoff →
      takeoff.getLast? = some tl →
      flying_points env
        ((90 + ((min_element_index s._altitude_drone_count : Int) - 2) * 10 : Int) : ℚ)
        start end_ (remove_middle_points (env.findPath g ⟨sx, sy⟩ ⟨ex, ey⟩).reverse)
        = .ok points →
      env.generate_traj_from_waypoints points dl 1 = none →
      trajectory_generation env s start end_ drone = .ok (([], -1), s)) ∧
    (∀ takeoff tl points flying fl,
      env.generate_traj_from_waypoints
        [start, ⟨start.x, start.y,
          ((90 + ((min_element_index s._altitude_drone_count : Int) - 2) * 10 : Int) : ℚ)⟩]
        dl 0 = some takeoff →
      takeoff.getLast? = some tl →
      flying_points env
        ((90 + ((min_element_index s._altitude_drone_count : Int) - 2) * 10 : Int) : ℚ)
        start end_ (remove_middle_points (env.findPath g ⟨sx, sy⟩ ⟨ex, ey⟩).reverse)
        = .ok points →
      env.generate_traj_from_waypoints points dl 1 = some flying →
      flying.getLast? = some fl →
      env.generate_traj_from_waypoints
        [⟨end_.x, end_.y,
          ((90 + ((min_element_index s._altitude_drone_count : Int) - 2) * 10 : Int) : ℚ)⟩, end_]
        dl 2 = none →
      trajectory_generation env s start end_ drone = .ok (([], -1), s)) := by
  rw [trajectory_generation_eq env s start end_ drone g sx sy ex ey dl hg hsx hsy hex hey hdl]
  refine ⟨?_, ?_, ?_⟩
  · intro ht
    exact assemble_trajectory_takeoff_none env s start end_ drone _ _ _ dl ht
  · intro takeoff tl points ht htl hp hf
    exact assemble_trajectory_cruise_none env s start end_ drone _ _ _ dl takeoff tl points
      ht htl hp hf
  · intro takeoff tl points flying fl ht htl hp hf hfl hl
    exact assemble_trajectory_landing_none env s start end_ drone _ _ _ dl takeoff flying tl fl
      points ht htl hp hf hfl hl

/-- The set-up of a call from (0,0,0) to (6,8,0) at session start succeeds in
every sample session on the one-cell map. -/
theorem sample_setup_one_cell (env : Env) (drones : List DroneStatus)
    (hgrid : env._map_grid = [[[0, 0, 0, 0, 0, 0, 0, 0, 0, 0, 0, 0]]])
    (hx : env._cell_size_x = 10) (hy : env._cell_size_y = 10) (hz : env._cell_size_z = 10) :
    load_grid env
        ((90 + ((min_element_index (sample_state drones [])._altitude_drone_count : Int) - 2)
          * 10 : Int) : ℚ) = .ok ⟨⟨1, 1⟩, []⟩ ∧
      to_cell (0 : ℚ) env._cell_size_x = .ok 0 ∧
      to_cell (0 : ℚ) env._cell_size_y = .ok 0 ∧
      to_cell (6 : ℚ) env._cell_size_x = .ok 0 ∧
      to_cell (8 : ℚ) env._cell_size_y = .ok 0 := by
  have hmin : min_element_index (sample_state drones [])._altitude_drone_count = 0 := rfl
  have halt : (90 + (((0 : Nat) : Int) - 2) * 10 : Int) = 70 := rfl
  rw [hmin, halt, hx, hy]
  refine ⟨?_, to_cell_eq 0 10 0 (by norm_num) (by norm_num) (by norm_num) (by norm_num),
    to_cell_eq 0 10 0 (by norm_num) (by norm_num) (by norm_num) (by norm_num),
    to_cell_eq 6 10 0 (by norm_num) (by norm_num) (by norm_num) (by norm_num),
    to_cell_eq 8 10 0 (by norm_num) (by norm_num) (by norm_num) (by norm_num)⟩
  exact load_grid_one_cell env _ 7 hgrid
    (by rw [hz]; exact to_cell_eq _ 10 7 (by norm_num) (by norm_num) (by norm_num) (by norm_num))
    (by norm_num)

theorem phase_failure_is_infeasible_witness :
    trajectory_generation (sample_env_failing 0) (sample_state [sample_idle_drone "d0" 0 0] [])
        ⟨0, 0, 0⟩ ⟨6, 8, 0⟩ (sample_idle_drone "d0" 0 0)
      = .ok (([], -1), sample_state [sample_idle_drone "d0" 0 0] []) ∧
    trajectory_generation (sample_env_failing 1) (sample_state [sample_idle_drone "d0" 0 0] [])
        ⟨0, 0, 0⟩ ⟨6, 8, 0⟩ (sample_idle_drone "d0" 0 0)
      = .ok (([], -1), sample_state [sample_idle_drone "d0" 0 0] []) ∧
    trajectory_generation (sample_env_failing 2) (sample_state [sample_idle_drone "d0" 0 0] [])
        ⟨0, 0, 0⟩ ⟨6, 8, 0⟩ (sample_idle_drone "d0" 0 0)
      = .ok (([], -1), sample_state [sample_idle_drone "d0" 0 0] []) := by
  obtain ⟨a0, b0, c0, d0, e0⟩ := sample_setup_one_cell (sample_env_failing 0)
    [sample_idle_drone "d0" 0 0] rfl rfl rfl rfl
  obtain ⟨a1, b1, c1, d1, e1⟩ := sample_setup_one_cell (sample_env_failing 1)
    [sample_idle_drone "d0" 0 0] rfl rfl rfl rfl
  obtain ⟨a2, b2, c2, d2, e2⟩ := sample_setup_one_cell (sample_env_failing 2)
    [sample_idle_drone "d0" 0 0] rfl rfl rfl rfl
  refine ⟨?_, ?_, ?_⟩
  · exact (phase_failure_is_infeasible (sample_env_failing 0)
      (sample_state [sample_idle_drone "d0" 0 0] []) ⟨0, 0, 0⟩ ⟨6, 8, 0⟩
      (sample_idle_drone "d0" 0 0) ⟨⟨1, 1⟩, []⟩ 0 0 0 0 ⟨10, 5, 2, 2⟩ a0 b0 c0 d0 e0 rfl).1 rfl
  · exact (phase_failure_is_infeasible (sample_env_failing 1)
      (sample_state [sample_idle_drone "d0" 0 0] []) ⟨0, 0, 0⟩ ⟨6, 8, 0⟩
      (sample_idle_drone "d0" 0 0) ⟨⟨1, 1⟩, []⟩ 0 0 0 0 ⟨10, 5, 2, 2⟩ a1 b1 c1 d1 e1 rfl).2.1
      _ _ _ rfl rfl rfl rfl
  · exact (phase_failure_is_infeasible (sample_env_failing 2)
      (sample_state [sample_idle_drone "d0" 0 0] []) ⟨0, 0, 0⟩ ⟨6, 8, 0⟩
      (sample_idle_drone "d0" 0 0) ⟨⟨1, 1⟩, []⟩ 0 0 0 0 ⟨10, 5, 2, 2⟩ a2 b2 c2 d2 e2 rfl).2.2
      _ _ _ _ _ rfl rfl rfl rfl rfl rfl

/-- C20: with at least one altitude band, a call of `trajectory_generation`
that returns has selected the band `m` of least count, the lowest index among
the bands of least count, and has run the assembly at cruise altitude
`90 + (m - 2) * 10`. When a phase was not generated the state is unchanged;
when all three phases were generated (success) the returned list starts with
the take-off phase climbing to that altitude, the count of band `m` has grown
by exactly 1 and every other count is as before. -/
theorem altitude_band_selection (env : Env) (s s1 : AlgState) (start end_ : Vec3)
    (drone : DroneStatus) (r : List Segment × Int)
    (hne : s._altitude_drone_count ≠ [])
    (h : trajectory_generation env s start end_ drone = .ok (r, s1)) :
    ∃ cm path dl,
      s._altitude_drone_count[min_element_index s._altitude_drone_count]? = some cm ∧
      (∀ c ∈ s._altitude_drone_count, cm ≤ c) ∧
      (∀ i c, i < min_element_index s._altitude_drone_count →
        s._altitude_drone_count[i]? = some c → cm < c) ∧
      trajectory_generation env s start end_ drone =
        assemble_trajectory env s start end_ drone (min_element_index s._altitude_drone_count)
          (90 + ((min_element_index s._altitude_drone_count : Int) - 2) * 10) path dl ∧
      ((r = ([], -1) ∧ s1 = s ∧
          (env.generate_traj_from_waypoints
              [start, ⟨start.x, start.y,
                ((90 + ((min_element_index s._altitude_drone_count : Int) - 2) * 10 : Int) : ℚ)⟩]
              dl 0 = none ∨
            (∃ points,
              flying_points env
                ((90 + ((min_element_index s._altitude_drone_count : Int) - 2) * 10 : Int) : ℚ)
                start end_ path = .ok points ∧
              env.generate_traj_from_waypoints points dl 1 = none) ∨
            env.generate_traj_from_waypoints
              [⟨end_.x, end_.y,
                ((90 + ((min_element_index s._altitude_drone_count : Int) - 2) * 10 : Int) : ℚ)⟩,
                end_] dl 2 = none)) ∨
        (∃ takeoff flying landing points rest,
          env.generate_traj_from_waypoints
            [start, ⟨start.x, start.y,
              ((90 + ((min_element_index s._altitude_drone_count : Int) - 2) * 10 : Int) : ℚ)⟩]
            dl 0 = some takeoff ∧
          flying_points env
            ((90 + ((min_element_index s._altitude_drone_count : Int) - 2) * 10 : Int) : ℚ)
            start end_ path = .ok points ∧
          env.generate_traj_from_waypoints points dl 1 = some flying ∧
          env.generate_traj_from_waypoints
            [⟨end_.x, end_.y,
              ((90 + ((min_element_index s._altitude_drone_count : Int) - 2) * 10 : Int) : ℚ)⟩,
              end_] dl 2 = some landing ∧
          r.1 = takeoff ++ rest ∧
          s1._altitude_drone_count[min_element_index s._altitude_drone_count]? = some (cm + 1) ∧
          s1._altitude_drone_count.length = s._altitude_drone_count.length ∧
          ∀ i, i ≠ min_element_index s._altitude_drone_count →
            s1._altitude_drone_count[i]? = s._altitude_drone_count[i]?)) := by
  obtain ⟨cm, hcm, hmin, hfirst⟩ := min_element_index_spec s._altitude_drone_count hne
  obtain ⟨g, sx, sy, ex, ey, dl, hg, hsx, hsy, hex, hey, hdl⟩ :=
    trajectory_generation_setup env s start end_ drone _ h
  have heq := trajectory_generation_eq env s start end_ drone g sx sy ex ey dl hg hsx hsy hex
    hey hdl
  refine ⟨cm, remove_middle_points (env.findPath g ⟨sx, sy⟩ ⟨ex, ey⟩).reverse, dl, hcm, hmin,
    hfirst, heq, ?_⟩
  rw [heq] at h
  rcases assemble_trajectory_cases env s s1 start end_ drone _ _ _ dl r h with
    ⟨h1, h2, h3⟩ | ⟨takeoff, flying, landing, points, counts, tl, fl, ll, fsl, ht, _, hp, hf, _,
      hl, _, hc, _, hr, hs⟩
  · exact Or.inl ⟨h1, h2, h3⟩
  · refine Or.inr ⟨takeoff, flying, landing, points,
      shift_times (flying.drop 1) tl.time_ms ++ shift_times (landing.drop 1) fsl.time_ms,
      ht, hp, hf, hl, by rw [hr, List.append_assoc], ?_⟩
    have hcounts : counts = s._altitude_drone_count.set
        (min_element_index s._altitude_drone_count) (cm + 1) := by
      unfold vec_increment at hc
      rw [hcm] at hc
      cases hc
      rfl
    have hlt : min_element_index s._altitude_drone_count < s._altitude_drone_count.length := by
      by_contra hge
      rw [List.getElem?_eq_none (by omega)] at hcm
      cases hcm
    rw [hs]
    simp only [hcounts]
    refine ⟨by simp [hlt], by simp, ?_⟩
    intro i hi
    exact List.getElem?_set_ne (Ne.symm hi)

theorem altitude_band_selection_witness :
    trajectory_generation sample_env_open
        ⟨[sample_idle_drone "d0" 0 0], [], [], [], [2, 1, 3, 1, 4], 0⟩
        ⟨0, 0, 0⟩ ⟨6, 8, 0⟩ (sample_idle_drone "d0" 0 0)
      = .ok (([⟨⟨0, 0, 0⟩, 0, 0⟩, ⟨⟨0, 0, 80⟩, 1000, 0⟩, ⟨⟨6, 8, 80⟩, 2000, 1⟩,
              ⟨⟨6, 8, 0⟩, 3000, 2⟩], 3000),
          ⟨[sample_idle_drone "d0" 0 0], [], [],
            [("d0", [⟨⟨0, 0, 0⟩, 0, 0⟩, ⟨⟨0, 0, 80⟩, 1000, 0⟩, ⟨⟨6, 8, 80⟩, 2000, 1⟩,
              ⟨⟨6, 8, 0⟩, 3000, 2⟩])],
            [2, 2, 3, 1, 4], 0⟩) ∧
    min_element_index [2, 1, 3, 1, 4] = 1 ∧
    ∃ cm path dl,
      ([2, 1, 3, 1, 4] : List Int)[min_element_index [2, 1, 3, 1, 4]]? = some cm ∧
      (∀ c ∈ ([2, 1, 3, 1, 4] : List Int), cm ≤ c) ∧
      (∀ i c, i < min_element_index [2, 1, 3, 1, 4] →
        ([2, 1, 3, 1, 4] : List Int)[i]? = some c → cm < c) ∧
      trajectory_generation sample_env_open
          ⟨[sample_idle_drone "d0" 0 0], [], [], [], [2, 1, 3, 1, 4], 0⟩
          ⟨0, 0, 0⟩ ⟨6, 8, 0⟩ (sample_idle_drone "d0" 0 0) =
        assemble_trajectory sample_env_open
          ⟨[sample_idle_drone "d0" 0 0], [], [], [], [2, 1, 3, 1, 4], 0⟩
          ⟨0, 0, 0⟩ ⟨6, 8, 0⟩ (sample_idle_drone "d0" 0 0) (min_element_index [2, 1, 3, 1, 4])
          (90 + ((min_element_index [2, 1, 3, 1, 4] : Int) - 2) * 10) path dl := by
  have c0 : to_cell 0 10 = .ok 0 := to_cell_eq 0 10 0 (by norm_num) (by norm_num) (by norm_num) (by norm_num)
  have c6 : to_cell 6 10 = .ok 0 := to_cell_eq 6 10 0 (by norm_num) (by norm_num) (by norm_num) (by norm_num)
  have c8 : to_cell 8 10 = .ok 0 := to_cell_eq 8 10 0 (by norm_num) (by norm_num) (by norm_num) (by norm_num)
  have e80 : ((90 + (((1 : Nat) : Int) - 2) * 10 : Int) : ℚ) = 80 := by norm_num
  have hrun := sample_open_call [sample_idle_drone "d0" 0 0] [] [] [] [2, 1, 3, 1, 4]
    [2, 2, 3, 1, 4] 0 1 0 0 6 8 (sample_idle_drone "d0" 0 0) rfl (by norm_num) rfl c0 c0 c6 c8
  rw [e80] at hrun
  obtain ⟨cm, path, dl, h1, h2, h3, h4, _⟩ := altitude_band_selection sample_env_open
    ⟨[sample_idle_drone "d0" 0 0], [], [], [], [2, 1, 3, 1, 4], 0⟩ _ ⟨0, 0, 0⟩ ⟨6, 8, 0⟩
    (sample_idle_drone "d0" 0 0) _ (by simp) hrun
  exact ⟨hrun, rfl, cm, path, dl, h1, h2, h3, h4⟩

/-! ### The plan list of one cycle -/

/-- A sequenced computation that returns has had its first step return. -/
theorem bind_ok_elim {ε α β : Type} (x : Except ε α) (f : α → Except ε β) (b : β)
    (h : (x >>= f) = .ok b) : ∃ a, x = .ok a ∧ f a = .ok b := by
  cases x with
  | error e => cases h
  | ok a => exact ⟨a, rfl, h⟩

/-- The two ways in which the pickup branch returns: the sub-problem is empty
and nothing happens, or the first idle drone is paired with the order chosen
by `assignment[0]` and one plan is appended. -/
theorem pickup_phase_cases (env : Env) (s s1 : AlgState) (drones : List DroneStatus)
    (cargoes : List CargoInfo) (plans p : PlanList)
    (h : pickup_phase env s drones cargoes plans = .ok (s1, p)) :
    (pickup_plan_num cargoes drones = 0 ∧ s1 = s ∧ p = plans) ∨
    (0 < pickup_plan_num cargoes drones ∧
      ∃ the_drone chosen the_cargo r,
        vec_at drones 0 = .ok the_drone ∧
        vec_index (pickup_assignment env drones cargoes) 0 = .ok chosen ∧
        vec_at cargoes chosen = .ok the_cargo ∧
        trajectory_generation env s the_drone.position the_cargo.position the_drone = .ok r ∧
        s1 = { r.2 with flightplan_num := r.2.flightplan_num + 1 } ∧
        p = plans ++ [(the_drone.drone_id,
          { env.default_plan with
            target_cargo_ids := env.default_plan.target_cargo_ids ++ [the_cargo.id]
            flight_purpose := FlightPurpose.FLIGHT_TAKE_CARGOS
            flight_plan_type := FlightPlanType.PLAN_TRAJECTORIES
            flight_id := r.2.flightplan_num + 1
            takeoff_timestamp := env.current_time
            segments := r.1.1 })]) := by
  unfold pickup_phase at h
  by_cases hk : 0 < pickup_plan_num cargoes drones
  · rw [if_pos hk] at h
    obtain ⟨_, _, h⟩ := bind_ok_elim _ _ _ h
    obtain ⟨the_drone, hd, h⟩ := bind_ok_elim _ _ _ h
    obtain ⟨chosen, ha, h⟩ := bind_ok_elim _ _ _ h
    obtain ⟨the_cargo, hc, h⟩ := bind_ok_elim _ _ _ h
    obtain ⟨r, ht, h⟩ := bind_ok_elim _ _ _ h
    simp only [pure, Except.pure, Except.ok.injEq, Prod.mk.injEq] at h
    exact Or.inr ⟨hk, the_drone, chosen, the_cargo, r, hd, ha, hc, ht, h.1.symm, h.2.symm⟩
  · rw [if_neg hk] at h
    simp only [pure, Except.pure, Except.ok.injEq, Prod.mk.injEq] at h
    exact Or.inl ⟨by omega, h.1.symm, h.2.symm⟩

/-- The two ways in which the recharge branch returns: there is no drone to
recharge or no station, and nothing happens; or the first drone of the bucket
is routed to the first station of the sorted list and one plan is appended. -/
theorem recharge_phase_cases (env : Env) (s s1 : AlgState) (need : List DroneStatus)
    (plans p : PlanList)
    (h : recharge_phase env s need plans = .ok (s1, p)) :
    ((need = [] ∨ env.battery_stations = []) ∧ s1 = s ∧ p = plans) ∨
    (env.battery_stations ≠ [] ∧
      ∃ the_drone rest station r,
        need = the_drone :: rest ∧
        vec_at (sort_stations env.sqrt the_drone env.battery_stations) 0 = .ok station ∧
        trajectory_generation env s the_drone.position station the_drone = .ok r ∧
        s1 = { r.2 with flightplan_num := r.2.flightplan_num + 1 } ∧
        p = plans ++ [(the_drone.drone_id,
          { env.default_plan with
            flight_purpose := FlightPurpose.FLIGHT_EXCHANGE_BATTERY
            flight_plan_type := FlightPlanType.PLAN_TRAJECTORIES
            flight_id := r.2.flightplan_num + 1
            takeoff_timestamp := env.current_time
            segments := r.1.1 })]) := by
  unfold recharge_phase at h
  cases need with
  | nil =>
    simp only [pure, Except.pure, Except.ok.injEq, Prod.mk.injEq] at h
    exact Or.inl ⟨Or.inl rfl, h.1.symm, h.2.symm⟩
  | cons the_drone rest =>
    simp only at h
    by_cases hb : env.battery_stations.length = 0
    · rw [if_pos hb] at h
      simp only [pure, Except.pure, Except.ok.injEq, Prod.mk.injEq] at h
      exact Or.inl ⟨Or.inr (List.length_eq_zero.mp hb), h.1.symm, h.2.symm⟩
    · rw [if_neg hb] at h
      obtain ⟨station, hs, h⟩ := bind_ok_elim _ _ _ h
      obtain ⟨r, ht, h⟩ := bind_ok_elim _ _ _ h
      obtain ⟨_, _, h⟩ := bind_ok_elim _ _ _ h
      simp only [pure, Except.pure, Except.ok.injEq, Prod.mk.injEq] at h
      exact Or.inr ⟨fun hnil => hb (by rw [hnil]; rfl), the_drone, rest, station, r, rfl, hs, ht,
        h.1.symm, h.2.symm⟩

/-- The delivery branch appends at most one plan, a delivery plan for a drone
of the bucket it was given. -/
theorem delivery_phase_appends (env : Env) (s s1 : AlgState) (l : List DroneStatus)
    (plans p : PlanList)
    (h : delivery_phase env s l plans = .ok (s1, p)) :
    ∃ q : PlanList, p = plans ++ q ∧ q.length ≤ 1 ∧
      ∀ e ∈ q, e.2.flight_purpose = FlightPurpose.FLIGHT_DELIVER_CARGOS ∧
        ∃ d ∈ l, e.1 = d.drone_id := by
  induction l with
  | nil =>
    simp only [delivery_phase, pure, Except.pure, Except.ok.injEq, Prod.mk.injEq] at h
    exact ⟨[], by simp [h.2], by simp, by simp⟩
  | cons the_drone rest ih =>
    unfold delivery_phase at h
    cases hc : map_find s._cargo_info (first_cargo_id the_drone) with
    | none =>
      rw [hc] at h
      obtain ⟨q, hq, hlen, hall⟩ := ih h
      refine ⟨q, hq, hlen, fun e he => ?_⟩
      obtain ⟨h1, d, hd, h2⟩ := hall e he
      exact ⟨h1, d, List.mem_cons_of_mem _ hd, h2⟩
    | some the_cargo =>
      rw [hc] at h
      simp only at h
      obtain ⟨r, _, h⟩ := bind_ok_elim _ _ _ h
      by_cases hr : r.1.2 = -1
      · rw [if_pos hr] at h
        simp only [pure, Except.pure, Except.ok.injEq, Prod.mk.injEq] at h
        exact ⟨[], by simp [h.2], by simp, by simp⟩
      · rw [if_neg hr] at h
        simp only [pure, Except.pure, Except.ok.injEq, Prod.mk.injEq] at h
        refine ⟨_, h.2.symm, by simp, fun e he => ?_⟩
        rw [List.mem_singleton] at he
        subst he
        exact ⟨rfl, the_drone, List.mem_cons_self _ _, rfl⟩

/-- The replan loop appends exactly one plan per drone of the bucket it was
given, in the order of the bucket. -/
theorem replan_phase_appends (env : Env) (l : List DroneStatus) :
    ∀ (s s1 : AlgState) (plans p : PlanList),
      replan_phase env s l plans = .ok (s1, p) →
      ∃ q : PlanList, p = plans ++ q ∧
        q.map Prod.fst = l.map (fun drone => drone.drone_id) := by
  induction l with
  | nil =>
    intro s s1 plans p h
    simp only [replan_phase, pure, Except.pure, Except.ok.injEq, Prod.mk.injEq] at h
    exact ⟨[], by simp [h.2], rfl⟩
  | cons this_drone rest ih =>
    intro s s1 plans p h
    unfold replan_phase at h
    obtain ⟨last_segment, _, h⟩ := bind_ok_elim _ _ _ h
    obtain ⟨r, _, h⟩ := bind_ok_elim _ _ _ h
    obtain ⟨q, hq, hmap⟩ := ih _ _ _ _ h
    refine ⟨_ :: q, by rw [hq, List.append_assoc]; rfl, ?_⟩
    simp only [List.map_cons, hmap]

/-- A cycle that returns has run its four branches in turn, each starting from
the state and the plan list the previous one left, and publishes the list left
by the last. -/
theorem solve_phases (env : Env) (s : AlgState) (r : CycleResult) (h : solve env s = .ok r) :
    ∃ s1 p1 s2 p2 s3 p3 s4,
      pickup_phase env s (bucketing s._drone_info).drones_without_cargo
        (cargoes_to_delivery s._cargo_info) [] = .ok (s1, p1) ∧
      recharge_phase env s1 (bucketing s._drone_info).drones_need_recharge p1 = .ok (s2, p2) ∧
      delivery_phase env s2 (bucketing s._drone_info).drones_to_delivery p2 = .ok (s3, p3) ∧
      replan_phase env s3 (bucketing s._drone_info).drones_hovering p3 = .ok (s4, r.published) := by
  unfold solve at h
  obtain ⟨⟨s1, p1⟩, h1, h⟩ := bind_ok_elim _ _ _ h
  obtain ⟨⟨s2, p2⟩, h2, h⟩ := bind_ok_elim _ _ _ h
  obtain ⟨⟨s3, p3⟩, h3, h⟩ := bind_ok_elim _ _ _ h
  obtain ⟨⟨s4, p4⟩, h4, h⟩ := bind_ok_elim _ _ _ h
  simp only [pure, Except.pure, Except.ok.injEq] at h
  subst h
  exact ⟨s1, p1, s2, p2, s3, p3, s4, h1, h2, h3, h4⟩

/-- C15: the list of plans published by a cycle that returns is made of four
consecutive parts: at most one pickup plan (purpose take-cargo, issued to a
drone of the idle-without-cargo bucket), at most one recharge plan (purpose
exchange-battery, issued to a drone of the recharge bucket), at most one
delivery plan (purpose deliver-cargo, issued to a drone of the delivery
bucket), and then one replan plan per drone of the hovering bucket, in the
order of the bucket. When the idle-without-cargo bucket or the list of waiting
orders is empty, the pickup part is empty. -/
theorem solve_plan_list_shape (env : Env) (s : AlgState) (r : CycleResult)
    (h : solve env s = .ok r) :
    ∃ pickup recharge delivery replans : PlanList,
      r.published = pickup ++ recharge ++ delivery ++ replans ∧
      pickup.length ≤ 1 ∧
      (∀ e ∈ pickup, e.2.flight_purpose = FlightPurpose.FLIGHT_TAKE_CARGOS ∧
        ∃ d ∈ (bucketing s._drone_info).drones_without_cargo, e.1 = d.drone_id) ∧
      recharge.length ≤ 1 ∧
      (∀ e ∈ recharge, e.2.flight_purpose = FlightPurpose.FLIGHT_EXCHANGE_BATTERY ∧
        ∃ d ∈ (bucketing s._drone_info).drones_need_recharge, e.1 = d.drone_id) ∧
      delivery.length ≤ 1 ∧
      (∀ e ∈ delivery, e.2.flight_purpose = FlightPurpose.FLIGHT_DELIVER_CARGOS ∧
        ∃ d ∈ (bucketing s._drone_info).drones_to_delivery, e.1 = d.drone_id) ∧
      replans.map Prod.fst
        = (bucketing s._drone_info).drones_hovering.map (fun drone => drone.drone_id) ∧
      (((bucketing s._drone_info).drones_without_cargo = [] ∨
          cargoes_to_delivery s._cargo_info = []) → pickup = []) := by
  obtain ⟨s1, p1, s2, p2, s3, p3, s4, h1, h2, h3, h4⟩ := solve_phases env s r h
  obtain ⟨q3, hq3, hlen3, hall3⟩ := delivery_phase_appends env s2 s3 _ p2 p3 h3
  obtain ⟨q4, hq4, hmap4⟩ := replan_phase_appends env _ s3 s4 p3 r.published h4
  have hp1 : p1.length ≤ 1 ∧
      (∀ e ∈ p1, e.2.flight_purpose = FlightPurpose.FLIGHT_TAKE_CARGOS ∧
        ∃ d ∈ (bucketing s._drone_info).drones_without_cargo, e.1 = d.drone_id) ∧
      (pickup_plan_num (cargoes_to_delivery s._cargo_info)
        (bucketing s._drone_info).drones_without_cargo = 0 → p1 = []) := by
    rcases pickup_phase_cases env s s1 _ _ [] p1 h1 with
      ⟨_, _, hp⟩ | ⟨hk, the_drone, chosen, the_cargo, r0, hd, _, _, _, _, hp⟩
    · subst hp
      exact ⟨by simp, by simp, fun _ => rfl⟩
    · subst hp
      refine ⟨by simp, fun e he => ?_, fun h0 => by omega⟩
      simp only [List.nil_append, List.mem_singleton] at he
      subst he
      refine ⟨rfl, the_drone, ?_, rfl⟩
      unfold vec_at at hd
      cases hb : (bucketing s._drone_info).drones_without_cargo with
      | nil => rw [hb] at hd; simp at hd
      | cons d0 rest =>
        rw [hb] at hd
        simp at hd
        rw [hd]
        exact List.mem_cons_self _ _
  have hp2 : ∃ q2 : PlanList, p2 = p1 ++ q2 ∧ q2.length ≤ 1 ∧
      ∀ e ∈ q2, e.2.flight_purpose = FlightPurpose.FLIGHT_EXCHANGE_BATTERY ∧
        ∃ d ∈ (bucketing s._drone_info).drones_need_recharge, e.1 = d.drone_id := by
    rcases recharge_phase_cases env s1 s2 _ p1 p2 h2 with
      ⟨_, _, hp⟩ | ⟨_, the_drone, rest, station, r0, hneed, _, _, _, hp⟩
    · exact ⟨[], by simp [hp], by simp, by simp⟩
    · refine ⟨_, hp, by simp, fun e he => ?_⟩
      rw [List.mem_singleton] at he
      subst he
      exact ⟨rfl, the_drone, by rw [hneed]; exact List.mem_cons_self _ _, rfl⟩
  obtain ⟨q2, hq2, hlen2, hall2⟩ := hp2
  refine ⟨p1, q2, q3, q4, by rw [hq4, hq3, hq2], hp1.1, hp1.2.1, hlen2, hall2, hlen3, hall3,
    hmap4, fun hempty => hp1.2.2 ?_⟩
  unfold pickup_plan_num
  rcases hempty with hd | hc
  · rw [hd]; split <;> simp_all
  · rw [hc]; split <;> simp_all

/-! ### Eligibility for pickup -/

/-- An element read with `at` is an element of the vector. -/
theorem vec_at_mem {α : Type} (v : List α) (i : Int) (a : α) (h : vec_at v i = .ok a) :
    a ∈ v := by
  unfold vec_at at h
  split at h
  · cases h
  · split at h
    · rename_i b hb
      cases h
      exact (List.getElem?_eq_some.mp hb).2 ▸ List.getElem_mem _
    · cases h

/-- C13 (amended): in a cycle that returns, the published list starts with the
plans queued by the pickup branch, and every such plan is issued to a drone of
the snapshot that is idle (`READY`), has every cargo slot at `-1` and has a
battery of at least 50 (not below the recharge threshold), and has as its
single target cargo id the id of an order of the snapshot whose status is
`CARGO_WAITING`. The default-constructed plan has no target cargo ids. -/
theorem pickup_plan_eligibility (env : Env) (s : AlgState) (r : CycleResult)
    (hdef : env.default_plan.target_cargo_ids = [])
    (h : solve env s = .ok r) :
    ∃ s1 pickup rest,
      pickup_phase env s (bucketing s._drone_info).drones_without_cargo
        (cargoes_to_delivery s._cargo_info) [] = .ok (s1, pickup) ∧
      r.published = pickup ++ rest ∧
      ∀ e ∈ pickup, ∃ d ∈ s._drone_info, ∃ c ∈ s._cargo_info.map Prod.snd,
        e.1 = d.drone_id ∧ d.status = Status.READY ∧
        (∀ cid ∈ d.delivering_cargo_ids, cid = -1) ∧ 50 ≤ d.battery ∧
        e.2.flight_purpose = FlightPurpose.FLIGHT_TAKE_CARGOS ∧
        e.2.target_cargo_ids = [c.id] ∧ c.status = CargoStatus.CARGO_WAITING := by
  obtain ⟨s1, p1, s2, p2, s3, p3, s4, h1, h2, h3, h4⟩ := solve_phases env s r h
  obtain ⟨q3, hq3, _, _⟩ := delivery_phase_appends env s2 s3 _ p2 p3 h3
  obtain ⟨q4, hq4, _⟩ := replan_phase_appends env _ s3 s4 p3 r.published h4
  have hp2 : ∃ q2 : PlanList, p2 = p1 ++ q2 := by
    rcases recharge_phase_cases env s1 s2 _ p1 p2 h2 with
      ⟨_, _, hp⟩ | ⟨_, _, _, _, _, _, _, _, _, hp⟩
    · exact ⟨[], by simp [hp]⟩
    · exact ⟨_, hp⟩
  obtain ⟨q2, hq2⟩ := hp2
  refine ⟨s1, p1, q2 ++ q3 ++ q4, h1, by rw [hq4, hq3, hq2]; simp, ?_⟩
  rcases pickup_phase_cases env s s1 _ _ [] p1 h1 with
    ⟨_, _, hp⟩ | ⟨_, the_drone, chosen, the_cargo, r0, hd, _, hc, _, _, hp⟩
  · subst hp
    simp
  · subst hp
    intro e he
    simp only [List.nil_append, List.mem_singleton] at he
    subst he
    have hdm := vec_at_mem _ _ _ hd
    have hcm := vec_at_mem _ _ _ hc
    rw [bucketing_eq] at hdm
    simp only [List.mem_filter, Bool.and_eq_true, decide_eq_true_eq, Bool.not_eq_true'] at hdm
    unfold cargoes_to_delivery at hcm
    simp only [List.mem_filter, decide_eq_true_eq] at hcm
    refine ⟨the_drone, hdm.1, the_cargo, hcm.1, rfl, hdm.2.1.2, ?_, not_lt.mp hdm.2.1.1, rfl,
      by simp [hdef], hcm.2⟩
    intro cid hcid
    have hno := hdm.2.2
    unfold has_cargo at hno
    by_contra hne
    have : (the_drone.delivering_cargo_ids.any (fun cid => decide (cid ≠ -1))) = true :=
      List.any_eq_true.mpr ⟨cid, hcid, by simpa using hne⟩
    rw [hno] at this
    cases this

/-! ### Worked cycles -/

/-- A successful call on the one-cell map of the open sample session with
stations registered; see `sample_open_call`. -/
theorem sample_stations_call (stations : List Vec3) (drones : List DroneStatus)
    (cargo : List (Int × CargoInfo))
    (id2plan : List (String × FlightPlan)) (id2segs : List (String × List Segment))
    (counts counts1 : List Int) (num : Int) (m : Nat) (sx sy ex ey : ℚ) (drone : DroneStatus)
    (hm : min_element_index counts = m) (hm2 : m < 5)
    (hc : vec_increment counts m = .ok counts1)
    (hsx : to_cell sx 10 = .ok 0) (hsy : to_cell sy 10 = .ok 0)
    (hex : to_cell ex 10 = .ok 0) (hey : to_cell ey 10 = .ok 0) :
    trajectory_generation (sample_env_stations stations)
        ⟨drones, cargo, id2plan, id2segs, counts, num⟩ ⟨sx, sy, 0⟩ ⟨ex, ey, 0⟩ drone
      = .ok (([⟨⟨sx, sy, 0⟩, 0, 0⟩, ⟨⟨sx, sy, ((90 + ((m : Int) - 2) * 10 : Int) : ℚ)⟩, 1000, 0⟩,
              ⟨⟨ex, ey, ((90 + ((m : Int) - 2) * 10 : Int) : ℚ)⟩, 2000, 1⟩,
              ⟨⟨ex, ey, 0⟩, 3000, 2⟩], 3000),
          ⟨drones, cargo, id2plan,
            map_insert id2segs drone.drone_id
              [⟨⟨sx, sy, 0⟩, 0, 0⟩, ⟨⟨sx, sy, ((90 + ((m : Int) - 2) * 10 : Int) : ℚ)⟩, 1000, 0⟩,
                ⟨⟨ex, ey, ((90 + ((m : Int) - 2) * 10 : Int) : ℚ)⟩, 2000, 1⟩,
                ⟨⟨ex, ey, 0⟩, 3000, 2⟩],
            counts1, num⟩) := by
  have hz : (sample_env_stations stations)._cell_size_z = 10 := rfl
  have hgrid : load_grid (sample_env_stations stations) ((90 + ((m : Int) - 2) * 10 : Int) : ℚ)
      = .ok ⟨⟨1, 1⟩, []⟩ := by
    refine load_grid_one_cell (sample_env_stations stations) _ (m + 7) rfl ?_ (by omega)
    rw [hz]
    refine to_cell_eq _ 10 (m + 7) (by norm_num) ?_ ?_ (by omega) <;> push_cast <;> linarith
  rw [trajectory_generation_eq (sample_env_stations stations)
    ⟨drones, cargo, id2plan, id2segs, counts, num⟩
    ⟨sx, sy, 0⟩ ⟨ex, ey, 0⟩ drone ⟨⟨1, 1⟩, []⟩ 0 0 0 0 ⟨10, 5, 2, 2⟩
    (by simp only [hm]; exact hgrid) hsx hsy hex hey rfl]
  simp only [hm]
  exact assemble_trajectory_ok (sample_env_stations stations)
    ⟨drones, cargo, id2plan, id2segs, counts, num⟩
    ⟨sx, sy, 0⟩ ⟨ex, ey, 0⟩ drone m (90 + ((m : Int) - 2) * 10) [⟨0, 0⟩] ⟨10, 5, 2, 2⟩
    [⟨⟨sx, sy, 0⟩, 0, 0⟩, ⟨⟨sx, sy, ((90 + ((m : Int) - 2) * 10 : Int) : ℚ)⟩, 1000, 0⟩]
    [⟨⟨sx, sy, ((90 + ((m : Int) - 2) * 10 : Int) : ℚ)⟩, 0, 1⟩,
      ⟨⟨ex, ey, ((90 + ((m : Int) - 2) * 10 : Int) : ℚ)⟩, 1000, 1⟩]
    [⟨⟨ex, ey, ((90 + ((m : Int) - 2) * 10 : Int) : ℚ)⟩, 0, 2⟩, ⟨⟨ex, ey, 0⟩, 1000, 2⟩]
    [⟨sx, sy, ((90 + ((m : Int) - 2) * 10 : Int) : ℚ)⟩,
      ⟨ex, ey, ((90 + ((m : Int) - 2) * 10 : Int) : ℚ)⟩]
    counts1
    ⟨⟨sx, sy, ((90 + ((m : Int) - 2) * 10 : Int) : ℚ)⟩, 1000, 0⟩
    ⟨⟨ex, ey, ((90 + ((m : Int) - 2) * 10 : Int) : ℚ)⟩, 1000, 1⟩
    ⟨⟨ex, ey, 0⟩, 1000, 2⟩
    ⟨⟨ex, ey, ((90 + ((m : Int) - 2) * 10 : Int) : ℚ)⟩, 2000, 1⟩
    rfl rfl rfl rfl rfl rfl rfl hc rfl

/-- A cycle whose four branches return publishes the list left by the last
branch and records it with `insert`. -/
theorem solve_eq (env : Env) (s s1 s2 s3 s4 : AlgState) (p1 p2 p3 p4 : PlanList)
    (h1 : pickup_phase env s (bucketing s._drone_info).drones_without_cargo
      (cargoes_to_delivery s._cargo_info) [] = .ok (s1, p1))
    (h2 : recharge_phase env s1 (bucketing s._drone_info).drones_need_recharge p1 = .ok (s2, p2))
    (h3 : delivery_phase env s2 (bucketing s._drone_info).drones_to_delivery p2 = .ok (s3, p3))
    (h4 : replan_phase env s3 (bucketing s._drone_info).drones_hovering p3 = .ok (s4, p4)) :
    solve env s = .ok
      { published := p4
        hover_commands :=
          (drones_to_hover env.sqrt env.to_float s._drone_info (bucketing s._drone_info).drones_flying).map
            (fun drone => drone.drone_id)
        state := { s4 with _id2plan := record_plans s4._id2plan p4 }
        sleep_time_ms := 20000 } := by
  unfold solve
  simp only [h1, h2, h3, h4, bind, Except.bind, pure, Except.pure]

/-- The recharge branch for a non-empty bucket and a non-empty station list,
when the returned segment list is not empty. -/
theorem recharge_phase_eq (env : Env) (s : AlgState) (the_drone : DroneStatus)
    (rest : List DroneStatus) (plans : PlanList) (station : Vec3)
    (r : (List Segment × Int) × AlgState) (first : Segment)
    (hne : env.battery_stations.length ≠ 0)
    (hs : vec_at (sort_stations env.sqrt the_drone env.battery_stations) 0 = .ok station)
    (ht : trajectory_generation env s the_drone.position station the_drone = .ok r)
    (hf : vec_front r.1.1 = .ok first) :
    recharge_phase env s (the_drone :: rest) plans
      = .ok ({ r.2 with flightplan_num := r.2.flightplan_num + 1 },
          plans ++ [(the_drone.drone_id,
            { env.default_plan with
              flight_purpose := FlightPurpose.FLIGHT_EXCHANGE_BATTERY
              flight_plan_type := FlightPlanType.PLAN_TRAJECTORIES
              flight_id := r.2.flightplan_num + 1
              takeoff_timestamp := env.current_time
              segments := r.1.1 })]) := by
  simp only [recharge_phase, hne, if_false, hs, ht, hf, bind, Except.bind, pure, Except.pure]

/-- The pickup cycle of one idle drone with battery `b` not below 50 and one
waiting order: the drone is sent to the order. -/
theorem sample_pickup_cycle (b : ℚ) (hb : ¬ b < 50) :
    solve sample_env_open
        (sample_state [sample_drone_with_battery "d0" b] [(1, sample_order 1 6 8 3 4)])
      = .ok
        { published :=
            [("d0", ⟨FlightPurpose.FLIGHT_TAKE_CARGOS, FlightPlanType.PLAN_TRAJECTORIES, 1, 5000,
              sample_pickup_traj, [1]⟩)]
          hover_commands := []
          state :=
            ⟨[sample_drone_with_battery "d0" b], [(1, sample_order 1 6 8 3 4)],
              [("d0", ⟨FlightPurpose.FLIGHT_TAKE_CARGOS, FlightPlanType.PLAN_TRAJECTORIES, 1,
                5000, sample_pickup_traj, [1]⟩)],
              [("d0", sample_pickup_traj)], [1, 0, 0, 0, 0], 1⟩
          sleep_time_ms := 20000 } := by
  have hbk : bucketing [sample_drone_with_battery "d0" b]
      = ⟨[sample_drone_with_battery "d0" b], [], [], [], []⟩ := by
    simp [bucketing, bucket_step, sample_drone_with_battery, has_cargo, hb]
  have hcg : cargoes_to_delivery [(1, sample_order 1 6 8 3 4)] = [sample_order 1 6 8 3 4] := by
    simp [cargoes_to_delivery, sample_order]
  have hk : pickup_plan_num [sample_order 1 6 8 3 4] [sample_drone_with_battery "d0" b] = 1 := by
    simp [pickup_plan_num]
  have ha : pickup_assignment sample_env_open [sample_drone_with_battery "d0" b]
      [sample_order 1 6 8 3 4] = [0] := by
    have hl := cost_matrix_length sample_env_open.sqrt [sample_drone_with_battery "d0" b]
      [sample_order 1 6 8 3 4]
    rw [hk] at hl
    simp only [pickup_assignment, hk]
    show (List.range (cost_matrix sample_env_open.sqrt [sample_drone_with_battery "d0" b]
      [sample_order 1 6 8 3 4]).length).map Int.ofNat = [0]
    rw [hl]
    rfl
  have c0 : to_cell 0 10 = .ok 0 := to_cell_eq 0 10 0 (by norm_num) (by norm_num) (by norm_num) (by norm_num)
  have c6 : to_cell 6 10 = .ok 0 := to_cell_eq 6 10 0 (by norm_num) (by norm_num) (by norm_num) (by norm_num)
  have c8 : to_cell 8 10 = .ok 0 := to_cell_eq 8 10 0 (by norm_num) (by norm_num) (by norm_num) (by norm_num)
  have e70 : ((90 + (((0 : Nat) : Int) - 2) * 10 : Int) : ℚ) = 70 := by norm_num
  have hrun := sample_open_call [sample_drone_with_battery "d0" b]
    [(1, sample_order 1 6 8 3 4)] [] [] [0, 0, 0, 0, 0] [1, 0, 0, 0, 0] 0 0 0 0 6 8
    (sample_drone_with_battery "d0" b) rfl (by norm_num) rfl c0 c0 c6 c8
  rw [e70] at hrun
  have hp := pickup_phase_eq sample_env_open
    (sample_state [sample_drone_with_battery "d0" b] [(1, sample_order 1 6 8 3 4)])
    [sample_drone_with_battery "d0" b] [sample_order 1 6 8 3 4] []
    (sample_drone_with_battery "d0" b) (sample_order 1 6 8 3 4) 0 _
    (by rw [hk]; norm_num) (by rw [ha, hk]; rfl) rfl (by rw [ha]; rfl) rfl hrun
  rw [solve_pickup_only sample_env_open
    (sample_state [sample_drone_with_battery "d0" b] [(1, sample_order 1 6 8 3 4)]) _ _
    (by simp only [sample_state, hbk, hcg]; exact hp)
    (by simp only [sample_state, hbk]) (by simp only [sample_state, hbk])
    (by simp only [sample_state, hbk])]
  simp only [sample_state, hbk, drones_to_hover, List.filter, List.map]
  rfl

theorem pickup_plan_eligibility_witness :
    sample_env_open.default_plan.target_cargo_ids = [] ∧
    solve sample_env_open
        (sample_state [sample_drone_with_battery "d0" 100] [(1, sample_order 1 6 8 3 4)])
      = .ok
        { published :=
            [("d0", ⟨FlightPurpose.FLIGHT_TAKE_CARGOS, FlightPlanType.PLAN_TRAJECTORIES, 1, 5000,
              sample_pickup_traj, [1]⟩)]
          hover_commands := []
          state :=
            ⟨[sample_drone_with_battery "d0" 100], [(1, sample_order 1 6 8 3 4)],
              [("d0", ⟨FlightPurpose.FLIGHT_TAKE_CARGOS, FlightPlanType.PLAN_TRAJECTORIES, 1,
                5000, sample_pickup_traj, [1]⟩)],
              [("d0", sample_pickup_traj)], [1, 0, 0, 0, 0], 1⟩
          sleep_time_ms := 20000 } ∧
    ∃ s1 pickup rest,
      pickup_phase sample_env_open
        (sample_state [sample_drone_with_battery "d0" 100] [(1, sample_order 1 6 8 3 4)])
        (bucketing [sample_drone_with_battery "d0" 100]).drones_without_cargo
        (cargoes_to_delivery [(1, sample_order 1 6 8 3 4)]) [] = .ok (s1, pickup) ∧
      [("d0", (⟨FlightPurpose.FLIGHT_TAKE_CARGOS, FlightPlanType.PLAN_TRAJECTORIES, 1, 5000,
          sample_pickup_traj, [1]⟩ : FlightPlan))] = pickup ++ rest ∧
      ∀ e ∈ pickup, ∃ d ∈ [sample_drone_with_battery "d0" 100],
        ∃ c ∈ [(1, sample_order 1 6 8 3 4)].map Prod.snd,
        e.1 = d.drone_id ∧ d.status = Status.READY ∧
        (∀ cid ∈ d.delivering_cargo_ids, cid = -1) ∧ 50 ≤ d.battery ∧
        e.2.flight_purpose = FlightPurpose.FLIGHT_TAKE_CARGOS ∧
        e.2.target_cargo_ids = [c.id] ∧ c.status = CargoStatus.CARGO_WAITING :=
  ⟨rfl, sample_pickup_cycle 100 (by norm_num),
    pickup_plan_eligibility sample_env_open
      (sample_state [sample_drone_with_battery "d0" 100] [(1, sample_order 1 6 8 3 4)]) _ rfl
      (sample_pickup_cycle 100 (by norm_num))⟩

/-- C13 (counterexample to the claim as stated): a drone whose battery is
exactly 50, which is not above the recharge threshold, is idle with an empty
bay; with one waiting order the cycle issues the pickup plan to it. -/
theorem pickup_plan_at_threshold :
    ¬ (50 < (sample_drone_with_battery "d0" 50).battery) ∧
    (bucketing [sample_drone_with_battery "d0" 50]).drones_without_cargo
      = [sample_drone_with_battery "d0" 50] ∧
    solve sample_env_open
        (sample_state [sample_drone_with_battery "d0" 50] [(1, sample_order 1 6 8 3 4)])
      = .ok
        { published :=
            [("d0", ⟨FlightPurpose.FLIGHT_TAKE_CARGOS, FlightPlanType.PLAN_TRAJECTORIES, 1, 5000,
              sample_pickup_traj, [1]⟩)]
          hover_commands := []
          state :=
            ⟨[sample_drone_with_battery "d0" 50], [(1, sample_order 1 6 8 3 4)],
              [("d0", ⟨FlightPurpose.FLIGHT_TAKE_CARGOS, FlightPlanType.PLAN_TRAJECTORIES, 1,
                5000, sample_pickup_traj, [1]⟩)],
              [("d0", sample_pickup_traj)], [1, 0, 0, 0, 0], 1⟩
          sleep_time_ms := 20000 } := by
  have hb : ¬ (50 : ℚ) < 50 := by norm_num
  refine ⟨by simp [sample_drone_with_battery], ?_, sample_pickup_cycle 50 hb⟩
  simp [bucketing, bucket_step, sample_drone_with_battery, has_cargo]

/-! ### The recharge branch -/

/-- The head of a list sorted by insertion on a key is an element of the list
whose key is least. -/
theorem insertionSort_head_min {α : Type} (f : α → ℚ) (l : List α) (x : α)
    (h : (l.insertionSort (fun a b => f a < f b)).head? = some x) :
    x ∈ l ∧ ∀ y ∈ l, f x ≤ f y := by
  induction l generalizing x with
  | nil => simp at h
  | cons a l ih =>
    rw [List.insertionSort] at h
    cases hs : l.insertionSort (fun a b => f a < f b) with
    | nil =>
      have hl : l = [] := by
        have hp := List.perm_insertionSort (fun a b => f a < f b) l
        rw [hs] at hp
        exact List.Perm.eq_nil hp.symm
      rw [hs] at h
      simp only [List.orderedInsert, List.head?_cons, Option.some.injEq] at h
      subst h
      subst hl
      exact ⟨List.mem_cons_self _ _, by simp⟩
    | cons b t =>
      rw [hs] at h
      obtain ⟨hb, hmin⟩ := ih b (by rw [hs]; rfl)
      simp only [List.orderedInsert] at h
      by_cases hab : f a < f b
      · rw [if_pos hab] at h
        simp only [List.head?_cons, Option.some.injEq] at h
        subst h
        refine ⟨List.mem_cons_self _ _, fun y hy => ?_⟩
        rcases List.mem_cons.mp hy with rfl | hy
        · exact le_refl _
        · exact le_trans (le_of_lt hab) (hmin y hy)
      · rw [if_neg hab] at h
        simp only [List.head?_cons, Option.some.injEq] at h
        subst h
        refine ⟨List.mem_cons_of_mem _ hb, fun y hy => ?_⟩
        rcases List.mem_cons.mp hy with rfl | hy
        · exact not_lt.mp hab
        · exact hmin y hy

/-- The first element read with `at(0)` is the head of the vector. -/
theorem vec_at_zero {α : Type} (v : List α) (a : α) (h : vec_at v 0 = .ok a) :
    v.head? = some a := by
  cases v with
  | nil => simp [vec_at] at h
  | cons b t =>
    simp [vec_at] at h
    simp [h]

/-- C16: in a cycle that returns and has a drone in the recharge bucket, the
recharge branch looks at the first drone of that bucket. With an empty station
list it queues no plan and leaves the state as it is. With a non-empty station
list it queues exactly one plan for that drone, whose segments are those
returned by `trajectory_generation` from the drone to a registered station
whose distance to the drone, over all three coordinates, is least among the
registered stations. The published list starts with the plans queued so far. -/
theorem recharge_nearest_station (env : Env) (s : AlgState) (r : CycleResult)
    (hne : (bucketing s._drone_info).drones_need_recharge ≠ [])
    (h : solve env s = .ok r) :
    ∃ s1 p1 s2 p2 rest the_drone,
      pickup_phase env s (bucketing s._drone_info).drones_without_cargo
        (cargoes_to_delivery s._cargo_info) [] = .ok (s1, p1) ∧
      recharge_phase env s1 (bucketing s._drone_info).drones_need_recharge p1 = .ok (s2, p2) ∧
      r.published = p2 ++ rest ∧
      (bucketing s._drone_info).drones_need_recharge.head? = some the_drone ∧
      (env.battery_stations = [] → p2 = p1 ∧ s2 = s1) ∧
      (env.battery_stations ≠ [] →
        ∃ station rt,
          station ∈ env.battery_stations ∧
          (∀ p ∈ env.battery_stations,
            euclid3 env.sqrt station the_drone.position
              ≤ euclid3 env.sqrt p the_drone.position) ∧
          trajectory_generation env s1 the_drone.position station the_drone = .ok rt ∧
          p2 = p1 ++ [(the_drone.drone_id,
            { env.default_plan with
              flight_purpose := FlightPurpose.FLIGHT_EXCHANGE_BATTERY
              flight_plan_type := FlightPlanType.PLAN_TRAJECTORIES
              flight_id := rt.2.flightplan_num + 1
              takeoff_timestamp := env.current_time
              segments := rt.1.1 })]) := by
  obtain ⟨s1, p1, s2, p2, s3, p3, s4, h1, h2, h3, h4⟩ := solve_phases env s r h
  obtain ⟨q3, hq3, _, _⟩ := delivery_phase_appends env s2 s3 _ p2 p3 h3
  obtain ⟨q4, hq4, _⟩ := replan_phase_appends env _ s3 s4 p3 r.published h4
  cases hb : (bucketing s._drone_info).drones_need_recharge with
  | nil => exact absurd hb hne
  | cons d0 rest0 =>
    refine ⟨s1, p1, s2, p2, q3 ++ q4, d0, h1, by rw [← hb]; exact h2,
      by rw [hq4, hq3, List.append_assoc], rfl, ?_, ?_⟩
    · intro hst
      rcases recharge_phase_cases env s1 s2 _ p1 p2 h2 with
        ⟨_, hs, hp⟩ | ⟨hst2, _⟩
      · exact ⟨hp, hs⟩
      · exact absurd hst hst2
    · intro hst
      rcases recharge_phase_cases env s1 s2 _ p1 p2 h2 with
        ⟨hcase, _, _⟩ | ⟨_, the_drone, rest1, station, rt, hneed, hat, ht, _, hp⟩
      · rcases hcase with hnil | hnil
        · rw [hb] at hnil
          cases hnil
        · exact absurd hnil hst
      · rw [hb] at hneed
        cases hneed
        have hhead := vec_at_zero _ _ hat
        unfold sort_stations at hhead
        obtain ⟨hmem, hmin⟩ := insertionSort_head_min
          (fun p => euclid3 env.sqrt p d0.position) env.battery_stations station hhead
        exact ⟨station, rt, hmem, hmin, ht, hp⟩

/-- The sample stations sorted by distance to a drone at the origin: the
station at distance 5 comes first. -/
theorem sample_sort_stations :
    sort_stations sqrt_floor (sample_drone_with_battery "d1" 10) sample_stations
      = [⟨3, 4, 0⟩, ⟨0, 8, 0⟩, ⟨6, 8, 0⟩] := by
  have e1 : euclid3 sqrt_floor ⟨6, 8, 0⟩ ⟨0, 0, 0⟩ = 10 := by
    have e : ((6 : ℚ) - 0) ^ 2 + (8 - 0) ^ 2 + (0 - 0) ^ 2 = ((10 : ℕ) : ℚ) * (10 : ℕ) := by
      norm_num
    show sqrt_floor (((6 : ℚ) - 0) ^ 2 + (8 - 0) ^ 2 + (0 - 0) ^ 2) = 10
    rw [e, sqrt_floor_sq]
    norm_num
  have e2 : euclid3 sqrt_floor ⟨3, 4, 0⟩ ⟨0, 0, 0⟩ = 5 := by
    have e : ((3 : ℚ) - 0) ^ 2 + (4 - 0) ^ 2 + (0 - 0) ^ 2 = ((5 : ℕ) : ℚ) * (5 : ℕ) := by
      norm_num
    show sqrt_floor (((3 : ℚ) - 0) ^ 2 + (4 - 0) ^ 2 + (0 - 0) ^ 2) = 5
    rw [e, sqrt_floor_sq]
    norm_num
  have e3 : euclid3 sqrt_floor ⟨0, 8, 0⟩ ⟨0, 0, 0⟩ = 8 := by
    have e : ((0 : ℚ) - 0) ^ 2 + (8 - 0) ^ 2 + (0 - 0) ^ 2 = ((8 : ℕ) : ℚ) * (8 : ℕ) := by
      norm_num
    show sqrt_floor (((0 : ℚ) - 0) ^ 2 + (8 - 0) ^ 2 + (0 - 0) ^ 2) = 8
    rw [e, sqrt_floor_sq]
    norm_num
  simp only [sort_stations, sample_stations, sample_drone_with_battery, List.insertionSort,
    List.orderedInsert, e1, e2, e3]
  norm_num

/-- The busy cycle: one pickup plan, one recharge plan to the nearest station
and one delivery plan are published, in this order. -/
theorem sample_busy_cycle :
    solve (sample_env_stations sample_stations) sample_busy_state
      = .ok
        { published :=
            [("d0", sample_pickup_plan), ("d1", sample_recharge_plan),
              ("d2", sample_delivery_plan)]
          hover_commands := []
          state := sample_busy_state_after
          sleep_time_ms := 20000 } := by
  have c0 : to_cell 0 10 = .ok 0 := to_cell_eq 0 10 0 (by norm_num) (by norm_num) (by norm_num) (by norm_num)
  have c3 : to_cell 3 10 = .ok 0 := to_cell_eq 3 10 0 (by norm_num) (by norm_num) (by norm_num) (by norm_num)
  have c4 : to_cell 4 10 = .ok 0 := to_cell_eq 4 10 0 (by norm_num) (by norm_num) (by norm_num) (by norm_num)
  have c6 : to_cell 6 10 = .ok 0 := to_cell_eq 6 10 0 (by norm_num) (by norm_num) (by norm_num) (by norm_num)
  have c8 : to_cell 8 10 = .ok 0 := to_cell_eq 8 10 0 (by norm_num) (by norm_num) (by norm_num) (by norm_num)
  have e70 : ((90 + (((0 : Nat) : Int) - 2) * 10 : Int) : ℚ) = 70 := by norm_num
  have e80 : ((90 + (((1 : Nat) : Int) - 2) * 10 : Int) : ℚ) = 80 := by norm_num
  have e90 : ((90 + (((2 : Nat) : Int) - 2) * 10 : Int) : ℚ) = 90 := by norm_num
  have hbk : bucketing sample_busy_state._drone_info
      = ⟨[sample_idle_drone "d0" 0 0], [sample_drone_with_battery "d1" 10],
          [sample_loaded_drone "d2" 6 8 2], [], []⟩ := by
    have h100 : ¬ (100 : ℚ) < 50 := by norm_num
    have h10 : (10 : ℚ) < 50 := by norm_num
    simp [sample_busy_state, sample_state, bucketing, bucket_step, sample_idle_drone,
      sample_drone_with_battery, sample_loaded_drone, has_cargo, h100, h10]
  have hcg : cargoes_to_delivery sample_busy_state._cargo_info = [sample_order 1 6 8 3 4] := by
    simp [sample_busy_state, sample_state, cargoes_to_delivery, sample_order, sample_taken_order]
  have hk : pickup_plan_num [sample_order 1 6 8 3 4] [sample_idle_drone "d0" 0 0] = 1 := by
    simp [pickup_plan_num]
  have ha : pickup_assignment (sample_env_stations sample_stations) [sample_idle_drone "d0" 0 0]
      [sample_order 1 6 8 3 4] = [0] := by
    have hl := cost_matrix_length (sample_env_stations sample_stations).sqrt
      [sample_idle_drone "d0" 0 0] [sample_order 1 6 8 3 4]
    rw [hk] at hl
    simp only [pickup_assignment, hk]
    show (List.range (cost_matrix (sample_env_stations sample_stations).sqrt
      [sample_idle_drone "d0" 0 0] [sample_order 1 6 8 3 4]).length).map Int.ofNat = [0]
    rw [hl]
    rfl
  have hrun1 := sample_stations_call sample_stations sample_busy_state._drone_info
    sample_busy_state._cargo_info [] [] [0, 0, 0, 0, 0] [1, 0, 0, 0, 0] 0 0 0 0 6 8
    (sample_idle_drone "d0" 0 0) rfl (by norm_num) rfl c0 c0 c6 c8
  rw [e70] at hrun1
  have h1 := pickup_phase_eq (sample_env_stations sample_stations) sample_busy_state
    [sample_idle_drone "d0" 0 0] [sample_order 1 6 8 3 4] []
    (sample_idle_drone "d0" 0 0) (sample_order 1 6 8 3 4) 0 _
    (by rw [hk]; norm_num) (by rw [ha, hk]; rfl) rfl (by rw [ha]; rfl) rfl hrun1
  have hrun2 := sample_stations_call sample_stations sample_busy_state._drone_info
    sample_busy_state._cargo_info [] [("d0", sample_pickup_traj)] [1, 0, 0, 0, 0]
    [1, 1, 0, 0, 0] 1 1 0 0 3 4
    (sample_drone_with_battery "d1" 10) rfl (by norm_num) rfl c0 c0 c3 c4
  rw [e80] at hrun2
  have h2 := recharge_phase_eq (sample_env_stations sample_stations)
    ⟨sample_busy_state._drone_info, sample_busy_state._cargo_info, [],
      [("d0", sample_pickup_traj)], [1, 0, 0, 0, 0], 1⟩
    (sample_drone_with_battery "d1" 10) [] [("d0", sample_pickup_plan)] ⟨3, 4, 0⟩ _
    ⟨⟨0, 0, 0⟩, 0, 0⟩ (by decide)
    (by
      show vec_at (sort_stations sqrt_floor (sample_drone_with_battery "d1" 10) sample_stations) 0
        = .ok ⟨3, 4, 0⟩
      rw [sample_sort_stations]
      rfl)
    hrun2 rfl
  have hrun3 := sample_stations_call sample_stations sample_busy_state._drone_info
    sample_busy_state._cargo_info []
    [("d0", sample_pickup_traj), ("d1", sample_recharge_traj)] [1, 1, 0, 0, 0]
    [1, 1, 1, 0, 0] 2 2 6 8 3 4
    (sample_loaded_drone "d2" 6 8 2) rfl (by norm_num) rfl c6 c8 c3 c4
  rw [e90] at hrun3
  have h3 := delivery_phase_eq (sample_env_stations sample_stations)
    ⟨sample_busy_state._drone_info, sample_busy_state._cargo_info, [],
      [("d0", sample_pickup_traj), ("d1", sample_recharge_traj)], [1, 1, 0, 0, 0], 2⟩
    (sample_loaded_drone "d2" 6 8 2) []
    [("d0", sample_pickup_plan), ("d1", sample_recharge_plan)]
    (sample_taken_order 2 0 0 3 4) _ rfl hrun3 (by decide)
  rw [solve_eq (sample_env_stations sample_stations) sample_busy_state _ _ _ _ _ _ _ _
    (by rw [hbk, hcg]; exact h1) (by rw [hbk]; exact h2) (by rw [hbk]; exact h3)
    (by rw [hbk]; rfl)]
  simp only [hbk, drones_to_hover, List.filter, List.map]
  rfl

theorem recharge_nearest_station_witness :
    (bucketing sample_busy_state._drone_info).drones_need_recharge
      = [sample_drone_with_battery "d1" 10] ∧
    solve (sample_env_stations sample_stations) sample_busy_state
      = .ok
        { published :=
            [("d0", sample_pickup_plan), ("d1", sample_recharge_plan),
              ("d2", sample_delivery_plan)]
          hover_commands := []
          state := sample_busy_state_after
          sleep_time_ms := 20000 } ∧
    ∃ s1 p1 s2 p2 rest the_drone,
      pickup_phase (sample_env_stations sample_stations) sample_busy_state
        (bucketing sample_busy_state._drone_info).drones_without_cargo
        (cargoes_to_delivery sample_busy_state._cargo_info) [] = .ok (s1, p1) ∧
      recharge_phase (sample_env_stations sample_stations) s1
        (bucketing sample_busy_state._drone_info).drones_need_recharge p1 = .ok (s2, p2) ∧
      [("d0", sample_pickup_plan), ("d1", sample_recharge_plan), ("d2", sample_delivery_plan)]
        = p2 ++ rest ∧
      (bucketing sample_busy_state._drone_info).drones_need_recharge.head? = some the_drone ∧
      (sample_stations = [] → p2 = p1 ∧ s2 = s1) ∧
      (sample_stations ≠ [] →
        ∃ station rt,
          station ∈ sample_stations ∧
          (∀ p ∈ sample_stations,
            euclid3 sqrt_floor station the_drone.position
              ≤ euclid3 sqrt_floor p the_drone.position) ∧
          trajectory_generation (sample_env_stations sample_stations) s1 the_drone.position
            station the_drone = .ok rt ∧
          p2 = p1 ++ [(the_drone.drone_id,
            { sample_default_plan with
              flight_purpose := FlightPurpose.FLIGHT_EXCHANGE_BATTERY
              flight_plan_type := FlightPlanType.PLAN_TRAJECTORIES
              flight_id := rt.2.flightplan_num + 1
              takeoff_timestamp := 5000
              segments := rt.1.1 })]) := by
  have hbk : (bucketing sample_busy_state._drone_info).drones_need_recharge
      = [sample_drone_with_battery "d1" 10] := by
    have h100 : ¬ (100 : ℚ) < 50 := by norm_num
    have h10 : (10 : ℚ) < 50 := by norm_num
    simp [sample_busy_state, sample_state, bucketing, bucket_step, sample_idle_drone,
      sample_drone_with_battery, sample_loaded_drone, has_cargo, h100, h10]
  exact ⟨hbk, sample_busy_cycle,
    recharge_nearest_station (sample_env_stations sample_stations) sample_busy_state _
      (by rw [hbk]; exact List.cons_ne_nil _ _) sample_busy_cycle⟩

/-! ### Replanning -/

/-- The function `trajectory_replan` is the search set-up followed by the
assembly on the path returned by `findPath`. -/
theorem trajectory_replan_eq (env : Env) (s : AlgState) (now : Int) (start end_ : Vec3)
    (this_drone : DroneStatus) :
    trajectory_replan env s now start end_ this_drone
      = (replan_search env s now start end_ this_drone >>= fun c =>
          replan_assemble env c.state start end_ this_drone
            (env.findPath c.generator c.source c.target)) := by
  unfold trajectory_replan replan_search replan_assemble
  simp only [bind_assoc, pure_bind]

/-- Lookup in a map extended at the end. -/
theorem map_find_append_single {κ ν : Type} [DecidableEq κ] (m : List (κ × ν)) (k k2 : κ)
    (d : ν) :
    map_find (m ++ [(k, d)]) k2
      = match map_find m k2 with
        | some v => some v
        | none => if k = k2 then some d else none := by
  induction m with
  | nil => simp [map_find]
  | cons e rest ih =>
    obtain ⟨k1, v1⟩ := e
    by_cases h : k1 = k2
    · simp [map_find, h]
    · simp [map_find, h, ih]

/-- The value read by `m[k]` is the recorded one, or the default. -/
theorem map_subscript_fst {κ ν : Type} [DecidableEq κ] (m : List (κ × ν)) (k : κ) (d : ν) :
    (map_subscript m k d).1 = (map_find m k).getD d := by
  unfold map_subscript
  cases map_find m k <;> rfl

/-- A read `m[k]` does not change what any key reads as, the default being
read for a missing key. -/
theorem map_subscript_getD {κ ν : Type} [DecidableEq κ] (m : List (κ × ν)) (k k2 : κ) (d : ν) :
    (map_find (map_subscript m k d).2 k2).getD d = (map_find m k2).getD d := by
  unfold map_subscript
  cases hk : map_find m k with
  | some v => rfl
  | none =>
    simp only
    rw [map_find_append_single]
    cases hk2 : map_find m k2 with
    | some v => rfl
    | none =>
      by_cases h : k = k2
      · simp [h]
      · simp [h]

/-- The reservation pass over the segments of one drone: the cells appended to
the blocked set are those of the segments whose absolute time is in the
window; the plan record reads as before. -/
theorem reserve_segments_spec (env : Env) (now : Int) (drone_id : String)
    (segs : List Segment) :
    ∀ (id2plan id2plan2 : List (String × FlightPlan)) (g g2 : Generator),
      reserve_segments env now drone_id segs (id2plan, g) = .ok (id2plan2, g2) →
      (∀ k, (map_find id2plan2 k).getD env.default_plan
        = (map_find id2plan k).getD env.default_plan) ∧
      g2.worldSize = g.worldSize ∧
      ∃ added, g2.walls = g.walls ++ added ∧
        ∀ c : Vec2i, c ∈ added ↔ ∃ sg ∈ segs,
          now ≤ ((map_find id2plan drone_id).getD env.default_plan).takeoff_timestamp
            + sg.time_ms ∧
          ((map_find id2plan drone_id).getD env.default_plan).takeoff_timestamp + sg.time_ms
            ≤ now + 10000 ∧
          to_cell sg.position.x env._cell_size_x = .ok c.x ∧
          to_cell sg.position.y env._cell_size_y = .ok c.y := by
  induction segs with
  | nil =>
    intro id2plan id2plan2 g g2 h
    simp only [reserve_segments, Except.ok.injEq, Prod.mk.injEq] at h
    obtain ⟨h1, h2⟩ := h
    subst h1
    subst h2
    exact ⟨fun _ => rfl, rfl, [], by simp, by simp⟩
  | cons segment rest ih =>
    intro id2plan id2plan2 g g2 h
    rw [reserve_segments] at h
    simp only [map_subscript_fst] at h
    have hT : ((map_find (map_subscript id2plan drone_id env.default_plan).2 drone_id).getD
        env.default_plan) = (map_find id2plan drone_id).getD env.default_plan :=
      map_subscript_getD _ _ _ _
    by_cases hw : ((map_find id2plan drone_id).getD env.default_plan).takeoff_timestamp
          + segment.time_ms ≥ now ∧
        ((map_find id2plan drone_id).getD env.default_plan).takeoff_timestamp
          + segment.time_ms ≤ now + 10000
    · rw [if_pos hw] at h
      obtain ⟨gx, hgx, h⟩ := bind_ok_elim _ _ _ h
      obtain ⟨gy, hgy, h⟩ := bind_ok_elim _ _ _ h
      obtain ⟨hk, hws, added, hadd, hiff⟩ := ih _ _ _ _ h
      refine ⟨fun k => by rw [hk k, map_subscript_getD], hws, ⟨gx, gy⟩ :: added, ?_, ?_⟩
      · rw [hadd]
        simp [Generator.addCollision]
      · intro c
        rw [List.mem_cons, hiff c, hT]
        constructor
        · rintro (hc | ⟨sg, hsg, h1, h2, h3, h4⟩)
          · subst hc
            exact ⟨segment, List.mem_cons_self _ _, hw.1, hw.2, hgx, hgy⟩
          · exact ⟨sg, List.mem_cons_of_mem _ hsg, h1, h2, h3, h4⟩
        · rintro ⟨sg, hsg, h1, h2, h3, h4⟩
          rcases List.mem_cons.mp hsg with rfl | hsg
          · left
            rw [hgx] at h3
            rw [hgy] at h4
            cases h3
            cases h4
            rfl
          · exact Or.inr ⟨sg, hsg, h1, h2, h3, h4⟩
    · rw [if_neg hw] at h
      obtain ⟨hk, hws, added, hadd, hiff⟩ := ih _ _ _ _ h
      refine ⟨fun k => by rw [hk k, map_subscript_getD], hws, added, hadd, ?_⟩
      intro c
      rw [hiff c, hT]
      constructor
      · rintro ⟨sg, hsg, h1, h2, h3, h4⟩
        exact ⟨sg, List.mem_cons_of_mem _ hsg, h1, h2, h3, h4⟩
      · rintro ⟨sg, hsg, h1, h2, h3, h4⟩
        rcases List.mem_cons.mp hsg with rfl | hsg
        · exact absurd ⟨h1, h2⟩ hw
        · exact ⟨sg, hsg, h1, h2, h3, h4⟩

/-- The reservation pass over the snapshot: the cells appended to the blocked
set are those of the recorded segments of the drones with another id whose
absolute time is in the window; both records read as before. -/
theorem reserve_others_spec (env : Env) (now : Int) (this_id : String)
    (drones : List DroneStatus) :
    ∀ (id2plan id2plan2 : List (String × FlightPlan))
      (id2segs id2segs2 : List (String × List Segment)) (g g2 : Generator),
      reserve_others env now this_id drones (id2plan, id2segs, g)
        = .ok (id2plan2, id2segs2, g2) →
      (∀ k, (map_find id2plan2 k).getD env.default_plan
        = (map_find id2plan k).getD env.default_plan) ∧
      (∀ k, (map_find id2segs2 k).getD [] = (map_find id2segs k).getD []) ∧
      g2.worldSize = g.worldSize ∧
      ∃ added, g2.walls = g.walls ++ added ∧
        ∀ c : Vec2i, c ∈ added ↔ ∃ drone ∈ drones, drone.drone_id ≠ this_id ∧
          ∃ sg ∈ (map_find id2segs drone.drone_id).getD [],
            now ≤ ((map_find id2plan drone.drone_id).getD env.default_plan).takeoff_timestamp
              + sg.time_ms ∧
            ((map_find id2plan drone.drone_id).getD env.default_plan).takeoff_timestamp
              + sg.time_ms ≤ now + 10000 ∧
            to_cell sg.position.x env._cell_size_x = .ok c.x ∧
            to_cell sg.position.y env._cell_size_y = .ok c.y := by
  induction drones with
  | nil =>
    intro id2plan id2plan2 id2segs id2segs2 g g2 h
    simp only [reserve_others, Except.ok.injEq, Prod.mk.injEq] at h
    obtain ⟨h1, h2, h3⟩ := h
    subst h1
    subst h2
    subst h3
    exact ⟨fun _ => rfl, fun _ => rfl, rfl, [], by simp, by simp⟩
  | cons drone rest ih =>
    intro id2plan id2plan2 id2segs id2segs2 g g2 h
    rw [reserve_others] at h
    by_cases hid : drone.drone_id ≠ this_id
    · rw [if_pos hid] at h
      obtain ⟨⟨ip, gi⟩, hseg, h⟩ := bind_ok_elim _ _ _ h
      rw [map_subscript_fst] at hseg
      obtain ⟨hk1, hws1, added1, hadd1, hiff1⟩ :=
        reserve_segments_spec env now drone.drone_id _ _ _ _ _ hseg
      obtain ⟨hk2, hs2, hws2, added2, hadd2, hiff2⟩ := ih _ _ _ _ _ _ h
      refine ⟨fun k => by rw [hk2 k, hk1 k], fun k => by rw [hs2 k, map_subscript_getD],
        by rw [hws2, hws1], added1 ++ added2, by rw [hadd2, hadd1, List.append_assoc], ?_⟩
      intro c
      rw [List.mem_append, hiff1 c, hiff2 c]
      constructor
      · rintro (⟨sg, hsg, h1, h2, h3, h4⟩ | ⟨d, hd, hne, sg, hsg, h1, h2, h3, h4⟩)
        · exact ⟨drone, List.mem_cons_self _ _, hid, sg, hsg, h1, h2, h3, h4⟩
        · refine ⟨d, List.mem_cons_of_mem _ hd, hne, sg, ?_, ?_, ?_, h3, h4⟩
          · rwa [map_subscript_getD] at hsg
          · rwa [hk1] at h1
          · rwa [hk1] at h2
      · rintro ⟨d, hd, hne, sg, hsg, h1, h2, h3, h4⟩
        rcases List.mem_cons.mp hd with rfl | hd
        · exact Or.inl ⟨sg, hsg, h1, h2, h3, h4⟩
        · refine Or.inr ⟨d, hd, hne, sg, ?_, ?_, ?_, h3, h4⟩
          · rwa [map_subscript_getD]
          · rwa [hk1]
          · rwa [hk1]
    · rw [if_neg hid] at h
      obtain ⟨hk2, hs2, hws2, added2, hadd2, hiff2⟩ := ih _ _ _ _ _ _ h
      refine ⟨hk2, hs2, hws2, added2, hadd2, ?_⟩
      intro c
      rw [hiff2 c]
      constructor
      · rintro ⟨d, hd, hne, rest2⟩
        exact ⟨d, List.mem_cons_of_mem _ hd, hne, rest2⟩
      · rintro ⟨d, hd, hne, rest2⟩
        rcases List.mem_cons.mp hd with rfl | hd
        · exact absurd hne hid
        · exact ⟨d, hd, hne, rest2⟩

/-- A call of `trajectory_replan` that returns has completed its search
set-up. -/
theorem trajectory_replan_search (env : Env) (s : AlgState) (now : Int) (start end_ : Vec3)
    (this_drone : DroneStatus) (x : (List Segment × Int) × AlgState)
    (h : trajectory_replan env s now start end_ this_drone = .ok x) :
    ∃ c, replan_search env s now start end_ this_drone = .ok c ∧
      replan_assemble env c.state start end_ this_drone
        (env.findPath c.generator c.source c.target) = .ok x := by
  rw [trajectory_replan_eq] at h
  exact bind_ok_elim _ _ _ h

/-- C19: in a call of `trajectory_replan` that returns, the generator handed
to `findPath` is the loaded grid, followed by the cells `added` by the
reservation pass, with the two cells of the `removeCollision` calls cleared;
the result of the call is assembled from the path found on that generator. The
cells `added` are exactly the grid cells of the recorded segments `sg` of
drones of the snapshot with an id other than the requester's for which
`now ≤ takeoff_timestamp + sg.time_ms ≤ now + 10000`, where `takeoff_timestamp`
is read from the plan record of that drone (the default plan when it has
none). No segment of the requester itself and no segment outside the window
contributes. -/
theorem replan_reservation_window (env : Env) (s : AlgState) (now : Int) (start end_ : Vec3)
    (this_drone : DroneStatus) (x : (List Segment × Int) × AlgState)
    (h : trajectory_replan env s now start end_ this_drone = .ok x) :
    ∃ (g0 : Generator) (added : List Vec2i) (c : ReplanSearch) (sx sy cx ey : Int),
      load_grid env (env.to_float this_drone.position.z) = .ok g0 ∧
      replan_search env s now start end_ this_drone = .ok c ∧
      replan_assemble env c.state start end_ this_drone
        (env.findPath c.generator c.source c.target) = .ok x ∧
      to_cell start.x env._cell_size_x = .ok sx ∧
      to_cell start.y env._cell_size_y = .ok sy ∧
      to_cell end_.x env._cell_size_y = .ok cx ∧
      to_cell end_.y env._cell_size_y = .ok ey ∧
      c.generator.walls
        = ((g0.walls ++ added).filter (fun w => decide (w ≠ ⟨sx, sy⟩))).filter
            (fun w => decide (w ≠ ⟨cx, ey⟩)) ∧
      ∀ cell : Vec2i, cell ∈ added ↔ ∃ drone ∈ s._drone_info,
        drone.drone_id ≠ this_drone.drone_id ∧
        ∃ sg ∈ (map_find s._id2segs drone.drone_id).getD [],
          now ≤ ((map_find s._id2plan drone.drone_id).getD env.default_plan).takeoff_timestamp
            + sg.time_ms ∧
          ((map_find s._id2plan drone.drone_id).getD env.default_plan).takeoff_timestamp
            + sg.time_ms ≤ now + 10000 ∧
          to_cell sg.position.x env._cell_size_x = .ok cell.x ∧
          to_cell sg.position.y env._cell_size_y = .ok cell.y := by
  obtain ⟨c, hc0, hx⟩ := trajectory_replan_search env s now start end_ this_drone x h
  have hc := hc0
  unfold replan_search at hc
  obtain ⟨g0, hg0, hc⟩ := bind_ok_elim _ _ _ hc
  obtain ⟨⟨ip, is, g1⟩, hr, hc⟩ := bind_ok_elim _ _ _ hc
  obtain ⟨sx, hsx, hc⟩ := bind_ok_elim _ _ _ hc
  obtain ⟨sy, hsy, hc⟩ := bind_ok_elim _ _ _ hc
  obtain ⟨cx, hcx, hc⟩ := bind_ok_elim _ _ _ hc
  obtain ⟨ey, hey, hc⟩ := bind_ok_elim _ _ _ hc
  obtain ⟨sx2, _, hc⟩ := bind_ok_elim _ _ _ hc
  obtain ⟨sy2, _, hc⟩ := bind_ok_elim _ _ _ hc
  obtain ⟨ex, _, hc⟩ := bind_ok_elim _ _ _ hc
  obtain ⟨ey2, _, hc⟩ := bind_ok_elim _ _ _ hc
  simp only [pure, Except.pure, Except.ok.injEq] at hc
  subst hc
  obtain ⟨_, _, _, added, hadd, hiff⟩ :=
    reserve_others_spec env now this_drone.drone_id s._drone_info _ _ _ _ _ _ hr
  refine ⟨g0, added, _, sx, sy, cx, ey, hg0, hc0, hx, hsx, hsy, hcx, hey, ?_, hiff⟩
  simp only [Generator.removeCollision, hadd]

/-- On the two-cell map without obstacles the generator starts with no
collision, whatever layer below 12 the altitude selects. -/
theorem load_grid_two_cells (env : Env) (altitude : ℚ) (layer : Nat)
    (hg : env._map_grid
      = [[[0, 0, 0, 0, 0, 0, 0, 0, 0, 0, 0, 0]], [[0, 0, 0, 0, 0, 0, 0, 0, 0, 0, 0, 0]]])
    (h : to_cell altitude env._cell_size_z = .ok (layer : Int)) (hl : layer < 12) :
    load_grid env altitude = .ok ⟨⟨2, 1⟩, []⟩ := by
  have hcell : vec_index_int [0, 0, 0, 0, 0, 0, 0, 0, 0, 0, 0, (0 : Int)] layer = .ok 0 := by
    simp only [vec_index_int, vec_index]
    interval_cases layer <;> rfl
  simp [load_grid, hg, vec_index, h, hcell, bind, Except.bind, pure, Except.pure,
    List.range_succ, List.foldlM]

/-- The reservation pass of the sample replan blocks the cell (1,0) of the
segment of "d1" that lies in the window, and nothing else. -/
theorem sample_reserve_others (gx : ℚ) :
    reserve_others sample_env_replan 5000 "d0" (sample_replan_state gx)._drone_info
        ((sample_replan_state gx)._id2plan, (sample_replan_state gx)._id2segs, ⟨⟨2, 1⟩, []⟩)
      = .ok ((sample_replan_state gx)._id2plan, (sample_replan_state gx)._id2segs,
          ⟨⟨2, 1⟩, [⟨1, 0⟩]⟩) := by
  have c15 : to_cell 15 10 = .ok 1 :=
    to_cell_eq 15 10 1 (by norm_num) (by norm_num) (by norm_num) (by norm_num)
  have c5 : to_cell 5 20 = .ok 0 := to_cell_eq 5 20 0 (by norm_num) (by norm_num) (by norm_num) (by norm_num)
  have hx : sample_env_replan._cell_size_x = 10 := rfl
  have hy : sample_env_replan._cell_size_y = 20 := rfl
  have h01 : ¬ ("d0" : String) = "d1" := by decide
  have h10 : ¬ ("d1" : String) = "d0" := by decide
  simp [sample_replan_state, sample_hovering_drone, sample_other_drone, sample_other_segs,
    reserve_others, reserve_segments, map_subscript, map_find, h01, h10, hx, hy, c15, c5,
    Generator.addCollision, bind, Except.bind]

/-- The altitude of the sample requester is a single-precision number. -/
theorem sample_replan_altitude :
    sample_env_replan.to_float sample_hovering_drone.position.z = 70 := by
  show sample_to_float 70 = 70
  unfold sample_to_float
  norm_num

/-- The search set-up when every step returns: the first cell cleared is the
source cell; the second cell cleared has its `x` member computed from `end.x`
with `_cell_size_y`, while the target cell has it computed with
`_cell_size_x`. -/
theorem replan_search_eq (env : Env) (s : AlgState) (now : Int) (start end_ : Vec3)
    (this_drone : DroneStatus) (g0 : Generator)
    (r : List (String × FlightPlan) × List (String × List Segment) × Generator)
    (sx sy cx ey ex : Int)
    (hg : load_grid env (env.to_float this_drone.position.z) = .ok g0)
    (hr : reserve_others env now this_drone.drone_id s._drone_info
      (s._id2plan, s._id2segs, g0) = .ok r)
    (hsx : to_cell start.x env._cell_size_x = .ok sx)
    (hsy : to_cell start.y env._cell_size_y = .ok sy)
    (hcx : to_cell end_.x env._cell_size_y = .ok cx)
    (hey : to_cell end_.y env._cell_size_y = .ok ey)
    (hex : to_cell end_.x env._cell_size_x = .ok ex) :
    replan_search env s now start end_ this_drone
      = .ok ⟨(r.2.2.removeCollision ⟨sx, sy⟩).removeCollision ⟨cx, ey⟩, ⟨sx, sy⟩, ⟨ex, ey⟩,
          { s with _id2plan := r.1, _id2segs := r.2.1 }⟩ := by
  unfold replan_search
  simp only [hg, hr, hsx, hsy, hcx, hey, hex, bind, Except.bind, pure, Except.pure]

/-- C18 (the code at the failing input): cells 10 wide along `x` and 20 wide
along `y`, requester "d0" hovering at (5,5,70) with a record that ends at
(10,0,0), and a segment of "d1" inside the window in cell (1,0). The goal cell
passed to the pathfinder is (1,0), but the second cell cleared is (0,0),
computed from `end.x` with `_cell_size_y`: the blocked set handed to the
pathfinder still contains the goal cell, the sample pathfinder finds no path,
and the call, as well as the cycle that makes it, faults on the empty path. -/
theorem replan_goal_cell_left_blocked :
    to_cell 10 sample_env_replan._cell_size_x = .ok 1 ∧
    to_cell 10 sample_env_replan._cell_size_y = .ok 0 ∧
    replan_search sample_env_replan (sample_replan_state 10) 5000 ⟨5, 5, 70⟩ ⟨10, 0, 0⟩
        sample_hovering_drone
      = .ok ⟨⟨⟨2, 1⟩, [⟨1, 0⟩]⟩, ⟨0, 0⟩, ⟨1, 0⟩, sample_replan_state 10⟩ ∧
    (⟨1, 0⟩ : Vec2i) ∈ ([⟨1, 0⟩] : List Vec2i) ∧
    trajectory_replan sample_env_replan (sample_replan_state 10) 5000 ⟨5, 5, 70⟩ ⟨10, 0, 0⟩
        sample_hovering_drone
      = .error Fault.index_out_of_bounds ∧
    solve sample_env_replan (sample_replan_state 10) = .error Fault.index_out_of_bounds := by
  have c70 : to_cell 70 10 = .ok ((7 : Nat) : Int) :=
    to_cell_eq 70 10 7 (by norm_num) (by norm_num) (by norm_num) (by norm_num)
  have c5x : to_cell 5 10 = .ok 0 := to_cell_eq 5 10 0 (by norm_num) (by norm_num) (by norm_num) (by norm_num)
  have c5y : to_cell 5 20 = .ok 0 := to_cell_eq 5 20 0 (by norm_num) (by norm_num) (by norm_num) (by norm_num)
  have c10x : to_cell 10 10 = .ok 1 :=
    to_cell_eq 10 10 1 (by norm_num) (by norm_num) (by norm_num) (by norm_num)
  have c10y : to_cell 10 20 = .ok 0 :=
    to_cell_eq 10 20 0 (by norm_num) (by norm_num) (by norm_num) (by norm_num)
  have c0y : to_cell 0 20 = .ok 0 := to_cell_eq 0 20 0 (by norm_num) (by norm_num) (by norm_num) (by norm_num)
  have hsearch := replan_search_eq sample_env_replan (sample_replan_state 10) 5000 ⟨5, 5, 70⟩
    ⟨10, 0, 0⟩ sample_hovering_drone ⟨⟨2, 1⟩, []⟩ _ 0 0 0 0 1
    (load_grid_two_cells sample_env_replan _ 7 rfl (by rw [sample_replan_altitude]; exact c70)
      (by norm_num))
    (sample_reserve_others 10) c5x c5y c10y c0y c10x
  have hsearch2 : replan_search sample_env_replan (sample_replan_state 10) 5000 ⟨5, 5, 70⟩
      ⟨10, 0, 0⟩ sample_hovering_drone
      = .ok ⟨⟨⟨2, 1⟩, [⟨1, 0⟩]⟩, ⟨0, 0⟩, ⟨1, 0⟩, sample_replan_state 10⟩ := by
    rw [hsearch]
    rfl
  have hcall : trajectory_replan sample_env_replan (sample_replan_state 10) 5000 ⟨5, 5, 70⟩
      ⟨10, 0, 0⟩ sample_hovering_drone = .error Fault.index_out_of_bounds := by
    rw [trajectory_replan_eq, hsearch2]
    show replan_assemble sample_env_replan (sample_replan_state 10) ⟨5, 5, 70⟩ ⟨10, 0, 0⟩
      sample_hovering_drone [] = .error Fault.index_out_of_bounds
    simp [replan_assemble, remove_middle_points, vec_front, sample_env_replan,
      flying_points_empty_path, bind, Except.bind]
  refine ⟨c10x, c10y, hsearch2, List.mem_singleton.mpr rfl, hcall, ?_⟩
  have hbk : bucketing (sample_replan_state 10)._drone_info
      = ⟨[], [], [], [sample_other_drone], [sample_hovering_drone]⟩ := by
    have h100 : ¬ (100 : ℚ) < 50 := by norm_num
    simp [sample_replan_state, bucketing, bucket_step, sample_hovering_drone,
      sample_other_drone, h100]
  have h1 : pickup_phase sample_env_replan (sample_replan_state 10) []
      (cargoes_to_delivery (sample_replan_state 10)._cargo_info) []
      = .ok (sample_replan_state 10, []) := by
    simp [pickup_phase, pickup_plan_num, pure, Except.pure]
  have h2 : recharge_phase sample_env_replan (sample_replan_state 10) [] []
      = .ok (sample_replan_state 10, []) := rfl
  have h3 : delivery_phase sample_env_replan (sample_replan_state 10) [] []
      = .ok (sample_replan_state 10, []) := rfl
  have hb : vec_back (map_subscript (sample_replan_state 10)._id2segs
      sample_hovering_drone.drone_id []).1 = .ok ⟨⟨10, 0, 0⟩, 3000, 2⟩ := rfl
  have ht : trajectory_replan sample_env_replan
      { sample_replan_state 10 with
        _id2segs := (map_subscript (sample_replan_state 10)._id2segs
          sample_hovering_drone.drone_id []).2 }
      (sample_env_replan.replan_time sample_hovering_drone.drone_id)
      sample_hovering_drone.position (⟨⟨10, 0, 0⟩, 3000, 2⟩ : Segment).position
      sample_hovering_drone = .error Fault.index_out_of_bounds := hcall
  have h4 : replan_phase sample_env_replan (sample_replan_state 10) [sample_hovering_drone] []
      = .error Fault.index_out_of_bounds := by
    simp only [replan_phase, hb, ht, bind, Except.bind]
  unfold solve
  simp only [hbk, h1, h2, h3, h4, bind, Except.bind]

/-- The search set-up of the sample replan towards (5,0,0): the cell (1,0) of
"d1" is blocked in the generator handed to the pathfinder. -/
theorem sample_replan_search :
    replan_search sample_env_replan (sample_replan_state 5) 5000 ⟨5, 5, 70⟩ ⟨5, 0, 0⟩
        sample_hovering_drone
      = .ok ⟨⟨⟨2, 1⟩, [⟨1, 0⟩]⟩, ⟨0, 0⟩, ⟨0, 0⟩, (sample_replan_state 5)⟩ := by
  have c70 : to_cell 70 10 = .ok ((7 : Nat) : Int) :=
    to_cell_eq 70 10 7 (by norm_num) (by norm_num) (by norm_num) (by norm_num)
  have c5x : to_cell 5 10 = .ok 0 := to_cell_eq 5 10 0 (by norm_num) (by norm_num) (by norm_num) (by norm_num)
  have c5y : to_cell 5 20 = .ok 0 := to_cell_eq 5 20 0 (by norm_num) (by norm_num) (by norm_num) (by norm_num)
  have c0y : to_cell 0 20 = .ok 0 := to_cell_eq 0 20 0 (by norm_num) (by norm_num) (by norm_num) (by norm_num)
  have hsearch := replan_search_eq sample_env_replan (sample_replan_state 5) 5000 ⟨5, 5, 70⟩
    ⟨5, 0, 0⟩ sample_hovering_drone ⟨⟨2, 1⟩, []⟩ _ 0 0 0 0 0
    (load_grid_two_cells sample_env_replan _ 7 rfl (by rw [sample_replan_altitude]; exact c70)
      (by norm_num))
    (sample_reserve_others 5) c5x c5y c5y c0y c5x
  rw [hsearch]
  rfl

/-- The sample replan towards (5,0,0), whose cell is the source cell: the
search runs with the cell (1,0) of "d1" blocked and the call returns the cruise
and landing phases. -/
theorem sample_replan_call :
    trajectory_replan sample_env_replan (sample_replan_state 5) 5000 ⟨5, 5, 70⟩ ⟨5, 0, 0⟩
        sample_hovering_drone
      = .ok (([⟨⟨5, 5, 70⟩, 0, 1⟩, ⟨⟨5, 0, 70⟩, 1000, 1⟩, ⟨⟨5, 0, 0⟩, 2000, 2⟩], 2000),
          (sample_replan_state 5)) := by
  rw [trajectory_replan_eq, sample_replan_search]
  show replan_assemble sample_env_replan (sample_replan_state 5) ⟨5, 5, 70⟩ ⟨5, 0, 0⟩
    sample_hovering_drone [⟨0, 0⟩] = _
  unfold replan_assemble
  rw [sample_replan_altitude]
  rfl

theorem replan_reservation_window_witness :
    trajectory_replan sample_env_replan (sample_replan_state 5) 5000 ⟨5, 5, 70⟩ ⟨5, 0, 0⟩
        sample_hovering_drone
      = .ok (([⟨⟨5, 5, 70⟩, 0, 1⟩, ⟨⟨5, 0, 70⟩, 1000, 1⟩, ⟨⟨5, 0, 0⟩, 2000, 2⟩], 2000),
          (sample_replan_state 5)) ∧
    replan_search sample_env_replan (sample_replan_state 5) 5000 ⟨5, 5, 70⟩ ⟨5, 0, 0⟩
        sample_hovering_drone
      = .ok ⟨⟨⟨2, 1⟩, [⟨1, 0⟩]⟩, ⟨0, 0⟩, ⟨0, 0⟩, (sample_replan_state 5)⟩ ∧
    ∃ (g0 : Generator) (added : List Vec2i) (c : ReplanSearch) (sx sy cx ey : Int),
      load_grid sample_env_replan (sample_env_replan.to_float sample_hovering_drone.position.z)
        = .ok g0 ∧
      replan_search sample_env_replan (sample_replan_state 5) 5000 ⟨5, 5, 70⟩ ⟨5, 0, 0⟩
        sample_hovering_drone = .ok c ∧
      replan_assemble sample_env_replan c.state ⟨5, 5, 70⟩ ⟨5, 0, 0⟩ sample_hovering_drone
        (sample_env_replan.findPath c.generator c.source c.target)
        = .ok (([⟨⟨5, 5, 70⟩, 0, 1⟩, ⟨⟨5, 0, 70⟩, 1000, 1⟩, ⟨⟨5, 0, 0⟩, 2000, 2⟩], 2000),
          (sample_replan_state 5)) ∧
      to_cell (5 : ℚ) sample_env_replan._cell_size_x = .ok sx ∧
      to_cell (5 : ℚ) sample_env_replan._cell_size_y = .ok sy ∧
      to_cell (5 : ℚ) sample_env_replan._cell_size_y = .ok cx ∧
      to_cell (0 : ℚ) sample_env_replan._cell_size_y = .ok ey ∧
      c.generator.walls
        = ((g0.walls ++ added).filter (fun w => decide (w ≠ ⟨sx, sy⟩))).filter
            (fun w => decide (w ≠ ⟨cx, ey⟩)) ∧
      ∀ cell : Vec2i, cell ∈ added ↔ ∃ drone ∈ (sample_replan_state 5)._drone_info,
        drone.drone_id ≠ sample_hovering_drone.drone_id ∧
        ∃ sg ∈ (map_find (sample_replan_state 5)._id2segs drone.drone_id).getD [],
          5000 ≤ ((map_find (sample_replan_state 5)._id2plan drone.drone_id).getD
              sample_env_replan.default_plan).takeoff_timestamp + sg.time_ms ∧
          ((map_find (sample_replan_state 5)._id2plan drone.drone_id).getD
              sample_env_replan.default_plan).takeoff_timestamp + sg.time_ms ≤ 5000 + 10000 ∧
          to_cell sg.position.x sample_env_replan._cell_size_x = .ok cell.x ∧
          to_cell sg.position.y sample_env_replan._cell_size_y = .ok cell.y :=
  ⟨sample_replan_call, sample_replan_search,
    replan_reservation_window sample_env_replan (sample_replan_state 5) 5000 ⟨5, 5, 70⟩ ⟨5, 0, 0⟩
      sample_hovering_drone _ sample_replan_call⟩

/-- The replan loop for a single hovering drone whose record is not empty. -/
theorem replan_phase_single (env : Env) (s : AlgState) (this_drone : DroneStatus)
    (plans : PlanList) (last : Segment) (r : (List Segment × Int) × AlgState)
    (hb : vec_back (map_subscript s._id2segs this_drone.drone_id []).1 = .ok last)
    (ht : trajectory_replan env
        { s with _id2segs := (map_subscript s._id2segs this_drone.drone_id []).2 }
        (env.replan_time this_drone.drone_id) this_drone.position last.position this_drone
      = .ok r) :
    replan_phase env s [this_drone] plans
      = .ok ({ r.2 with
            _id2plan := (map_subscript r.2._id2plan this_drone.drone_id env.default_plan).2
            flightplan_num := r.2.flightplan_num + 1 },
          plans ++ [(this_drone.drone_id,
            { env.default_plan with
              flight_purpose :=
                (map_subscript r.2._id2plan this_drone.drone_id env.default_plan).1.flight_purpose
              flight_plan_type := FlightPlanType.PLAN_TRAJECTORIES
              flight_id := r.2.flightplan_num + 1
              takeoff_timestamp := env.current_time
              segments := r.1.1 })]) := by
  simp only [replan_phase, hb, ht, bind, Except.bind, pure, Except.pure]

/-- The replan cycle: "d0" hovers at (5,5,70) with a record ending at (5,0,0),
"d1" cruises 10 away from it. The cycle publishes one replan plan for "d0",
with the purpose of its recorded plan, and commands "d1" to hover. -/
theorem sample_replan_cycle :
    solve sample_env_replan (sample_replan_state 5)
      = .ok
        { published :=
            [("d0", ⟨FlightPurpose.FLIGHT_TAKE_CARGOS, FlightPlanType.PLAN_TRAJECTORIES, 3, 5000,
              [⟨⟨5, 5, 70⟩, 0, 1⟩, ⟨⟨5, 0, 70⟩, 1000, 1⟩, ⟨⟨5, 0, 0⟩, 2000, 2⟩], []⟩)]
          hover_commands := ["d1"]
          state := { sample_replan_state 5 with flightplan_num := 3 }
          sleep_time_ms := 20000 } := by
  have hbk : bucketing (sample_replan_state 5)._drone_info
      = ⟨[], [], [], [sample_other_drone], [sample_hovering_drone]⟩ := by
    have h100 : ¬ (100 : ℚ) < 50 := by norm_num
    simp [sample_replan_state, bucketing, bucket_step, sample_hovering_drone,
      sample_other_drone, h100]
  have h1 : pickup_phase sample_env_replan (sample_replan_state 5) []
      (cargoes_to_delivery (sample_replan_state 5)._cargo_info) []
      = .ok (sample_replan_state 5, []) := by
    simp [pickup_phase, pickup_plan_num, pure, Except.pure]
  have h4 := replan_phase_single sample_env_replan (sample_replan_state 5)
    sample_hovering_drone [] ⟨⟨5, 0, 0⟩, 3000, 2⟩ _ rfl sample_replan_call
  have hhover : need_replan sqrt_floor sample_to_float (sample_replan_state 5)._drone_info
      sample_other_drone = true := by
    obtain ⟨_, _, _, _, h10⟩ := sqrt_floor_values
    have h01 : ¬ ("d0" : String) = "d1" := by decide
    simp only [need_replan, euclid3, sample_replan_state, sample_hovering_drone,
      sample_other_drone, List.any_cons, List.any_nil]
    norm_num [h10, h01, sample_to_float_ten]
  rw [solve_eq sample_env_replan (sample_replan_state 5) _ _ _ _ _ _ _ _
    (by rw [hbk]; exact h1) (by rw [hbk]; rfl) (by rw [hbk]; rfl) (by rw [hbk]; exact h4)]
  simp only [hbk, drones_to_hover, List.filter]
  rw [show sample_env_replan.sqrt = sqrt_floor from rfl,
    show sample_env_replan.to_float = sample_to_float from rfl, hhover]
  rfl

theorem solve_plan_list_shape_witness :
    (solve (sample_env_stations sample_stations) sample_busy_state
      = .ok
        { published :=
            [("d0", sample_pickup_plan), ("d1", sample_recharge_plan),
              ("d2", sample_delivery_plan)]
          hover_commands := []
          state := sample_busy_state_after
          sleep_time_ms := 20000 } ∧
    ∃ pickup recharge delivery replans : PlanList,
      [("d0", sample_pickup_plan), ("d1", sample_recharge_plan), ("d2", sample_delivery_plan)]
        = pickup ++ recharge ++ delivery ++ replans ∧
      pickup.length ≤ 1 ∧
      (∀ e ∈ pickup, e.2.flight_purpose = FlightPurpose.FLIGHT_TAKE_CARGOS ∧
        ∃ d ∈ (bucketing sample_busy_state._drone_info).drones_without_cargo,
          e.1 = d.drone_id) ∧
      recharge.length ≤ 1 ∧
      (∀ e ∈ recharge, e.2.flight_purpose = FlightPurpose.FLIGHT_EXCHANGE_BATTERY ∧
        ∃ d ∈ (bucketing sample_busy_state._drone_info).drones_need_recharge,
          e.1 = d.drone_id) ∧
      delivery.length ≤ 1 ∧
      (∀ e ∈ delivery, e.2.flight_purpose = FlightPurpose.FLIGHT_DELIVER_CARGOS ∧
        ∃ d ∈ (bucketing sample_busy_state._drone_info).drones_to_delivery,
          e.1 = d.drone_id) ∧
      replans.map Prod.fst
        = (bucketing sample_busy_state._drone_info).drones_hovering.map
            (fun drone => drone.drone_id) ∧
      (((bucketing sample_busy_state._drone_info).drones_without_cargo = [] ∨
          cargoes_to_delivery sample_busy_state._cargo_info = []) → pickup = [])) ∧
    solve sample_env_replan (sample_replan_state 5)
      = .ok
        { published :=
            [("d0", ⟨FlightPurpose.FLIGHT_TAKE_CARGOS, FlightPlanType.PLAN_TRAJECTORIES, 3, 5000,
              [⟨⟨5, 5, 70⟩, 0, 1⟩, ⟨⟨5, 0, 70⟩, 1000, 1⟩, ⟨⟨5, 0, 0⟩, 2000, 2⟩], []⟩)]
          hover_commands := ["d1"]
          state := { sample_replan_state 5 with flightplan_num := 3 }
          sleep_time_ms := 20000 } ∧
    ∃ pickup recharge delivery replans : PlanList,
      [("d0", (⟨FlightPurpose.FLIGHT_TAKE_CARGOS, FlightPlanType.PLAN_TRAJECTORIES, 3, 5000,
          [⟨⟨5, 5, 70⟩, 0, 1⟩, ⟨⟨5, 0, 70⟩, 1000, 1⟩, ⟨⟨5, 0, 0⟩, 2000, 2⟩], []⟩ : FlightPlan))]
        = pickup ++ recharge ++ delivery ++ replans ∧
      pickup.length ≤ 1 ∧
      (∀ e ∈ pickup, e.2.flight_purpose = FlightPurpose.FLIGHT_TAKE_CARGOS ∧
        ∃ d ∈ (bucketing (sample_replan_state 5)._drone_info).drones_without_cargo,
          e.1 = d.drone_id) ∧
      recharge.length ≤ 1 ∧
      (∀ e ∈ recharge, e.2.flight_purpose = FlightPurpose.FLIGHT_EXCHANGE_BATTERY ∧
        ∃ d ∈ (bucketing (sample_replan_state 5)._drone_info).drones_need_recharge,
          e.1 = d.drone_id) ∧
      delivery.length ≤ 1 ∧
      (∀ e ∈ delivery, e.2.flight_purpose = FlightPurpose.FLIGHT_DELIVER_CARGOS ∧
        ∃ d ∈ (bucketing (sample_replan_state 5)._drone_info).drones_to_delivery,
          e.1 = d.drone_id) ∧
      replans.map Prod.fst
        = (bucketing (sample_replan_state 5)._drone_info).drones_hovering.map
            (fun drone => drone.drone_id) ∧
      (((bucketing (sample_replan_state 5)._drone_info).drones_without_cargo = [] ∨
          cargoes_to_delivery (sample_replan_state 5)._cargo_info = []) → pickup = []) :=
  ⟨⟨sample_busy_cycle,
      solve_plan_list_shape (sample_env_stations sample_stations) sample_busy_state _
        sample_busy_cycle⟩,
    sample_replan_cycle,
    solve_plan_list_shape sample_env_replan (sample_replan_state 5) _ sample_replan_cycle⟩

/-! ### The output of the collinearity pass has no collinear interior point -/

/-- The loop, with the final `push_back`, never returns more points than the
path has after its first point. -/
theorem rmp_go_length_le (a b : Vec2i) (rest : List Vec2i) :
    (rmp_go (a :: b :: rest)).length ≤ rest.length + 1 := by
  induction rest generalizing a b with
  | nil => simp [rmp_go]
  | cons c r ih =>
    have h := ih b c
    simp only [rmp_go]
    split
    · simp only [List.length_cons]
      omega
    · simp only [List.length_cons]
      omega

/-- A path that the loop leaves as it is has no three consecutive points that
pass the collinearity test. -/
theorem rmp_go_fixed_no_collinear (a b : Vec2i) (rest : List Vec2i)
    (h : rmp_go (a :: b :: rest) = b :: rest) :
    ∀ i c1 c2 c3, (a :: b :: rest)[i]? = some c1 → (a :: b :: rest)[i + 1]? = some c2 →
      (a :: b :: rest)[i + 2]? = some c3 → collinear_test c1 c2 c3 = false := by
  induction rest generalizing a b with
  | nil =>
    intro i c1 c2 c3 _ _ h3
    simp at h3
  | cons c r ih =>
    by_cases hc : collinear_test a b c = true
    · exfalso
      simp only [rmp_go, hc, if_true] at h
      have hlen := rmp_go_length_le b c r
      rw [h] at hlen
      simp only [List.length_cons] at hlen
      omega
    · simp only [rmp_go, hc] at h
      simp only [Bool.false_eq_true, if_false, List.cons.injEq, true_and] at h
      have ih2 := ih b c h
      intro i c1 c2 c3 h1 h2 h3
      cases i with
      | zero =>
        simp only [List.getElem?_cons_zero, List.getElem?_cons_succ, Option.some.injEq,
          zero_add] at h1 h2 h3
        subst h1
        subst h2
        subst h3
        simpa using hc
      | succ k =>
        exact ih2 k c1 c2 c3 (by simpa using h1) (by simpa using h2) (by simpa using h3)

/-- A path that `remove_middle_points` leaves as it is has no interior point
that passes the collinearity test with its two neighbours. -/
theorem remove_middle_points_fixed_no_collinear (q : List Vec2i)
    (h : remove_middle_points q = q) :
    ∀ i c1 c2 c3, q[i]? = some c1 → q[i + 1]? = some c2 → q[i + 2]? = some c3 →
      collinear_test c1 c2 c3 = false := by
  match q, h with
  | [], _ => intro i c1 c2 c3 h1; simp at h1
  | [a], _ => intro i c1 c2 c3 _ h2; simp at h2
  | a :: b :: rest, h =>
    rw [remove_middle_points_cons_cons] at h
    simp only [List.cons.injEq, true_and] at h
    exact rmp_go_fixed_no_collinear a b rest h

/-- C22 (counterexample): on the path (65536,65536), (65536,131072),
(65538,65536), (131072,131072) of pairwise distinct grid points the 32-bit
products of the test wrap. The output is (65536,65536), (65536,131072),
(131072,131072); its interior point passes the test of the source with its two
neighbours in the output, and a second run drops it. -/
theorem remove_middle_points_output_not_reduced :
    ([⟨65536, 65536⟩, ⟨65536, 131072⟩, ⟨65538, 65536⟩, ⟨131072, 131072⟩] :
      List Vec2i).Nodup ∧
    remove_middle_points
        [⟨65536, 65536⟩, ⟨65536, 131072⟩, ⟨65538, 65536⟩, ⟨131072, 131072⟩]
      = [⟨65536, 65536⟩, ⟨65536, 131072⟩, ⟨131072, 131072⟩] ∧
    collinear_test ⟨65536, 65536⟩ ⟨65536, 131072⟩ ⟨131072, 131072⟩ = true ∧
    remove_middle_points [⟨65536, 65536⟩, ⟨65536, 131072⟩, ⟨131072, 131072⟩]
      = [⟨65536, 65536⟩, ⟨131072, 131072⟩] := by
  decide

/-- C22 (amended): for every list `p` of pairwise distinct grid points whose
coordinates lie between 0 and 46340 (so that no 32-bit product of the
collinearity test wraps), the output of `remove_middle_points` has no interior
point that passes the cross-product collinearity test with its two neighbours
in the output, and a second run of `remove_middle_points` on the output
changes nothing. -/
theorem remove_middle_points_output_reduced (p : List Vec2i) (hnd : p.Nodup)
    (hbox : ∀ q ∈ p, InBox q) :
    (∀ i c1 c2 c3, (remove_middle_points p)[i]? = some c1 →
      (remove_middle_points p)[i + 1]? = some c2 →
      (remove_middle_points p)[i + 2]? = some c3 → collinear_test c1 c2 c3 = false) ∧
    remove_middle_points (remove_middle_points p) = remove_middle_points p :=
  ⟨remove_middle_points_fixed_no_collinear _ (remove_middle_points_idem_of_nodup p hnd hbox),
    remove_middle_points_idem_of_nodup p hnd hbox⟩

theorem remove_middle_points_output_reduced_witness :
    ([⟨0, 0⟩, ⟨1, 1⟩, ⟨2, 2⟩, ⟨3, 2⟩, ⟨4, 2⟩, ⟨5, 3⟩, ⟨5, 4⟩] : List Vec2i).Nodup ∧
    (∀ q ∈ ([⟨0, 0⟩, ⟨1, 1⟩, ⟨2, 2⟩, ⟨3, 2⟩, ⟨4, 2⟩, ⟨5, 3⟩, ⟨5, 4⟩] : List Vec2i), InBox q) ∧
    remove_middle_points [⟨0, 0⟩, ⟨1, 1⟩, ⟨2, 2⟩, ⟨3, 2⟩, ⟨4, 2⟩, ⟨5, 3⟩, ⟨5, 4⟩]
      = [⟨0, 0⟩, ⟨2, 2⟩, ⟨4, 2⟩, ⟨5, 3⟩, ⟨5, 4⟩] ∧
    (∀ i c1 c2 c3,
      (remove_middle_points [⟨0, 0⟩, ⟨1, 1⟩, ⟨2, 2⟩, ⟨3, 2⟩, ⟨4, 2⟩, ⟨5, 3⟩, ⟨5, 4⟩])[i]?
        = some c1 →
      (remove_middle_points [⟨0, 0⟩, ⟨1, 1⟩, ⟨2, 2⟩, ⟨3, 2⟩, ⟨4, 2⟩, ⟨5, 3⟩, ⟨5, 4⟩])[i + 1]?
        = some c2 →
      (remove_middle_points [⟨0, 0⟩, ⟨1, 1⟩, ⟨2, 2⟩, ⟨3, 2⟩, ⟨4, 2⟩, ⟨5, 3⟩, ⟨5, 4⟩])[i + 2]?
        = some c3 → collinear_test c1 c2 c3 = false) ∧
    remove_middle_points
        (remove_middle_points [⟨0, 0⟩, ⟨1, 1⟩, ⟨2, 2⟩, ⟨3, 2⟩, ⟨4, 2⟩, ⟨5, 3⟩, ⟨5, 4⟩])
      = remove_middle_points [⟨0, 0⟩, ⟨1, 1⟩, ⟨2, 2⟩, ⟨3, 2⟩, ⟨4, 2⟩, ⟨5, 3⟩, ⟨5, 4⟩] :=
  ⟨by decide, by simp [InBox], by decide,
    remove_middle_points_output_reduced
      [⟨0, 0⟩, ⟨1, 1⟩, ⟨2, 2⟩, ⟨3, 2⟩, ⟨4, 2⟩, ⟨5, 3⟩, ⟨5, 4⟩] (by decide) (by simp [InBox])⟩

/-! ### Times of the stitched trajectory -/

/-- A list of at least two elements is a first element, a middle part and a
last element. -/
theorem two_le_length_decomp {α : Type} (l : List α) (h : 2 ≤ l.length) :
    ∃ a m z, l = a :: (m ++ [z]) := by
  match l, h with
  | a :: b :: r, _ =>
    exact ⟨a, (b :: r).dropLast, (b :: r).getLast (List.cons_ne_nil _ _),
      by rw [List.dropLast_append_getLast]⟩

theorem getLast?_cons_concat {α : Type} (a : α) (m : List α) (z : α) :
    (a :: (m ++ [z])).getLast? = some z := by
  rw [← List.cons_append, List.getLast?_append]
  simp

/-- In a well-timed list every segment is no later than the last one, and
every segment after the first has a positive elapsed time. -/
theorem well_timed_facts (a : Segment) (m : List Segment) (z : Segment) (hz : a.time_ms = 0)
    (p : (a :: (m ++ [z])).Pairwise (fun x y => x.time_ms < y.time_ms)) :
    (∀ x ∈ a :: (m ++ [z]), x.time_ms ≤ z.time_ms) ∧
    (∀ x ∈ m ++ [z], 0 < x.time_ms) ∧
    (m ++ [z]).Pairwise (fun x y => x.time_ms < y.time_ms) := by
  obtain ⟨h1, h2⟩ := List.pairwise_cons.mp p
  obtain ⟨_, _, h3⟩ := List.pairwise_append.mp h2
  have hmz : ∀ x ∈ m ++ [z], x.time_ms ≤ z.time_ms := by
    intro x hx
    rcases List.mem_append.mp hx with hx | hx
    · exact le_of_lt (h3 x hx z (List.mem_singleton.mpr rfl))
    · rw [List.mem_singleton.mp hx]
  refine ⟨?_, ?_, h2⟩
  · intro x hx
    rcases List.mem_cons.mp hx with hx | hx
    · rw [hx]
      exact le_of_lt (h1 z (by simp))
    · exact hmz x hx
  · intro x hx
    have := h1 x hx
    rw [hz] at this
    exact this

/-- Stitching three well-timed phases of at least two segments each gives a
well-timed list whose last elapsed time is the sum of the three final times of
the phases. -/
theorem stitch_well_timed (takeoff flying landing : List Segment)
    (h2t : 2 ≤ takeoff.length) (h2f : 2 ≤ flying.length) (h2l : 2 ≤ landing.length)
    (wt : WellTimed takeoff) (wf : WellTimed flying) (wl : WellTimed landing) :
    ∃ tl fl ll fsl,
      takeoff.getLast? = some tl ∧ flying.getLast? = some fl ∧ landing.getLast? = some ll ∧
      (shift_times (flying.drop 1) tl.time_ms).getLast? = some fsl ∧
      WellTimed (takeoff ++ shift_times (flying.drop 1) tl.time_ms
        ++ shift_times (landing.drop 1) fsl.time_ms) ∧
      ∃ last,
        (takeoff ++ shift_times (flying.drop 1) tl.time_ms
          ++ shift_times (landing.drop 1) fsl.time_ms).getLast? = some last ∧
        last.time_ms = tl.time_ms + fl.time_ms + ll.time_ms := by
  obtain ⟨t0, tm, tl, rfl⟩ := two_le_length_decomp takeoff h2t
  obtain ⟨f0, fm, fl, rfl⟩ := two_le_length_decomp flying h2f
  obtain ⟨l0, lm, ll, rfl⟩ := two_le_length_decomp landing h2l
  obtain ⟨⟨_, ht0, ht0z⟩, ptk⟩ := wt
  obtain ⟨⟨_, hf0, hf0z⟩, pfl⟩ := wf
  obtain ⟨⟨_, hl0, hl0z⟩, pld⟩ := wl
  simp only [List.head?_cons, Option.some.injEq] at ht0 hf0 hl0
  subst ht0
  subst hf0
  subst hl0
  obtain ⟨tle, _, _⟩ := well_timed_facts _ tm tl ht0z ptk
  obtain ⟨fle, fpos, fpw⟩ := well_timed_facts _ fm fl hf0z pfl
  obtain ⟨_, lpos, lpw⟩ := well_timed_facts _ lm ll hl0z pld
  have hdropf : (f0 :: (fm ++ [fl])).drop 1 = fm ++ [fl] := rfl
  have hdropl : (l0 :: (lm ++ [ll])).drop 1 = lm ++ [ll] := rfl
  have hfpos : 0 < fl.time_ms := fpos fl (by simp)
  refine ⟨tl, fl, ll, { fl with time_ms := fl.time_ms + tl.time_ms },
    getLast?_cons_concat _ _ _, getLast?_cons_concat _ _ _, getLast?_cons_concat _ _ _, ?_, ?_,
    ⟨{ ll with time_ms := ll.time_ms + (fl.time_ms + tl.time_ms) }, ?_, ?_⟩⟩
  · rw [hdropf]
    simp [shift_times]
  · refine ⟨⟨t0, by simp, ht0z⟩, ?_⟩
    rw [hdropf, hdropl]
    unfold shift_times
    rw [List.pairwise_append, List.pairwise_append]
    refine ⟨⟨ptk, ?_, ?_⟩, ?_, ?_⟩
    · rw [List.pairwise_map]
      exact fpw.imp (fun hab => by simpa using hab)
    · intro a ha b hb
      obtain ⟨x, hx, rfl⟩ := List.mem_map.mp hb
      have h1 := tle a ha
      have h2 := fpos x hx
      show a.time_ms < x.time_ms + tl.time_ms
      omega
    · rw [List.pairwise_map]
      exact lpw.imp (fun hab => by simpa using hab)
    · intro a ha b hb
      obtain ⟨y, hy, rfl⟩ := List.mem_map.mp hb
      have h2 := lpos y hy
      show a.time_ms < y.time_ms + (fl.time_ms + tl.time_ms)
      rcases List.mem_append.mp ha with ha | ha
      · have h1 := tle a ha
        omega
      · obtain ⟨x, hx, rfl⟩ := List.mem_map.mp ha
        have h1 := fle x (List.mem_cons_of_mem _ hx)
        show x.time_ms + tl.time_ms < y.time_ms + (fl.time_ms + tl.time_ms)
        omega
  · rw [hdropl]
    unfold shift_times
    rw [List.map_append, List.map_singleton, ← List.append_assoc]
    exact List.getLast?_concat _
  · show ll.time_ms + (fl.time_ms + tl.time_ms) = tl.time_ms + fl.time_ms + ll.time_ms
    omega

/-- C21: when the set-up of `trajectory_generation` succeeds, there is at least
one altitude band, and the generator hands back a take-off, a cruise and a
landing list that each have at least two segments, start at elapsed time 0
and have strictly increasing elapsed times, then the call returns the stitched
list (take-off, then cruise without its first segment shifted by the final
time of the take-off, then landing without its first segment shifted by the
final time of the shifted cruise), this list starts at elapsed time 0 and has
strictly increasing elapsed times, and the returned flight time is the
elapsed time of its last segment. -/
theorem stitched_trajectory_well_timed (env : Env) (s : AlgState) (start end_ : Vec3)
    (drone : DroneStatus) (g : Generator) (sx sy ex ey : Int) (dl : DroneLimits)
    (takeoff flying landing : List Segment) (points : List Vec3)
    (hg : load_grid env
      ((90 + ((min_element_index s._altitude_drone_count : Int) - 2) * 10 : Int) : ℚ) = .ok g)
    (hsx : to_cell start.x env._cell_size_x = .ok sx)
    (hsy : to_cell start.y env._cell_size_y = .ok sy)
    (hex : to_cell end_.x env._cell_size_x = .ok ex)
    (hey : to_cell end_.y env._cell_size_y = .ok ey)
    (hdl : vec_front env.drone_limits = .ok dl)
    (hne : s._altitude_drone_count ≠ [])
    (ht : env.generate_traj_from_waypoints
      [start, ⟨start.x, start.y,
        ((90 + ((min_element_index s._altitude_drone_count : Int) - 2) * 10 : Int) : ℚ)⟩]
      dl 0 = some takeoff)
    (hp : flying_points env
      ((90 + ((min_element_index s._altitude_drone_count : Int) - 2) * 10 : Int) : ℚ)
      start end_ (remove_middle_points (env.findPath g ⟨sx, sy⟩ ⟨ex, ey⟩).reverse) = .ok points)
    (hf : env.generate_traj_from_waypoints points dl 1 = some flying)
    (hl : env.generate_traj_from_waypoints
      [⟨end_.x, end_.y,
        ((90 + ((min_element_index s._altitude_drone_count : Int) - 2) * 10 : Int) : ℚ)⟩, end_]
      dl 2 = some landing)
    (h2t : 2 ≤ takeoff.length) (h2f : 2 ≤ flying.length) (h2l : 2 ≤ landing.length)
    (wt : WellTimed takeoff) (wf : WellTimed flying) (wl : WellTimed landing) :
    ∃ traj flight_time s1 tl fsl,
      trajectory_generation env s start end_ drone = .ok ((traj, flight_time), s1) ∧
      takeoff.getLast? = some tl ∧
      (shift_times (flying.drop 1) tl.time_ms).getLast? = some fsl ∧
      traj = takeoff ++ shift_times (flying.drop 1) tl.time_ms
        ++ shift_times (landing.drop 1) fsl.time_ms ∧
      WellTimed traj ∧
      ∃ last, traj.getLast? = some last ∧ last.time_ms = flight_time := by
  obtain ⟨tl, fl, ll, fsl, htl, hfl, hll, hfs, hwell, last, hlast, hlt⟩ :=
    stitch_well_timed takeoff flying landing h2t h2f h2l wt wf wl
  obtain ⟨cm, hcm, _, _⟩ := min_element_index_spec s._altitude_drone_count hne
  have hc : vec_increment s._altitude_drone_count (min_element_index s._altitude_drone_count)
      = .ok (s._altitude_drone_count.set (min_element_index s._altitude_drone_count)
          (cm + 1)) := by
    unfold vec_increment
    rw [hcm]
  have hrun := assemble_trajectory_ok env s start end_ drone
    (min_element_index s._altitude_drone_count)
    (90 + ((min_element_index s._altitude_drone_count : Int) - 2) * 10)
    (remove_middle_points (env.findPath g ⟨sx, sy⟩ ⟨ex, ey⟩).reverse) dl takeoff flying landing
    points _ tl fl ll fsl ht htl hp hf hfl hl hll hc hfs
  rw [← trajectory_generation_eq env s start end_ drone g sx sy ex ey dl hg hsx hsy hex hey hdl]
    at hrun
  exact ⟨_, _, _, tl, fsl, hrun, htl, hfs, rfl, hwell, last, hlast, hlt⟩

theorem stitched_trajectory_well_timed_witness :
    trajectory_generation sample_env_open (sample_state [sample_idle_drone "d0" 0 0] [])
        ⟨0, 0, 0⟩ ⟨6, 8, 0⟩ (sample_idle_drone "d0" 0 0)
      = .ok ((sample_pickup_traj, 3000),
          ⟨[sample_idle_drone "d0" 0 0], [], [], [("d0", sample_pickup_traj)],
            [1, 0, 0, 0, 0], 0⟩) ∧
    WellTimed [⟨⟨0, 0, 0⟩, 0, 0⟩, ⟨⟨0, 0, 70⟩, 1000, 0⟩] ∧
    WellTimed [⟨⟨0, 0, 70⟩, 0, 1⟩, ⟨⟨6, 8, 70⟩, 1000, 1⟩] ∧
    WellTimed [⟨⟨6, 8, 70⟩, 0, 2⟩, ⟨⟨6, 8, 0⟩, 1000, 2⟩] ∧
    ∃ traj flight_time s1 tl fsl,
      trajectory_generation sample_env_open (sample_state [sample_idle_drone "d0" 0 0] [])
          ⟨0, 0, 0⟩ ⟨6, 8, 0⟩ (sample_idle_drone "d0" 0 0) = .ok ((traj, flight_time), s1) ∧
      ([⟨⟨0, 0, 0⟩, 0, 0⟩, ⟨⟨0, 0, 70⟩, 1000, 0⟩] : List Segment).getLast? = some tl ∧
      (shift_times (([⟨⟨0, 0, 70⟩, 0, 1⟩, ⟨⟨6, 8, 70⟩, 1000, 1⟩] : List Segment).drop 1)
        tl.time_ms).getLast? = some fsl ∧
      traj = [⟨⟨0, 0, 0⟩, 0, 0⟩, ⟨⟨0, 0, 70⟩, 1000, 0⟩]
        ++ shift_times (([⟨⟨0, 0, 70⟩, 0, 1⟩, ⟨⟨6, 8, 70⟩, 1000, 1⟩] : List Segment).drop 1)
          tl.time_ms
        ++ shift_times (([⟨⟨6, 8, 70⟩, 0, 2⟩, ⟨⟨6, 8, 0⟩, 1000, 2⟩] : List Segment).drop 1)
          fsl.time_ms ∧
      WellTimed traj ∧
      ∃ last, traj.getLast? = some last ∧ last.time_ms = flight_time := by
  have c0 : to_cell 0 10 = .ok 0 := to_cell_eq 0 10 0 (by norm_num) (by norm_num) (by norm_num) (by norm_num)
  have c6 : to_cell 6 10 = .ok 0 := to_cell_eq 6 10 0 (by norm_num) (by norm_num) (by norm_num) (by norm_num)
  have c8 : to_cell 8 10 = .ok 0 := to_cell_eq 8 10 0 (by norm_num) (by norm_num) (by norm_num) (by norm_num)
  have e70 : ((90 + ((min_element_index
      (sample_state [sample_idle_drone "d0" 0 0] [])._altitude_drone_count : Int) - 2) * 10
        : Int) : ℚ) = 70 := by
    have hmin : min_element_index
        (sample_state [sample_idle_drone "d0" 0 0] [])._altitude_drone_count = 0 := rfl
    rw [hmin]
    norm_num
  have e70b : ((90 + (((0 : Nat) : Int) - 2) * 10 : Int) : ℚ) = 70 := by norm_num
  have hrun := sample_open_call [sample_idle_drone "d0" 0 0] [] [] [] [0, 0, 0, 0, 0]
    [1, 0, 0, 0, 0] 0 0 0 0 6 8 (sample_idle_drone "d0" 0 0) rfl (by norm_num) rfl c0 c0 c6 c8
  rw [e70b] at hrun
  obtain ⟨a0, b0, c0', d0, e0⟩ := sample_setup_one_cell sample_env_open
    [sample_idle_drone "d0" 0 0] rfl rfl rfl rfl
  have wt : WellTimed [⟨⟨0, 0, 0⟩, 0, 0⟩, ⟨⟨0, 0, 70⟩, 1000, 0⟩] :=
    ⟨⟨_, rfl, rfl⟩, by simp⟩
  have wf : WellTimed [⟨⟨0, 0, 70⟩, 0, 1⟩, ⟨⟨6, 8, 70⟩, 1000, 1⟩] :=
    ⟨⟨_, rfl, rfl⟩, by simp⟩
  have wl : WellTimed [⟨⟨6, 8, 70⟩, 0, 2⟩, ⟨⟨6, 8, 0⟩, 1000, 2⟩] :=
    ⟨⟨_, rfl, rfl⟩, by simp⟩
  exact ⟨hrun, wt, wf, wl,
    stitched_trajectory_well_timed sample_env_open
      (sample_state [sample_idle_drone "d0" 0 0] []) ⟨0, 0, 0⟩ ⟨6, 8, 0⟩
      (sample_idle_drone "d0" 0 0) ⟨⟨1, 1⟩, []⟩ 0 0 0 0 ⟨10, 5, 2, 2⟩
      [⟨⟨0, 0, 0⟩, 0, 0⟩, ⟨⟨0, 0, 70⟩, 1000, 0⟩]
      [⟨⟨0, 0, 70⟩, 0, 1⟩, ⟨⟨6, 8, 70⟩, 1000, 1⟩]
      [⟨⟨6, 8, 70⟩, 0, 2⟩, ⟨⟨6, 8, 0⟩, 1000, 2⟩]
      [⟨0, 0, 70⟩, ⟨6, 8, 70⟩]
      a0 b0 c0' d0 e0 rfl (by simp [sample_state])
      (by rw [e70]; rfl) (by rw [e70]; rfl) rfl (by rw [e70]; rfl)
      (by decide) (by decide) (by decide) wt wf wl⟩

/-! ### Balance of the altitude bands -/

/-- Incrementing the band selected by `std::min_element` keeps balanced
counters balanced and lowers no count. -/
theorem vec_increment_balanced (counts counts1 : List Int) (hbal : CountsBalanced counts)
    (hc : vec_increment counts (min_element_index counts) = .ok counts1) :
    CountsBalanced counts1 ∧ CountsNotLower counts counts1 := by
  unfold vec_increment at hc
  cases hm : counts[min_element_index counts]? with
  | none => rw [hm] at hc; cases hc
  | some cm =>
    rw [hm] at hc
    cases hc
    have hne : counts ≠ [] := by
      intro h
      rw [h] at hm
      simp at hm
    obtain ⟨cm2, hcm2, hmin, _⟩ := min_element_index_spec counts hne
    rw [hm] at hcm2
    cases hcm2
    have hcmem : cm ∈ counts := by
      obtain ⟨hlt, hget⟩ := List.getElem?_eq_some.mp hm
      exact hget ▸ List.getElem_mem _
    constructor
    · intro a ha b hb
      rcases List.mem_or_eq_of_mem_set ha with ha | ha <;>
        rcases List.mem_or_eq_of_mem_set hb with hb | hb
      · exact hbal a ha b hb
      · have := hbal a ha cm hcmem
        omega
      · have := hmin b hb
        omega
      · omega
    · refine ⟨List.length_set _ _ _, ?_⟩
      intro i c hi
      rw [List.getElem?_set]
      by_cases him : min_element_index counts = i
      · subst him
        rw [hm] at hi
        cases hi
        have hlt : min_element_index counts < counts.length := by
          by_contra hge
          rw [List.getElem?_eq_none (by omega)] at hm
          cases hm
        exact ⟨cm + 1, by simp [hlt], by omega⟩
      · exact ⟨c, by simp [him, hi], le_refl _⟩

/-- C23: when the largest and the smallest band count differ by at most 1,
they again differ by at most 1 after every call of `trajectory_generation`
that returns (a successful one increments the band of least count, a failed
one changes nothing) and after every call of `waypoints_generation` that
returns, and no band count is lower than before. -/
theorem altitude_balance_invariant (env : Env) (s : AlgState) (start end_ : Vec3)
    (drone : DroneStatus) (hbal : CountsBalanced s._altitude_drone_count) :
    (∀ r s1, trajectory_generation env s start end_ drone = .ok (r, s1) →
      CountsBalanced s1._altitude_drone_count ∧
        CountsNotLower s._altitude_drone_count s1._altitude_drone_count) ∧
    (∀ r s1, waypoints_generation env s start end_ = .ok (r, s1) →
      CountsBalanced s1._altitude_drone_count ∧
        CountsNotLower s._altitude_drone_count s1._altitude_drone_count) := by
  have hsame : CountsNotLower s._altitude_drone_count s._altitude_drone_count :=
    ⟨rfl, fun i c hi => ⟨c, hi, le_refl _⟩⟩
  constructor
  · intro r s1 h
    obtain ⟨g, sx, sy, ex, ey, dl, hg, hsx, hsy, hex, hey, hdl⟩ :=
      trajectory_generation_setup env s start end_ drone _ h
    rw [trajectory_generation_eq env s start end_ drone g sx sy ex ey dl hg hsx hsy hex hey
      hdl] at h
    rcases assemble_trajectory_cases env s s1 start end_ drone _ _ _ dl r h with
      ⟨_, h2, _⟩ | ⟨takeoff, flying, landing, points, counts, tl, fl, ll, fsl, _, _, _, _, _,
        _, _, hc, _, _, hs⟩
    · rw [h2]
      exact ⟨hbal, hsame⟩
    · rw [hs]
      exact vec_increment_balanced _ _ hbal hc
  · intro r s1 h
    unfold waypoints_generation at h
    obtain ⟨counts, hc, h⟩ := bind_ok_elim _ _ _ h
    obtain ⟨_, _, h⟩ := bind_ok_elim _ _ _ h
    obtain ⟨_, _, h⟩ := bind_ok_elim _ _ _ h
    obtain ⟨_, _, h⟩ := bind_ok_elim _ _ _ h
    obtain ⟨_, _, h⟩ := bind_ok_elim _ _ _ h
    obtain ⟨_, _, h⟩ := bind_ok_elim _ _ _ h
    obtain ⟨_, _, h⟩ := bind_ok_elim _ _ _ h
    simp only [pure, Except.pure, Except.ok.injEq, Prod.mk.injEq] at h
    rw [← h.2]
    exact vec_increment_balanced _ _ hbal hc

/-- The result of `waypoints_generation` when every step returns. -/
theorem waypoints_generation_ok (env : Env) (s : AlgState) (start end_ : Vec3)
    (counts : List Int) (g : Generator) (sx sy ex ey : Int) (interior : List Vec3)
    (hc : vec_increment s._altitude_drone_count (min_element_index s._altitude_drone_count)
      = .ok counts)
    (hg : load_grid env
      ((90 + ((min_element_index s._altitude_drone_count : Int) - 2) * 10 : Int) : ℚ) = .ok g)
    (hsx : to_cell start.x env._cell_size_x = .ok sx)
    (hsy : to_cell start.y env._cell_size_y = .ok sy)
    (hex : to_cell end_.x env._cell_size_x = .ok ex)
    (hey : to_cell end_.y env._cell_size_y = .ok ey)
    (hi : interior_waypoints env
        ((90 + ((min_element_index s._altitude_drone_count : Int) - 2) * 10 : Int) : ℚ)
        (size_minus_one (remove_middle_points (env.findPath g ⟨sx, sy⟩ ⟨ex, ey⟩).reverse).length)
        1 ((remove_middle_points (env.findPath g ⟨sx, sy⟩ ⟨ex, ey⟩).reverse).drop 1)
      = .ok interior) :
    waypoints_generation env s start end_
      = .ok (([(⟨⟨start.x, start.y,
                ((90 + ((min_element_index s._altitude_drone_count : Int) - 2) * 10 : Int) : ℚ)⟩,
                25000, 0⟩ : Segment)]
              ++ interior.map (fun point => (⟨point, 10000, 1⟩ : Segment))
              ++ [⟨⟨end_.x, end_.y,
                  ((90 + ((min_element_index s._altitude_drone_count : Int) - 2) * 10 : Int) : ℚ)⟩,
                  10000, 1⟩, ⟨end_, 25000, 2⟩],
            25000 + 10000 *
              ((interior.map (fun point => (⟨point, 10000, 1⟩ : Segment))).length : Int)
              + 35000),
          { s with _altitude_drone_count := counts }) := by
  unfold waypoints_generation
  simp only [hc, hg, hsx, hsy, hex, hey, hi, bind, Except.bind, pure, Except.pure]

/-- A call of `waypoints_generation` on the one-cell map of the open sample
session, from (0,0,0) to (6,8,0), with band 1 the first band of least count. -/
theorem sample_waypoints_call :
    waypoints_generation sample_env_open
        ⟨[sample_idle_drone "d0" 0 0], [], [], [], [1, 0, 1, 1, 0], 0⟩ ⟨0, 0, 0⟩ ⟨6, 8, 0⟩
      = .ok (([⟨⟨0, 0, 80⟩, 25000, 0⟩, ⟨⟨6, 8, 80⟩, 10000, 1⟩, ⟨⟨6, 8, 0⟩, 25000, 2⟩], 60000),
          ⟨[sample_idle_drone "d0" 0 0], [], [], [], [1, 1, 1, 1, 0], 0⟩) := by
  have c0 : to_cell 0 10 = .ok 0 := to_cell_eq 0 10 0 (by norm_num) (by norm_num) (by norm_num) (by norm_num)
  have c6 : to_cell 6 10 = .ok 0 := to_cell_eq 6 10 0 (by norm_num) (by norm_num) (by norm_num) (by norm_num)
  have c8 : to_cell 8 10 = .ok 0 := to_cell_eq 8 10 0 (by norm_num) (by norm_num) (by norm_num) (by norm_num)
  have e80 : ((90 + (((1 : Nat) : Int) - 2) * 10 : Int) : ℚ) = 80 := by norm_num
  have hgrid : load_grid sample_env_open ((90 + (((1 : Nat) : Int) - 2) * 10 : Int) : ℚ)
      = .ok ⟨⟨1, 1⟩, []⟩ := by
    refine load_grid_one_cell sample_env_open _ 8 rfl ?_ (by norm_num)
    rw [e80]
    exact to_cell_eq 80 10 8 (by norm_num) (by norm_num) (by norm_num) (by norm_num)
  have h := waypoints_generation_ok sample_env_open
    ⟨[sample_idle_drone "d0" 0 0], [], [], [], [1, 0, 1, 1, 0], 0⟩ ⟨0, 0, 0⟩ ⟨6, 8, 0⟩
    [1, 1, 1, 1, 0] ⟨⟨1, 1⟩, []⟩ 0 0 0 0 [] rfl hgrid c0 c0 c6 c8 rfl
  have hmin : min_element_index
      (⟨[sample_idle_drone "d0" 0 0], [], [], [], [1, 0, 1, 1, 0], 0⟩ :
        AlgState)._altitude_drone_count = 1 := rfl
  rw [hmin, e80] at h
  exact h

theorem altitude_balance_invariant_witness :
    CountsBalanced [1, 0, 1, 1, 0] ∧
    trajectory_generation sample_env_open
        ⟨[sample_idle_drone "d0" 0 0], [], [], [], [1, 0, 1, 1, 0], 0⟩
        ⟨0, 0, 0⟩ ⟨6, 8, 0⟩ (sample_idle_drone "d0" 0 0)
      = .ok (([⟨⟨0, 0, 0⟩, 0, 0⟩, ⟨⟨0, 0, 80⟩, 1000, 0⟩, ⟨⟨6, 8, 80⟩, 2000, 1⟩,
              ⟨⟨6, 8, 0⟩, 3000, 2⟩], 3000),
          ⟨[sample_idle_drone "d0" 0 0], [], [],
            [("d0", [⟨⟨0, 0, 0⟩, 0, 0⟩, ⟨⟨0, 0, 80⟩, 1000, 0⟩, ⟨⟨6, 8, 80⟩, 2000, 1⟩,
              ⟨⟨6, 8, 0⟩, 3000, 2⟩])],
            [1, 1, 1, 1, 0], 0⟩) ∧
    waypoints_generation sample_env_open
        ⟨[sample_idle_drone "d0" 0 0], [], [], [], [1, 0, 1, 1, 0], 0⟩ ⟨0, 0, 0⟩ ⟨6, 8, 0⟩
      = .ok (([⟨⟨0, 0, 80⟩, 25000, 0⟩, ⟨⟨6, 8, 80⟩, 10000, 1⟩, ⟨⟨6, 8, 0⟩, 25000, 2⟩], 60000),
          ⟨[sample_idle_drone "d0" 0 0], [], [], [], [1, 1, 1, 1, 0], 0⟩) ∧
    (CountsBalanced [1, 1, 1, 1, 0] ∧ CountsNotLower [1, 0, 1, 1, 0] [1, 1, 1, 1, 0]) ∧
    (CountsBalanced [1, 1, 1, 1, 0] ∧ CountsNotLower [1, 0, 1, 1, 0] [1, 1, 1, 1, 0]) := by
  have c0 : to_cell 0 10 = .ok 0 := to_cell_eq 0 10 0 (by norm_num) (by norm_num) (by norm_num) (by norm_num)
  have c6 : to_cell 6 10 = .ok 0 := to_cell_eq 6 10 0 (by norm_num) (by norm_num) (by norm_num) (by norm_num)
  have c8 : to_cell 8 10 = .ok 0 := to_cell_eq 8 10 0 (by norm_num) (by norm_num) (by norm_num) (by norm_num)
  have e80 : ((90 + (((1 : Nat) : Int) - 2) * 10 : Int) : ℚ) = 80 := by norm_num
  have hrun := sample_open_call [sample_idle_drone "d0" 0 0] [] [] [] [1, 0, 1, 1, 0]
    [1, 1, 1, 1, 0] 0 1 0 0 6 8 (sample_idle_drone "d0" 0 0) rfl (by norm_num) rfl c0 c0 c6 c8
  rw [e80] at hrun
  have hbal : CountsBalanced [1, 0, 1, 1, 0] := by
    unfold CountsBalanced
    decide
  have hinv := altitude_balance_invariant sample_env_open
    ⟨[sample_idle_drone "d0" 0 0], [], [], [], [1, 0, 1, 1, 0], 0⟩ ⟨0, 0, 0⟩ ⟨6, 8, 0⟩
    (sample_idle_drone "d0" 0 0) hbal
  exact ⟨hbal, hrun, sample_waypoints_call, hinv.1 _ _ hrun, hinv.2 _ _ sample_waypoints_call⟩

end Mtuav
